import Mathlib

/-! BGT60 radar firmware: frame acquisition, presence detection, wave classifier

A shallow embedding of `drivers/avian_radar.c`, `drivers/spi.c`,
`src/presence_detection.c` and `src/wave_detector.c`, followed by the
properties proved about it.

Conventions of the embedding

* C arrays are maps from an index to a value (`Nat → Int`, `Nat → Nat`, `Nat → ℝ`);
  a store `a[i] = v` is `setAt a i v`.
* Machine integers are `Nat`/`Int` with the conversion applied where the C
  code converts (`toUInt8`, `toUInt16`, `toUInt32`, `toInt16`).
* `float` arithmetic is exact arithmetic over `ℝ`.
* The SPI peripheral is a `Bus`: the bytes the device will present on MISO,
  one per 8-bit exchange, and the trace of everything the firmware did on
  the bus, the reset line and the delay timer.  Busy-wait loops on the
  peripheral's ready flags are taken to complete.
-/

namespace Bjt60

/-! ## Machine integers and array stores -/

/-- Conversion to `uint8_t`. -/
def toUInt8 (x : Nat) : Nat := x % 256

/-- Conversion to `uint16_t`. -/
def toUInt16 (x : Nat) : Nat := x % 65536

/-- Conversion to `uint32_t`. -/
def toUInt32 (x : Nat) : Nat := x % 4294967296

/-- Conversion to `int16_t` (two's complement wrap). -/
def toInt16 (x : Int) : Int := (x + 32768) % 65536 - 32768

/-- The store `a[i] = v`. -/
def setAt {α : Type} (a : Nat → α) (i : Nat) (v : α) : Nat → α :=
  fun j => if j = i then v else a j

/-! ## Constants of `avian_radar.h` -/

def AVIAN_REG_MAIN : Nat := 0x00
def AVIAN_REG_ADC0 : Nat := 0x01
def AVIAN_REG_SFCTL : Nat := 0x07
def AVIAN_REG_FSTAT : Nat := 0x5A

def AVIAN_MAIN_FRAME_START : Nat := 1 <<< 0
def AVIAN_MAIN_SW_RESET : Nat := 1 <<< 1
def AVIAN_MAIN_FSM_RESET : Nat := 1 <<< 2
def AVIAN_MAIN_FIFO_RESET : Nat := 1 <<< 3

def AVIAN_FSTAT_FILL_MASK : Nat := 0x1FFF
def AVIAN_FSTAT_FOU_ERR : Nat := 1 <<< 13
def AVIAN_FSTAT_EMPTY : Nat := 1 <<< 14
def AVIAN_FSTAT_FULL : Nat := 1 <<< 15

def AVIAN_ADC0_BGT60TR13C : Nat := 0x0A0240
def AVIAN_ADC0_BGT60TR13E : Nat := 0x0A0200

def RADAR_NUM_SAMPLES : Nat := 64
def RADAR_NUM_CHIRPS : Nat := 64
def RADAR_NUM_RX_ANTENNAS : Nat := 3
def RADAR_FRAME_SIZE : Nat := RADAR_NUM_SAMPLES * RADAR_NUM_CHIRPS * RADAR_NUM_RX_ANTENNAS

def AVIAN_FIFO_READ_ADDR : Nat := 0x60

/-- Expected number of 12-bit samples per frame (`avian_radar.c`). -/
def SAMPLES_PER_FRAME : Nat := RADAR_NUM_SAMPLES * RADAR_NUM_CHIRPS

/-- Number of entries of the exported register table (`avian_registers.h`). -/
def AVIAN_NUM_REGS : Nat := 38

/-- The exported register table: upper byte = address, lower 24 bits = value. -/
def avian_register_config : List Nat :=
  [0x11e8270, 0x30a0210, 0x9e967fd, 0xb0805b4, 0xd102bff, 0xf010d00,
   0x11000000, 0x13000000, 0x15000000, 0x17000be0, 0x19000000, 0x1b000000,
   0x1d000000, 0x1f000b60, 0x2113fc51, 0x237ff41f, 0x25701ce7, 0x2d000490,
   0x3b000480, 0x49000480, 0x57000480, 0x5911be0e, 0x5b62fc0a, 0x5d03f000,
   0x5f787e1e, 0x61a2a850, 0x63000c88, 0x65000172, 0x67000040, 0x69000000,
   0x6b000000, 0x6d000000, 0x6f393b10, 0x7f000100, 0x8f000100, 0x9f000100,
   0xad000000, 0xb7000000]

/-! ## Transport (`spi.c`, `gpio.h`, `clock.h`) -/

/-- What the firmware does on the bus, the reset line and the delay timer. -/
inductive BusEvent where
  | select : BusEvent
  | deselect : BusEvent
  | xfer (tx rx : Nat) : BusEvent
  | delay_ms (n : Nat) : BusEvent
  | reset_low : BusEvent
  | reset_high : BusEvent
  deriving DecidableEq, Repr

/-- The SPI peripheral with the device behind it: `miso k` is what the receive
data register holds after the `k`-th 8-bit exchange, `pos` the number of
exchanges made so far, `trace` the events so far, oldest first. -/
structure Bus where
  miso : Nat → Nat
  pos : Nat
  trace : List BusEvent

def spi_select (bus : Bus) : Bus :=
  { bus with trace := bus.trace ++ [BusEvent.select] }

def spi_deselect (bus : Bus) : Bus :=
  { bus with trace := bus.trace ++ [BusEvent.deselect] }

def delay_ms (n : Nat) (bus : Bus) : Bus :=
  { bus with trace := bus.trace ++ [BusEvent.delay_ms n] }

def radar_reset_low (bus : Bus) : Bus :=
  { bus with trace := bus.trace ++ [BusEvent.reset_low] }

def radar_reset_high (bus : Bus) : Bus :=
  { bus with trace := bus.trace ++ [BusEvent.reset_high] }

/-- One 8-bit exchange: `spi_transfer` returns `(uint8_t)SPI0->SPI_RDR`. -/
def spi_transfer (data : Nat) (bus : Bus) : Nat × Bus :=
  let rx := toUInt8 (bus.miso bus.pos)
  (rx, { bus with pos := bus.pos + 1, trace := bus.trace ++ [BusEvent.xfer data rx] })

/-- The byte sent at index `i`: `tx_buf ? tx_buf[i] : 0xFF`. -/
def tx_data_at (tx_buf : Option (List Nat)) (i : Nat) : Nat :=
  match tx_buf with
  | some t => t.getD i 0
  | none => 0xFF

/-- The conditional store `if (rx_buf) rx_buf[i] = rx_data`. -/
def store_rx (rx_buf : Option (Nat → Nat)) (i rx_data : Nat) : Option (Nat → Nat) :=
  match rx_buf with
  | some b => some (setAt b i rx_data)
  | none => none

/-- The loop of `spi_transfer_buffer` from index `i` with `k` iterations left.
A null `tx_buf` sends `0xFF`; a null `rx_buf` discards what is received. -/
def spi_transfer_loop (tx_buf : Option (List Nat)) :
    Nat → Nat → Option (Nat → Nat) → Bus → Option (Nat → Nat) × Bus
  | 0, _, rx_buf, bus => (rx_buf, bus)
  | k + 1, i, rx_buf, bus =>
    let r := spi_transfer (tx_data_at tx_buf i) bus
    spi_transfer_loop tx_buf k (i + 1) (store_rx rx_buf i r.1) r.2

def spi_transfer_buffer (tx_buf : Option (List Nat)) (rx_buf : Option (Nat → Nat))
    (len : Nat) (bus : Bus) : Option (Nat → Nat) × Bus :=
  spi_transfer_loop tx_buf len 0 rx_buf bus

/-- The content of a buffer handed to `spi_transfer_buffer`, afterwards. -/
def bufOf (r : Option (Nat → Nat) × Bus) (dflt : Nat → Nat) : Nat → Nat :=
  match r.1 with
  | some b => b
  | none => dflt

/-! ## Driver state (`avian_radar.c`) -/

/-- The structure `radar_frame_t`. -/
structure radar_frame_t where
  samples : Nat → Int
  timestamp : Nat
  valid : Bool

/-- The file-scope variables of `avian_radar.c`, the function-static
`packed_buf` of `avian_read_fifo`, and the bus. -/
structure Driver where
  current_frame : radar_frame_t
  acquisition_running : Bool
  frame_counter : Nat
  packed_buf : Nat → Nat
  bus : Bus

/-- Write a register: `[ADDR<<1 | 1][DATA23:16][DATA15:8][DATA7:0]`. -/
def avian_write_reg (addr value : Nat) (bus : Bus) : Bus :=
  let tx_buf : List Nat :=
    [toUInt8 ((addr <<< 1) ||| 0x01),
     toUInt8 ((value >>> 16) &&& 0xFF),
     toUInt8 ((value >>> 8) &&& 0xFF),
     toUInt8 (value &&& 0xFF)]
  let bus1 := spi_select bus
  let r := spi_transfer_buffer (some tx_buf) none 4 bus1
  spi_deselect r.2

/-- Read a register: `[ADDR<<1 | 0][0][0][0]`, the 24-bit value is in bytes 1-3
of the response. -/
def avian_read_reg (addr : Nat) (bus : Bus) : Nat × Bus :=
  let tx_buf : List Nat := [toUInt8 ((addr <<< 1) ||| 0x00), 0, 0, 0]
  let bus1 := spi_select bus
  let r := spi_transfer_buffer (some tx_buf) (some (fun _ => 0)) 4 bus1
  let rx_buf := bufOf r (fun _ => 0)
  let bus2 := spi_deselect r.2
  (toUInt32 ((rx_buf 1 <<< 16) ||| (rx_buf 2 <<< 8) ||| rx_buf 3), bus2)

def avian_hardware_reset (bus : Bus) : Bus :=
  delay_ms 50 (radar_reset_high (delay_ms 10 (radar_reset_low bus)))

def avian_detect (bus : Bus) : Bool × Bus :=
  let bus1 := avian_write_reg AVIAN_REG_SFCTL 0x100000 bus
  let bus2 := delay_ms 1 bus1
  let r := avian_read_reg AVIAN_REG_ADC0 bus2
  (r.1 == AVIAN_ADC0_BGT60TR13C || r.1 == AVIAN_ADC0_BGT60TR13E, r.2)

/-- Number of samples available in the FIFO, as `uint16_t`. -/
def avian_get_fifo_count (bus : Bus) : Nat × Bus :=
  let r := avian_read_reg AVIAN_REG_FSTAT bus
  (toUInt16 (r.1 &&& AVIAN_FSTAT_FILL_MASK), r.2)

def avian_check_fifo_error (bus : Bus) : Bool × Bus :=
  let r := avian_read_reg AVIAN_REG_FSTAT bus
  (r.1 &&& AVIAN_FSTAT_FOU_ERR != 0, r.2)

/-- The body of the unpack loop on the three bytes `b0 b1 b2`: the two raw
12-bit values re-centred and stored as `int16_t`. -/
def unpack_pair (b0 b1 b2 : Nat) : Int × Int :=
  let s0_raw := toUInt16 ((b0 <<< 4) ||| (b1 >>> 4))
  let s1_raw := toUInt16 (((b1 &&& 0x0F) <<< 8) ||| b2)
  (toInt16 (toInt16 (s0_raw : Int) - 2048), toInt16 (toInt16 (s1_raw : Int) - 2048))

/-- The unpack loop `for (uint16_t i = 0; i < num_samples; i += 2)` of
`avian_read_fifo`, entered at `i`; the first argument bounds the number of
iterations, `none` when it runs out. -/
def unpack_loop (num_samples : Nat) (packed_buf : Nat → Nat) :
    Nat → Nat → (Nat → Int) → Option (Nat → Int)
  | 0, _, _ => none
  | fuel + 1, i, samples =>
    if i < num_samples then
      let byte_idx := toUInt16 ((i * 3) / 2)
      let b0 := packed_buf byte_idx
      let b1 := packed_buf (byte_idx + 1)
      let b2 := packed_buf (byte_idx + 2)
      let s := unpack_pair b0 b1 b2
      let samples1 := setAt samples i s.1
      let samples2 := if i + 1 < num_samples then setAt samples1 (i + 1) s.2 else samples1
      unpack_loop num_samples packed_buf fuel (toUInt16 (i + 2)) samples2
    else some samples

/-- The loop counter of the unpack loop runs over the even 16-bit values, so
an execution that leaves the loop does so within `2^15 + 1` tests. -/
def UNPACK_FUEL : Nat := 32769

/-- What `avian_read_fifo` leaves behind: its return value, the sample buffer
it was given, its static `packed_buf`, and the bus. -/
structure FifoRead where
  ok : Bool
  samples : Nat → Int
  packed_buf : Nat → Nat
  bus : Bus

/-- The function `memset(buf, 0, n)` on a byte buffer. -/
def memset0 (buf : Nat → Nat) (n : Nat) : Nat → Nat :=
  fun j => if j < n then 0 else buf j

/-- Read samples from the FIFO in burst mode (`num_samples` is a `uint16_t`);
`none` when the unpack loop does not terminate. -/
def avian_read_fifo (samples : Nat → Int) (num_samples : Nat)
    (packed_buf : Nat → Nat) (bus : Bus) : Option FifoRead :=
  let bytes_to_read := toUInt16 ((num_samples * 3) / 2)
  let cmd : List Nat := [0xFF, toUInt8 (AVIAN_FIFO_READ_ADDR <<< 1), 0, 0]
  let bus1 := spi_select bus
  let r := spi_transfer_buffer (some cmd) (some (fun _ => 0)) 4 bus1
  let gsr0_response := bufOf r (fun _ => 0)
  if gsr0_response 0 &&& 0x08 != 0 then
    some { ok := false, samples := samples, packed_buf := packed_buf,
           bus := spi_deselect r.2 }
  else
    let packed0 := memset0 packed_buf bytes_to_read
    let r2 := spi_transfer_buffer none (some packed0) bytes_to_read r.2
    let packed1 := bufOf r2 packed0
    let bus2 := spi_deselect r2.2
    match unpack_loop num_samples packed1 UNPACK_FUEL 0 samples with
    | none => none
    | some samples1 =>
      some { ok := true, samples := samples1, packed_buf := packed1, bus := bus2 }

def avian_frame_complete (bus : Bus) : Bool × Bus :=
  let r := avian_get_fifo_count bus
  (decide (r.1 ≥ SAMPLES_PER_FRAME), r.2)

/-- Reset the FIFO (`radar_reset_fifo`). -/
def radar_reset_fifo (d : Driver) : Driver :=
  let bus1 := avian_write_reg AVIAN_REG_MAIN (AVIAN_MAIN_FIFO_RESET ||| AVIAN_MAIN_FSM_RESET) d.bus
  let bus2 := delay_ms 1 bus1
  let bus3 := avian_write_reg AVIAN_REG_MAIN 0 bus2
  { d with bus := bus3, current_frame := { d.current_frame with valid := false } }

/-- The register programming loop of `radar_init` over the table entries. -/
def program_registers : List Nat → Bus → Bus
  | [], bus => bus
  | reg_data :: rest, bus =>
    let addr := toUInt8 ((reg_data >>> 24) &&& 0xFF)
    let value := reg_data &&& 0xFFFFFF
    program_registers rest (delay_ms 1 (avian_write_reg addr value bus))

def radar_init (d : Driver) : Bool × Driver :=
  let bus1 := avian_hardware_reset d.bus
  let det := avian_detect bus1
  if !det.1 then
    (false, { d with bus := det.2 })
  else
    let bus2 := delay_ms 10 (avian_write_reg AVIAN_REG_MAIN AVIAN_MAIN_SW_RESET det.2)
    let bus3 := delay_ms 5
      (avian_write_reg AVIAN_REG_MAIN (AVIAN_MAIN_FIFO_RESET ||| AVIAN_MAIN_FSM_RESET) bus2)
    let bus4 := delay_ms 5 (avian_write_reg AVIAN_REG_MAIN 0 bus3)
    let bus5 := program_registers (avian_register_config.take AVIAN_NUM_REGS) bus4
    (true, { d with
      bus := bus5,
      current_frame := { samples := fun _ => 0, timestamp := 0, valid := false },
      acquisition_running := false,
      frame_counter := 0 })

def radar_start (d : Driver) : Driver :=
  let d1 := radar_reset_fifo d
  { d1 with bus := avian_write_reg AVIAN_REG_MAIN AVIAN_MAIN_FRAME_START d1.bus,
            acquisition_running := true }

def radar_start_frame (d : Driver) : Driver :=
  if !d.acquisition_running then
    let d1 := radar_reset_fifo d
    { d1 with bus := avian_write_reg AVIAN_REG_MAIN AVIAN_MAIN_FRAME_START d1.bus,
              acquisition_running := true }
  else d

def radar_stop (d : Driver) : Driver :=
  { d with bus := avian_write_reg AVIAN_REG_MAIN 0 d.bus, acquisition_running := false }

def radar_frame_ready (d : Driver) : Bool × Driver :=
  if !d.acquisition_running then
    (false, d)
  else
    let r := avian_frame_complete d.bus
    (r.1, { d with bus := r.2 })

/-- Get the current frame (`radar_get_frame`): the returned pointer is `NULL`
(`none`) or points to `current_frame`; the outer `none` is a burst read whose
unpack loop does not terminate. -/
def radar_get_frame (d : Driver) : Option (Option radar_frame_t × Driver) :=
  if !d.acquisition_running then
    some (none, d)
  else
    let e := avian_check_fifo_error d.bus
    if e.1 then
      let d1 := radar_reset_fifo { d with bus := e.2 }
      some (none, { d1 with acquisition_running := false })
    else
      match avian_read_fifo d.current_frame.samples SAMPLES_PER_FRAME d.packed_buf e.2 with
      | none => none
      | some r =>
        let d0 : Driver :=
          { d with current_frame := { d.current_frame with samples := r.samples },
                   packed_buf := r.packed_buf, bus := r.bus }
        if !r.ok then
          let d1 := radar_reset_fifo d0
          some (none, { d1 with acquisition_running := false })
        else
          let frame : radar_frame_t :=
            { d0.current_frame with valid := true, timestamp := d0.frame_counter }
          let d2 : Driver :=
            { d0 with current_frame := frame,
                      frame_counter := toUInt32 (d0.frame_counter + 1),
                      acquisition_running := false }
          some (some d2.current_frame, d2)



/-! ## Presence detection (`presence_detection.h`, `presence_detection.c`) -/

def DETECT_START_SAMPLE : Nat := RADAR_NUM_SAMPLES / 8
def DETECT_END_SAMPLE : Nat := RADAR_NUM_SAMPLES / 2

noncomputable def THRESHOLD_PRESENCE : ℝ := 0.0007
noncomputable def ALPHA_SLOW : ℝ := 0.001
noncomputable def ALPHA_MED : ℝ := 0.05
noncomputable def ALPHA_FAST : ℝ := 0.6

/-- The window table of `presence_detection.c`, as written there. -/
noncomputable def blackman_harris_64 : List ℝ :=
  [0.00006000, 0.00033859, 0.00122759, 0.00308442, 0.00651448,
   0.01229611, 0.02142720, 0.03506737, 0.05451028, 0.08109126,
   0.11609082, 0.16060659, 0.21537727, 0.28065893, 0.35612853,
   0.44088266, 0.53343776, 0.63176063, 0.73332737, 0.83522738,
   0.93427919, 1.02718260, 1.11068200, 1.18175298, 1.23779291,
   1.27680299, 1.29752788, 1.29952638, 1.28319155, 1.24973093,
   1.20110711, 1.13988693, 1.06906937, 0.99188432, 0.91157631,
   0.83120313, 0.75343587, 0.68035547, 0.61339846, 0.55335240,
   0.50040049, 0.45419694, 0.41395680, 0.37856633, 0.34666116,
   0.31674609, 0.28727068, 0.25672376, 0.22373068, 0.18720330,
   0.14645685, 0.10131577, 0.05222267, 0.00028682, 0.00006000,
   0.00033859, 0.00122759, 0.00308442, 0.00651448, 0.01229611,
   0.02142720, 0.03506737, 0.05451028, 0.08109126]

/-- The structure `presence_ctx_t`. -/
structure presence_ctx_t where
  slow_avg : Nat → ℝ
  fast_avg : Nat → ℝ
  first_run : Bool
  presence_detected : Bool

/-- The two CMSIS-DSP routines `presence_detect` calls, which are not part of
the repository: `arm_rfft_fast_f32 in` is the output buffer of the 64-point
real FFT of `in`, and `arm_cmplx_mag_f32 src n` the destination buffer after
the magnitudes of the first `n` complex values of `src` have been stored. -/
structure CmsisDsp where
  arm_rfft_fast_f32 : (Nat → ℝ) → (Nat → ℝ)
  arm_cmplx_mag_f32 : (Nat → ℝ) → Nat → (Nat → ℝ)

/-- A counted loop `for (i = start; ...; i++)` with `k` iterations left. -/
def for_loop_from {σ : Type} (body : Nat → σ → σ) : Nat → Nat → σ → σ
  | 0, _, s => s
  | k + 1, i, s => for_loop_from body k (i + 1) (body i s)

/-- The loop `for (i = lo; i < hi; i++) body`. -/
def for_loop {σ : Type} (lo hi : Nat) (body : Nat → σ → σ) (s : σ) : σ :=
  for_loop_from body (hi - lo) lo s

/-- The function `presence_init`: `memset` to zero, then the two flags (the
one-time set-up of the FFT instance belongs to the external library). -/
noncomputable def presence_init (_ctx : presence_ctx_t) : presence_ctx_t :=
  { slow_avg := fun _ => 0, fast_avg := fun _ => 0, first_run := true,
    presence_detected := false }

/-- Step 1 of `presence_detect`: the average over all chirps of the normalised
samples of each range bin. -/
noncomputable def range_profile (frame : radar_frame_t) : Nat → ℝ :=
  for_loop 0 RADAR_NUM_SAMPLES
    (fun s range_samples =>
      let sum := for_loop 0 RADAR_NUM_CHIRPS
        (fun c sum =>
          let idx := c * RADAR_NUM_SAMPLES + s
          let sample := frame.samples idx
          sum + (sample : ℝ) / 32768.0)
        (0.0 : ℝ)
      setAt range_samples s (sum / (RADAR_NUM_CHIRPS : ℝ)))
    (fun _ => 0)

/-- Step 2 of `presence_detect`: the window applied to the range profile. -/
noncomputable def apply_window (range_samples : Nat → ℝ) : Nat → ℝ :=
  for_loop 0 RADAR_NUM_SAMPLES
    (fun i windowed => setAt windowed i (range_samples i * blackman_harris_64.getD i 0))
    (fun _ => 0)

/-- Steps 1 to 4 of `presence_detect`: the buffer `fft_magnitude`. -/
noncomputable def magnitude_spectrum (dsp : CmsisDsp) (frame : radar_frame_t) : Nat → ℝ :=
  let range_samples := range_profile frame
  let windowed := apply_window range_samples
  let fft_output := dsp.arm_rfft_fast_f32 windowed
  dsp.arm_cmplx_mag_f32 fft_output (RADAR_NUM_SAMPLES / 2)

/-- Step 5 of `presence_detect`: both averages take the spectrum. -/
noncomputable def seed_averages (fft_magnitude : Nat → ℝ) (ctx : presence_ctx_t) :
    presence_ctx_t :=
  for_loop 0 (RADAR_NUM_SAMPLES / 2)
    (fun i c =>
      { c with slow_avg := setAt c.slow_avg i (fft_magnitude i),
               fast_avg := setAt c.fast_avg i (fft_magnitude i) })
    ctx

/-- Step 6 of `presence_detect`: the two exponential moving averages. -/
noncomputable def update_averages (fft_magnitude : Nat → ℝ) (alpha_slow_used : ℝ)
    (ctx : presence_ctx_t) : presence_ctx_t :=
  for_loop 0 (RADAR_NUM_SAMPLES / 2)
    (fun i c =>
      let slow := c.slow_avg i * (1.0 - alpha_slow_used) + fft_magnitude i * alpha_slow_used
      let c1 := { c with slow_avg := setAt c.slow_avg i slow }
      let fast := c1.fast_avg i * (1.0 - ALPHA_FAST) + fft_magnitude i * ALPHA_FAST
      { c1 with fast_avg := setAt c1.fast_avg i fast })
    ctx

/-- Step 7 of `presence_detect`: `(max_diff, max_idx)` after the scan of the
detection range. -/
noncomputable def find_max_diff (ctx : presence_ctx_t) : ℝ × Nat :=
  for_loop DETECT_START_SAMPLE (min DETECT_END_SAMPLE (RADAR_NUM_SAMPLES / 2))
    (fun i m =>
      let diff := ctx.fast_avg i - ctx.slow_avg i
      if diff > m.1 then (diff, i) else m)
    ((0.0 : ℝ), 0)

/-- The function `presence_detect` with the threshold of step 8 as a parameter;
`frame` is `none` for a null pointer. -/
noncomputable def presence_detect_thr (dsp : CmsisDsp) (threshold : ℝ) (ctx : presence_ctx_t)
    (frame : Option radar_frame_t) : Bool × presence_ctx_t :=
  match frame with
  | none => (false, ctx)
  | some fr =>
    if !fr.valid then (false, ctx)
    else
      let fft_magnitude := magnitude_spectrum dsp fr
      if ctx.first_run then
        let ctx1 := seed_averages fft_magnitude ctx
        (false, { ctx1 with first_run := false })
      else
        let alpha_slow_used := if ctx.presence_detected then ALPHA_SLOW else ALPHA_MED
        let ctx1 := update_averages fft_magnitude alpha_slow_used ctx
        let m := find_max_diff ctx1
        let ctx2 := { ctx1 with presence_detected := decide (m.1 > threshold) }
        (ctx2.presence_detected, ctx2)

/-- The function `presence_detect`. -/
noncomputable def presence_detect (dsp : CmsisDsp) (ctx : presence_ctx_t)
    (frame : Option radar_frame_t) : Bool × presence_ctx_t :=
  presence_detect_thr dsp THRESHOLD_PRESENCE ctx frame


/-! ## Wave detection (`wave_detector.h`, `wave_detector.c`)

In this section `float` is read as the real numbers and `expf` as the exact
exponential; the section on binary32 arithmetic further down repeats
`wave_detect` with every operation rounded. -/

def WAVE_WINDOW_SIZE : Nat := 16
def WAVE_NUM_CLASSES : Nat := 2

/-- The enumeration `wave_class_t`. -/
inductive wave_class_t where
  | WAVE_CLASS_NO_PRESENCE : wave_class_t
  | WAVE_CLASS_WAVING : wave_class_t
  deriving DecidableEq, Repr

/-- The integer value of an enumerator of `wave_class_t`. -/
def wave_class_t.toNat : wave_class_t → Nat
  | wave_class_t.WAVE_CLASS_NO_PRESENCE => 0
  | wave_class_t.WAVE_CLASS_WAVING => 1

/-- The structure `wave_result_t`. -/
structure wave_result_t where
  predicted_class : wave_class_t
  confidence : ℝ
  scores : Nat → ℝ
  valid : Bool

/-- Layer 1 weights, `w1[16][8]`. -/
noncomputable def w1 : List (List ℝ) :=
  [[0.32980254, -0.02496379, 0.30209440, -0.11644694, 0.04519681, -0.13354440, -0.32077715,
    -0.36338332],
   [-0.40206444, -0.04301091, -0.22268654, 0.10808137, -0.41211712, -0.15678507, 0.20804110,
    -0.21199650],
   [0.18801580, -0.22358067, -0.36946794, -0.48220518, 0.33878481, 0.04329069, -0.34362292,
    0.50366127],
   [0.26452217, 0.42581150, 0.22167429, 0.42777508, 0.43240607, -0.08492296, 0.14961132,
    -0.18232718],
   [0.21364534, 0.46156669, -0.40729040, 0.04020086, 0.48080018, 0.41614047, 0.48359418,
    -0.24080200],
   [-0.31132922, 0.48520765, 0.01171832, 0.35814717, 0.13328038, -0.25391904, -0.40312019,
    -0.51732713],
   [-0.46675530, 0.37558398, 0.22086556, -0.24868231, 0.19133236, -0.02355710, -0.04469455,
    -0.00291827],
   [-0.38197386, -0.07204188, 0.05611242, -0.38166788, -0.44408664, 0.35872978, -0.19372870,
    -0.06949453],
   [0.26647729, -0.37269884, 0.23692526, 0.24892583, -0.05767173, -0.39432275, -0.11378434,
    -0.51935881],
   [-0.13895679, 0.31915131, 0.06958958, 0.07057528, 0.29120213, 0.28267917, 0.00337918,
    -0.36695108],
   [0.05359723, -0.08583080, 0.25963172, 0.04194283, 0.55628926, 0.22609018, 0.43387657,
    -0.06110585],
   [-0.13567379, -0.22794667, 0.17715798, -0.40897074, 0.45271522, -0.19161229, 0.43179619,
    0.46201310],
   [-0.17622799, 0.20866704, -0.09948226, 0.36645931, 0.49236283, 0.31856999, -0.18077825,
    0.29256123],
   [0.32659808, -0.03708697, 0.45204884, 0.19596906, -0.22153094, 0.51280475, 0.48965842,
    -0.18314792],
   [-0.14821732, 0.06111924, 0.19644912, -0.09462006, 0.01200948, -0.08236312, 0.35399389,
    0.33500469],
   [-0.51819670, -0.12815793, 0.49369168, 0.22890970, -0.18535389, 0.30364490, -0.21325979,
    0.29175428]]

/-- Layer 1 biases. -/
noncomputable def b1 : List ℝ :=
  [0.10328110, -0.05915626, -0.04145275, 0.10210554, -0.05003232, -0.03028097, -0.01067997,
    0.00124598]

/-- Layer 2 weights, `w2[8][4]`. -/
noncomputable def w2 : List (List ℝ) :=
  [[0.58832401, 0.70374918, 0.54729235, 0.01879263],
   [0.14009967, -0.13044180, -0.63124835, -0.42119914],
   [0.05174207, -0.34547144, -0.10903412, 0.30865416],
   [-0.13833724, 0.63029885, -0.59256184, -0.62043798],
   [-0.73342377, -0.45763695, -0.02046448, -0.35686213],
   [0.32662791, -0.40250662, 0.38903245, 0.23656723],
   [-0.63624889, -0.21843451, -0.10156664, 0.49817804],
   [0.14059293, -0.03793889, 0.14701013, -0.10218775]]

/-- Layer 2 biases. -/
noncomputable def b2 : List ℝ :=
  [-0.07235415, 0.10248745, -0.01646657, 0.05570351]

/-- Layer 3 weights, `w3[4][2]`. -/
noncomputable def w3 : List (List ℝ) :=
  [[0.85200727, -0.08993543],
   [0.89764124, -0.85179788],
   [0.28849286, 0.52609241],
   [-0.82824796, -0.11782224]]

/-- Layer 3 biases. -/
noncomputable def b3 : List ℝ :=
  [-0.00058696, 0.00058696]

/-- The element `w[i][j]` of a weight table. -/
noncomputable def at2 (w : List (List ℝ)) (i j : Nat) : ℝ := (w.getD i []).getD j 0

/-- ReLU activation. -/
noncomputable def relu (x : ℝ) : ℝ := if x > 0.0 then x else 0.0

/-- One dense layer of `wave_detect`: for each output `j < n_out`,
`sum = b[j]; for i < n_in: sum += x[i] * w[i][j]; out[j] = act(sum)`. -/
noncomputable def dense (n_in n_out : Nat) (w : List (List ℝ)) (b : List ℝ) (act : ℝ → ℝ)
    (x : Nat → ℝ) : Nat → ℝ :=
  for_loop 0 n_out
    (fun j out =>
      let sum := for_loop 0 n_in (fun i sum => sum + x i * at2 w i j) (b.getD j 0)
      setAt out j (act sum))
    (fun _ => 0)

/-- The values `layer3[0]`, `layer3[1]` that `wave_detect` computes from its input. -/
noncomputable def wave_logits (input : Nat → ℝ) : Nat → ℝ :=
  let layer1 := dense 16 8 w1 b1 relu input
  let layer2 := dense 8 4 w2 b2 relu layer1
  dense 4 2 w3 b3 (fun sum => sum) layer2

/-- The function `wave_detect`; `none` is a null pointer. The second component
is what `result` points to afterwards. -/
noncomputable def wave_detect (input : Option (Nat → ℝ)) (result : Option wave_result_t) :
    Bool × Option wave_result_t :=
  match input, result with
  | some inp, some res =>
    let layer3 := wave_logits inp
    let max_val := if layer3 0 > layer3 1 then layer3 0 else layer3 1
    let exp0 := Real.exp (layer3 0 - max_val)
    let exp1 := Real.exp (layer3 1 - max_val)
    let sum_exp := exp0 + exp1
    let res1 := { res with scores := setAt res.scores 0 (exp0 / sum_exp) }
    let res2 := { res1 with scores := setAt res1.scores 1 (exp1 / sum_exp) }
    let res3 :=
      if res2.scores 1 > res2.scores 0 then
        { res2 with predicted_class := wave_class_t.WAVE_CLASS_WAVING,
                    confidence := res2.scores 1 }
      else
        { res2 with predicted_class := wave_class_t.WAVE_CLASS_NO_PRESENCE,
                    confidence := res2.scores 0 }
    (true, some { res3 with valid := true })
  | _, _ => (false, result)


/-! ## Host-side test of the algorithm (`test_algorithm.c`) -/

namespace HostTest

def RADAR_NUM_SAMPLES : Nat := 64
def RADAR_NUM_CHIRPS : Nat := 32
def RADAR_FRAME_SIZE : Nat := RADAR_NUM_SAMPLES * RADAR_NUM_CHIRPS

/-- The structure `radar_frame_t` as the test declares it. -/
structure radar_frame_t where
  samples : Nat → Int
  valid : Bool

def DETECT_START_SAMPLE : Nat := RADAR_NUM_SAMPLES / 8
def DETECT_END_SAMPLE : Nat := RADAR_NUM_SAMPLES / 2

noncomputable def THRESHOLD_PRESENCE : ℝ := 0.0007
noncomputable def ALPHA_SLOW : ℝ := 0.001
noncomputable def ALPHA_MED : ℝ := 0.05
noncomputable def ALPHA_FAST : ℝ := 0.6

/-- The test's `presence_init` (its `presence_ctx_t` has the same four fields
as the firmware's): `memset` to zero, then `first_run = true`. -/
noncomputable def presence_init (_ctx : presence_ctx_t) : presence_ctx_t :=
  { slow_avg := fun _ => 0, fast_avg := fun _ => 0, first_run := true,
    presence_detected := false }

/-- The energy per sample of `presence_detect_simple`. -/
noncomputable def sample_energy (frame : radar_frame_t) : Nat → ℝ :=
  for_loop 0 RADAR_NUM_SAMPLES
    (fun s energy =>
      let sum := for_loop 0 RADAR_NUM_CHIRPS
        (fun c sum =>
          let sample := frame.samples (c * RADAR_NUM_SAMPLES + s)
          let val := (sample : ℝ) / 32768.0
          sum + val * val)
        (0.0 : ℝ)
      setAt energy s (sum / (RADAR_NUM_CHIRPS : ℝ)))
    (fun _ => 0)

/-- The seeding loop of `presence_detect_simple`, over all 64 entries. -/
noncomputable def seed_simple (energy : Nat → ℝ) (ctx : presence_ctx_t) : presence_ctx_t :=
  for_loop 0 RADAR_NUM_SAMPLES
    (fun i c =>
      { c with slow_avg := setAt c.slow_avg i (energy i),
               fast_avg := setAt c.fast_avg i (energy i) })
    ctx

/-- The update loop of `presence_detect_simple`, over all 64 entries. -/
noncomputable def update_simple (energy : Nat → ℝ) (alpha_slow_used : ℝ)
    (ctx : presence_ctx_t) : presence_ctx_t :=
  for_loop 0 RADAR_NUM_SAMPLES
    (fun i c =>
      let slow := c.slow_avg i * (1.0 - alpha_slow_used) + energy i * alpha_slow_used
      let c1 := { c with slow_avg := setAt c.slow_avg i slow }
      let fast := c1.fast_avg i * (1.0 - ALPHA_FAST) + energy i * ALPHA_FAST
      { c1 with fast_avg := setAt c1.fast_avg i fast })
    ctx

/-- The maximum-difference loop of `presence_detect_simple`. -/
noncomputable def max_diff_simple (ctx : presence_ctx_t) : ℝ :=
  for_loop DETECT_START_SAMPLE DETECT_END_SAMPLE
    (fun i max_diff =>
      let diff := ctx.fast_avg i - ctx.slow_avg i
      if diff > max_diff then diff else max_diff)
    (0.0 : ℝ)

/-- The function `presence_detect_simple`; `frame` is `none` for a null pointer. -/
noncomputable def presence_detect_simple (ctx : presence_ctx_t) (frame : Option radar_frame_t) :
    Bool × presence_ctx_t :=
  match frame with
  | none => (false, ctx)
  | some fr =>
    if !fr.valid then (false, ctx)
    else
      let energy := sample_energy fr
      if ctx.first_run then
        let ctx1 := seed_simple energy ctx
        (false, { ctx1 with first_run := false })
      else
        let alpha_slow_used := if ctx.presence_detected then ALPHA_SLOW else ALPHA_MED
        let ctx1 := update_simple energy alpha_slow_used ctx
        let max_diff := max_diff_simple ctx1
        let ctx2 := { ctx1 with presence_detected := decide (max_diff > THRESHOLD_PRESENCE) }
        (ctx2.presence_detected, ctx2)

/-- The frame loop of the test's `main` on a given list of frames: the value
of `detected` for each frame and the context at the end. -/
noncomputable def test_run : presence_ctx_t → List radar_frame_t → List Bool × presence_ctx_t
  | ctx, [] => ([], ctx)
  | ctx, fr :: rest =>
    let r := presence_detect_simple ctx (some fr)
    let t := test_run r.2 rest
    (r.1 :: t.1, t.2)

/-- The test's frame generator without its random terms: every sample is 0,
except that with a target the sample at index 20 of every chirp is 1000. -/
def scenario_frame (add_target : Bool) : radar_frame_t :=
  { samples := fun i => if add_target ∧ i % RADAR_NUM_SAMPLES = 20 then 1000 else 0,
    valid := true }

/-- The flag `target_present` of the test's `main` for frame `f`. -/
def target_present (f : Nat) : Bool := decide (f ≥ 30 ∧ f < 70)

/-- The 100 frames of the scenario. -/
def scenario_frames : List radar_frame_t :=
  (List.range 100).map (fun f => scenario_frame (target_present f))

/-- The energy at sample 20 of a scenario frame, as a rational number. -/
def scenario_energy (add_target : Bool) : ℚ :=
  if add_target then (1000 / 32768) * (1000 / 32768) else 0

/-- The detector's state at sample 20 in rational arithmetic:
slow average, fast average, `first_run`, `presence_detected`. -/
structure Track where
  slow : ℚ
  fast : ℚ
  first_run : Bool
  presence_detected : Bool

/-- One call of the detector followed at sample 20 only, all other entries
of the detection range being zero: the decision and the next state. -/
def track_step (e : ℚ) (t : Track) : Bool × Track :=
  if t.first_run then
    (false, { slow := e, fast := e, first_run := false,
              presence_detected := t.presence_detected })
  else
    let a : ℚ := if t.presence_detected then 1 / 1000 else 1 / 20
    let slow := t.slow * (1 - a) + e * a
    let fast := t.fast * (1 - 3 / 5) + e * (3 / 5)
    let p := decide (fast - slow > 7 / 10000)
    (p, { slow := slow, fast := fast, first_run := false, presence_detected := p })

/-- The decisions of `track_step` over a list of energies. -/
def track_run : Track → List ℚ → List Bool
  | _, [] => []
  | t, e :: rest => (track_step e t).1 :: track_run (track_step e t).2 rest

/-- The context agrees with a rational state at sample 20 and is zero at the
other entries of the detection range. -/
def Tracks (ctx : presence_ctx_t) (t : Track) : Prop :=
  ctx.first_run = t.first_run ∧ ctx.presence_detected = t.presence_detected ∧
  ctx.slow_avg 20 = (t.slow : ℝ) ∧ ctx.fast_avg 20 = (t.fast : ℝ) ∧
  ∀ i, 8 ≤ i → i < 32 → i ≠ 20 → ctx.slow_avg i = 0 ∧ ctx.fast_avg i = 0

end HostTest

/-! ## Wave detection in binary32 arithmetic

The C code computes in `float`. This section repeats `wave_detect` with every
operation rounded to binary32 (round to nearest, ties to even). A finite
binary32 value is an integer multiple of `2^-149` and is held as that integer.
Overflow to infinity and NaN are not represented: with inputs in `[0, 1]` every
value of the forward pass is below `2^10` in magnitude. -/

namespace Binary32

/-- A finite binary32 value `units * 2^-149`. -/
structure F32 where
  units : Int
  deriving DecidableEq

/-- The rational number a binary32 value stands for. -/
def F32.toRat (x : F32) : ℚ := x.units / ((2 ^ 149 : Nat) : ℚ)

/-- The number `floor (log2 n)` for `0 < n < 2 ^ fuel`, and 0 for `n = 0`. -/
def log2_floor : Nat → Nat → Nat
  | 0, _ => 0
  | fuel + 1, n => if n < 2 then 0 else log2_floor fuel (n / 2) + 1

/-- The binary32 value nearest to `n / d * 2^-149`, ties to even. With
`e = floor (log2 (|n| / d))`, the binary32 values of that magnitude are spaced
`2 ^ (e - 23)` units apart (one unit for subnormal numbers and in the first
normal binade). Products and quotients of finite binary32 values are below
`2 ^ 512` units. -/
def F32.round (n : Int) (d : Nat) : F32 :=
  let a := n.natAbs
  let s := log2_floor 512 (a / d) - 23
  let q := d * 2 ^ s
  let k := a / q
  let r := a % q
  let k1 := if q < 2 * r ∨ (2 * r = q ∧ k % 2 = 1) then k + 1 else k
  if n < 0 then ⟨-((k1 * 2 ^ s : Nat) : Int)⟩ else ⟨((k1 * 2 ^ s : Nat) : Int)⟩

/-- The constant `0.0f`. -/
def F32.zero : F32 := ⟨0⟩

/-- The value `1.0f`. -/
def F32.one : F32 := ⟨((2 ^ 149 : Nat) : Int)⟩

/-- The value `0.5f`. -/
def F32.half : F32 := ⟨((2 ^ 148 : Nat) : Int)⟩

/-- The value `2.0f`. -/
def F32.two : F32 := ⟨((2 ^ 150 : Nat) : Int)⟩

/-- The largest binary32 value below 1, `1 - 2^-24` (`0.99999994f`). -/
def F32.below_one : F32 := ⟨((2 ^ 149 - 2 ^ 125 : Nat) : Int)⟩

/-- The largest binary32 value below one half, `0.5 - 2^-25` (`0.49999997f`). -/
def F32.below_half : F32 := ⟨((2 ^ 148 - 2 ^ 124 : Nat) : Int)⟩

/-- The comparison `a > b`. -/
def F32.gt (a b : F32) : Bool := decide (b.units < a.units)

/-- The sum `a + b`, rounded. -/
def F32.add (a b : F32) : F32 := F32.round (a.units + b.units) 1

/-- The difference `a - b`, rounded. -/
def F32.sub (a b : F32) : F32 := F32.round (a.units - b.units) 1

/-- The product `a * b`, rounded. -/
def F32.mul (a b : F32) : F32 := F32.round (a.units * b.units) (2 ^ 149)

/-- The quotient `a / b`, rounded, for `b` other than zero. -/
def F32.div (a b : F32) : F32 :=
  if b.units < 0 then F32.round (-(a.units * ((2 ^ 149 : Nat) : Int))) b.units.natAbs
  else F32.round (a.units * ((2 ^ 149 : Nat) : Int)) b.units.natAbs

/-- The fused multiply-add `x * w + s` with one rounding. -/
def F32.fma (x w s : F32) : F32 :=
  F32.round (x.units * w.units + s.units * ((2 ^ 149 : Nat) : Int)) (2 ^ 149)

/-- The statement `sum += x * w`: product and sum rounded one after the other,
or, when the compiler contracts the expression, a fused multiply-add. -/
def mac (contract : Bool) (sum x w : F32) : F32 :=
  if contract then F32.fma x w sum else F32.add sum (F32.mul x w)

/-- The value of a `float` literal with eight decimals, given as the integer
`n` with the literal equal to `n / 10^8`. -/
def F32.lit8 (n : Int) : F32 := F32.round (n * ((2 ^ 149 : Nat) : Int)) (10 ^ 8)

/-- The structure `wave_result_t` with `float` members. -/
structure wave_result_t where
  predicted_class : wave_class_t
  confidence : F32
  scores : Nat → F32
  valid : Bool

/-- Layer 1 weights `w1[16][8]`, in units of `10^-8`. -/
def w1 : List (List Int) :=
  [[32980254, -2496379, 30209440, -11644694, 4519681, -13354440, -32077715, -36338332],
   [-40206444, -4301091, -22268654, 10808137, -41211712, -15678507, 20804110, -21199650],
   [18801580, -22358067, -36946794, -48220518, 33878481, 4329069, -34362292, 50366127],
   [26452217, 42581150, 22167429, 42777508, 43240607, -8492296, 14961132, -18232718],
   [21364534, 46156669, -40729040, 4020086, 48080018, 41614047, 48359418, -24080200],
   [-31132922, 48520765, 1171832, 35814717, 13328038, -25391904, -40312019, -51732713],
   [-46675530, 37558398, 22086556, -24868231, 19133236, -2355710, -4469455, -291827],
   [-38197386, -7204188, 5611242, -38166788, -44408664, 35872978, -19372870, -6949453],
   [26647729, -37269884, 23692526, 24892583, -5767173, -39432275, -11378434, -51935881],
   [-13895679, 31915131, 6958958, 7057528, 29120213, 28267917, 337918, -36695108],
   [5359723, -8583080, 25963172, 4194283, 55628926, 22609018, 43387657, -6110585],
   [-13567379, -22794667, 17715798, -40897074, 45271522, -19161229, 43179619, 46201310],
   [-17622799, 20866704, -9948226, 36645931, 49236283, 31856999, -18077825, 29256123],
   [32659808, -3708697, 45204884, 19596906, -22153094, 51280475, 48965842, -18314792],
   [-14821732, 6111924, 19644912, -9462006, 1200948, -8236312, 35399389, 33500469],
   [-51819670, -12815793, 49369168, 22890970, -18535389, 30364490, -21325979, 29175428]]

/-- Layer 1 biases, in units of `10^-8`. -/
def b1 : List Int :=
  [10328110, -5915626, -4145275, 10210554, -5003232, -3028097, -1067997, 124598]

/-- Layer 2 weights `w2[8][4]`, in units of `10^-8`. -/
def w2 : List (List Int) :=
  [[58832401, 70374918, 54729235, 1879263],
   [14009967, -13044180, -63124835, -42119914],
   [5174207, -34547144, -10903412, 30865416],
   [-13833724, 63029885, -59256184, -62043798],
   [-73342377, -45763695, -2046448, -35686213],
   [32662791, -40250662, 38903245, 23656723],
   [-63624889, -21843451, -10156664, 49817804],
   [14059293, -3793889, 14701013, -10218775]]

/-- Layer 2 biases, in units of `10^-8`. -/
def b2 : List Int :=
  [-7235415, 10248745, -1646657, 5570351]

/-- Layer 3 weights `w3[4][2]`, in units of `10^-8`. -/
def w3 : List (List Int) :=
  [[85200727, -8993543],
   [89764124, -85179788],
   [28849286, 52609241],
   [-82824796, -11782224]]

/-- Layer 3 biases, in units of `10^-8`. -/
def b3 : List Int :=
  [-58696, 58696]

/-- The element `w[i][j]` of a weight table. -/
def at2 (w : List (List Int)) (i j : Nat) : F32 := F32.lit8 ((w.getD i []).getD j 0)

/-- ReLU activation. -/
def relu (x : F32) : F32 := if F32.gt x F32.zero then x else F32.zero

/-- One dense layer of `wave_detect`: for each output `j < n_out`,
`sum = b[j]; for i < n_in: sum += x[i] * w[i][j]; out[j] = act(sum)`. -/
def dense (contract : Bool) (n_in n_out : Nat) (w : List (List Int)) (b : List Int)
    (act : F32 → F32) (x : Nat → F32) : Nat → F32 :=
  for_loop 0 n_out
    (fun j out =>
      let sum := for_loop 0 n_in (fun i sum => mac contract sum (x i) (at2 w i j))
        (F32.lit8 (b.getD j 0))
      setAt out j (act sum))
    (fun _ => F32.zero)

/-- The values `layer3[0]`, `layer3[1]` that `wave_detect` computes from its input. -/
def wave_logits (contract : Bool) (input : Nat → F32) : Nat → F32 :=
  let layer1 := dense contract 16 8 w1 b1 relu input
  let layer2 := dense contract 8 4 w2 b2 relu layer1
  dense contract 4 2 w3 b3 (fun sum => sum) layer2

/-- The function `wave_detect` in binary32; `none` is a null pointer and `expf`
is the C library function. The second component is what `result` points to
afterwards. -/
def wave_detect (contract : Bool) (expf : F32 → F32) (input : Option (Nat → F32))
    (result : Option wave_result_t) : Bool × Option wave_result_t :=
  match input, result with
  | some inp, some res =>
    let layer3 := wave_logits contract inp
    let max_val := if F32.gt (layer3 0) (layer3 1) then layer3 0 else layer3 1
    let exp0 := expf (F32.sub (layer3 0) max_val)
    let exp1 := expf (F32.sub (layer3 1) max_val)
    let sum_exp := F32.add exp0 exp1
    let res1 := { res with scores := setAt res.scores 0 (F32.div exp0 sum_exp) }
    let res2 := { res1 with scores := setAt res1.scores 1 (F32.div exp1 sum_exp) }
    let res3 :=
      if F32.gt (res2.scores 1) (res2.scores 0) then
        { res2 with predicted_class := wave_class_t.WAVE_CLASS_WAVING,
                    confidence := res2.scores 1 }
      else
        { res2 with predicted_class := wave_class_t.WAVE_CLASS_NO_PRESENCE,
                    confidence := res2.scores 0 }
    (true, some { res3 with valid := true })
  | _, _ => (false, result)

/-- An energy window in `[0, 1]`, entry `i` being `k / 2^24` for the `i`-th `k`
of the list: `1, 1, 0, 0, 0, 0.5, 0, 0.5, 0.5, 0.5, 0, 0, 3898618 / 2^24, 0.5,
0.5, 1`. -/
def close_window (i : Nat) : F32 :=
  ⟨([16777216, 16777216, 0, 0, 0, 8388608, 0, 8388608, 8388608, 8388608, 0, 0, 3898618,
     8388608, 8388608, 16777216] : List Int).getD i 0 * ((2 ^ 125 : Nat) : Int)⟩

end Binary32

/-! ## Specification-side definitions -/

/-- The documented packing of two 12-bit values into three bytes:
`B0 = S0[11:4]`, `B1 = S0[3:0] | S1[11:8]`, `B2 = S1[7:0]`. -/
def pack_pair (s0 s1 : Nat) : Nat × Nat × Nat :=
  (s0 >>> 4, ((s0 &&& 0xF) <<< 4) ||| (s1 >>> 8), s1 &&& 0xFF)

/-- The sample the unpack loop stores at index `j`, read off `packed_buf`. -/
def unpacked (packed_buf : Nat → Nat) (j : Nat) : Int :=
  if j % 2 = 0 then
    (unpack_pair (packed_buf (3 * (j / 2))) (packed_buf (3 * (j / 2) + 1))
      (packed_buf (3 * (j / 2) + 2))).1
  else
    (unpack_pair (packed_buf (3 * (j / 2))) (packed_buf (3 * (j / 2) + 1))
      (packed_buf (3 * (j / 2) + 2))).2

/-- The `k`-th byte the device presents from now on, as received. -/
def rx_byte (bus : Bus) (k : Nat) : Nat := toUInt8 (bus.miso (bus.pos + k))

/-- The bus after the 4-byte burst header has been exchanged (chip still selected). -/
def after_header (bus : Bus) : Bus :=
  { miso := bus.miso, pos := bus.pos + 4,
    trace := bus.trace ++
      [BusEvent.select,
       BusEvent.xfer 0xFF (rx_byte bus 0),
       BusEvent.xfer 0xC0 (rx_byte bus 1),
       BusEvent.xfer 0 (rx_byte bus 2),
       BusEvent.xfer 0 (rx_byte bus 3)] }

/-- The packed buffer after a burst of `len` payload bytes. -/
def packed_after (packed_buf : Nat → Nat) (bus : Bus) (len : Nat) : Nat → Nat :=
  fun j => if j < len then rx_byte bus (4 + j) else packed_buf j

/-- The `j`-th payload byte of a burst read started now: the byte received
after the four bytes that answer the header. -/
def payload (bus : Bus) (j : Nat) : Nat := rx_byte bus (4 + j)

/-- The 24-bit value carried in bytes 1-3 of the next 4-byte register response. -/
def reg_value (bus : Bus) : Nat :=
  (rx_byte bus 1 <<< 16) ||| (rx_byte bus 2 <<< 8) ||| rx_byte bus 3

/-- A device that answers every fourth byte, from the first on, with bit 3 set. -/
def overflow_bus : Bus :=
  { miso := fun k => if k % 4 = 0 then 0x08 else 0, pos := 0, trace := [] }

/-- A driver that is acquiring on `overflow_bus`, holding a valid frame. -/
def overflow_driver : Driver :=
  { current_frame := { samples := fun _ => 7, timestamp := 2, valid := true },
    acquisition_running := true,
    frame_counter := 3,
    packed_buf := fun _ => 0,
    bus := overflow_bus }

/-- The detector fed a list of frames, oldest first, with the threshold as a
parameter: the decisions it returns and the context it ends in. -/
noncomputable def detect_run (dsp : CmsisDsp) (threshold : ℝ) :
    presence_ctx_t → List radar_frame_t → List Bool × presence_ctx_t
  | ctx, [] => ([], ctx)
  | ctx, fr :: rest =>
    let r := presence_detect_thr dsp threshold ctx (some fr)
    let t := detect_run dsp threshold r.2 rest
    (r.1 :: t.1, t.2)

/-- The largest value of `fast_avg[i] - slow_avg[i]` over the bins `8 ≤ i < 32`. -/
noncomputable def band_max (ctx : presence_ctx_t) : ℝ :=
  (Finset.Ico 8 32).sup' ⟨8, by decide⟩ (fun i => ctx.fast_avg i - ctx.slow_avg i)

/-- Real part of bin `k` of the 64-point discrete Fourier transform of `x`. -/
noncomputable def dft_re (x : Nat → ℝ) (k : Nat) : ℝ :=
  Finset.sum (Finset.range 64) (fun n => x n * Real.cos (2 * Real.pi * k * n / 64))

/-- Imaginary part of bin `k` of the 64-point discrete Fourier transform of `x`. -/
noncomputable def dft_im (x : Nat → ℝ) (k : Nat) : ℝ :=
  - Finset.sum (Finset.range 64) (fun n => x n * Real.sin (2 * Real.pi * k * n / 64))

/-- The CMSIS-DSP routine `arm_rfft_fast_f32` for length 64 in exact arithmetic,
after its documentation: the output holds the real parts of bins 0 and 32 in
its first two slots, then real and imaginary part of bins 1 to 31. -/
noncomputable def cmsis_rfft_fast_64 (x : Nat → ℝ) : Nat → ℝ :=
  fun j =>
    if j = 0 then dft_re x 0
    else if j = 1 then dft_re x 32
    else if j % 2 = 0 then dft_re x (j / 2)
    else dft_im x (j / 2)

/-- The CMSIS-DSP routine `arm_cmplx_mag_f32` in exact arithmetic, after its
documentation: `dst[k] = sqrt(src[2k]^2 + src[2k+1]^2)` for `k < n`. -/
noncomputable def cmsis_cmplx_mag (src : Nat → ℝ) (n : Nat) : Nat → ℝ :=
  fun k => if k < n then Real.sqrt (src (2 * k) ^ 2 + src (2 * k + 1) ^ 2) else 0

/-- The two CMSIS-DSP routines in exact arithmetic. -/
noncomputable def cmsis_exact : CmsisDsp :=
  { arm_rfft_fast_f32 := cmsis_rfft_fast_64, arm_cmplx_mag_f32 := cmsis_cmplx_mag }

/-- A valid frame in which sample 27 of every chirp is `a` and all others are 0. -/
def impulse_frame (a : Int) : radar_frame_t :=
  { samples := fun idx => if idx % 64 = 27 then a else 0, timestamp := 0, valid := true }

/-- Four frames with amplitudes 1000, 1034, 0 and 1400 at sample 27. -/
def impulse_frames : List radar_frame_t :=
  [impulse_frame 1000, impulse_frame 1034, impulse_frame 0, impulse_frame 1400]

/-- An arbitrary context to start from. -/
noncomputable def ctx_zero : presence_ctx_t :=
  { slow_avg := fun _ => 0, fast_avg := fun _ => 0, first_run := false,
    presence_detected := true }

/-! ## Specification-side definitions: call sequences on the driver -/

/-- The public operations of the driver that a caller may interleave. -/
inductive DriverCall where
  | start : DriverCall
  | start_frame : DriverCall
  | stop : DriverCall
  | reset_fifo : DriverCall
  | frame_ready : DriverCall
  | get_frame : DriverCall
  deriving DecidableEq, Repr

/-- What a call returns: nothing, the answer of `radar_frame_ready`, or the
pointer returned by `radar_get_frame`. -/
inductive CallResult where
  | done : CallResult
  | ready (b : Bool) : CallResult
  | frame (f : Option radar_frame_t) : CallResult

/-- One call on the driver; `none` when the call does not return. -/
def driver_call : DriverCall → Driver → Option (CallResult × Driver)
  | DriverCall.start, d => some (CallResult.done, radar_start d)
  | DriverCall.start_frame, d => some (CallResult.done, radar_start_frame d)
  | DriverCall.stop, d => some (CallResult.done, radar_stop d)
  | DriverCall.reset_fifo, d => some (CallResult.done, radar_reset_fifo d)
  | DriverCall.frame_ready, d =>
    some (CallResult.ready (radar_frame_ready d).1, (radar_frame_ready d).2)
  | DriverCall.get_frame, d =>
    match radar_get_frame d with
    | none => none
    | some r => some (CallResult.frame r.1, r.2)

/-- A sequence of calls, oldest first: the results in order and the final driver. -/
def driver_run : List DriverCall → Driver → Option (List CallResult × Driver)
  | [], d => some ([], d)
  | c :: rest, d =>
    match driver_call c d with
    | none => none
    | some r =>
      match driver_run rest r.2 with
      | none => none
      | some t => some (r.1 :: t.1, t.2)

/-- The frames delivered by the successful `radar_get_frame` calls of a run, in order. -/
def delivered : List CallResult → List radar_frame_t
  | [] => []
  | CallResult.frame (some f) :: rest => f :: delivered rest
  | _ :: rest => delivered rest

/-- A result that reports nothing to read: `radar_frame_ready` answered false or
`radar_get_frame` returned `NULL`. -/
def nothing_read : CallResult → Prop
  | CallResult.done => True
  | CallResult.ready b => b = false
  | CallResult.frame f => f = none

/-- The 24-bit value carried in bytes 1-3 of the register response that follows
one 4-byte write: what `avian_detect` reads from ADC0 after its SFCTL write. -/
def adc0_response (bus : Bus) : Nat :=
  (rx_byte bus 5 <<< 16) ||| (rx_byte bus 6 <<< 8) ||| rx_byte bus 7

/-- The six bus events of `avian_write_reg addr value`, the device answering
from response byte `k` on. -/
def write_events (bus : Bus) (k addr value : Nat) : List BusEvent :=
  [BusEvent.select,
   BusEvent.xfer (toUInt8 ((addr <<< 1) ||| 0x01)) (rx_byte bus k),
   BusEvent.xfer (toUInt8 ((value >>> 16) &&& 0xFF)) (rx_byte bus (k + 1)),
   BusEvent.xfer (toUInt8 ((value >>> 8) &&& 0xFF)) (rx_byte bus (k + 2)),
   BusEvent.xfer (toUInt8 (value &&& 0xFF)) (rx_byte bus (k + 3)),
   BusEvent.deselect]

/-- The six bus events of `avian_read_reg addr`, the device answering from
response byte `k` on. -/
def read_events (bus : Bus) (k addr : Nat) : List BusEvent :=
  [BusEvent.select,
   BusEvent.xfer (toUInt8 ((addr <<< 1) ||| 0x00)) (rx_byte bus k),
   BusEvent.xfer 0 (rx_byte bus (k + 1)),
   BusEvent.xfer 0 (rx_byte bus (k + 2)),
   BusEvent.xfer 0 (rx_byte bus (k + 3)),
   BusEvent.deselect]

/-- A device that answers every byte with zero. -/
def quiet_bus : Bus := { miso := fun _ => 0, pos := 0, trace := [] }

/-- A device that identifies as a BGT60TR13C (ADC0 reads `0x0A0240` after one
write) and answers zero otherwise. -/
def bgt60_bus : Bus :=
  { miso := fun k => if k = 5 then 0x0A else if k = 6 then 0x02 else if k = 7 then 0x40 else 0,
    pos := 0, trace := [] }

/-- The driver as it is at boot (zeroed statics) on a given bus. -/
def boot_driver (bus : Bus) : Driver :=
  { current_frame := { samples := fun _ => 0, timestamp := 0, valid := false },
    acquisition_running := false,
    frame_counter := 0,
    packed_buf := fun _ => 0,
    bus := bus }

/-- A device whose FSTAT response carries the overflow/underflow bit 13. -/
def fou_bus : Bus :=
  { miso := fun k => if k = 2 then 0x20 else 0, pos := 0, trace := [] }

/-- A driver that is acquiring on a given bus. -/
def acquiring_driver (bus : Bus) : Driver :=
  { current_frame := { samples := fun _ => 0, timestamp := 0, valid := true },
    acquisition_running := true,
    frame_counter := 0,
    packed_buf := fun _ => 0,
    bus := bus }

/-! ## Specification-side definitions: the register table on the wire -/

/-- The address `radar_init` takes from a table entry: its upper byte. -/
def table_address (reg_data : Nat) : Nat := toUInt8 ((reg_data >>> 24) &&& 0xFF)

/-- The first byte `avian_write_reg` transmits for a table entry in the
programming loop of `radar_init`. -/
def command_byte (reg_data : Nat) : Nat := toUInt8 ((table_address reg_data <<< 1) ||| 0x01)

/-! ## Specification-side definitions: the array accesses of the unpack loop -/

/-- The unpack loop of `avian_read_fifo` (the loop of `unpack_loop`) followed
for its array accesses only: the indices of `packed_buf` it reads and the
indices of `samples` it writes, in order. -/
def unpack_accesses (num_samples : Nat) : Nat → Nat → Option (List Nat × List Nat)
  | 0, _ => none
  | fuel + 1, i =>
    if i < num_samples then
      let byte_idx := toUInt16 ((i * 3) / 2)
      match unpack_accesses num_samples fuel (toUInt16 (i + 2)) with
      | none => none
      | some t =>
        some (byte_idx :: (byte_idx + 1) :: (byte_idx + 2) :: t.1,
              if i + 1 < num_samples then i :: (i + 1) :: t.2 else i :: t.2)
    else some ([], [])

/-! ## Lemmas: transport -/

theorem spi_transfer_loop_spec (tx_buf : Option (List Nat)) (k i : Nat)
    (rx_buf : Option (Nat → Nat)) (bus : Bus) :
    (spi_transfer_loop tx_buf k i rx_buf bus).2.miso = bus.miso ∧
    (spi_transfer_loop tx_buf k i rx_buf bus).2.pos = bus.pos + k ∧
    (spi_transfer_loop tx_buf k i rx_buf bus).2.trace =
      bus.trace ++ (List.range k).map (fun d =>
        BusEvent.xfer (tx_data_at tx_buf (i + d)) (toUInt8 (bus.miso (bus.pos + d)))) ∧
    (spi_transfer_loop tx_buf k i rx_buf bus).1 =
      rx_buf.map (fun b j =>
        if i ≤ j ∧ j < i + k then toUInt8 (bus.miso (bus.pos + (j - i))) else b j) := by
  induction k generalizing i rx_buf bus with
  | zero =>
    refine ⟨rfl, rfl, by simp [spi_transfer_loop], ?_⟩
    cases rx_buf with
    | none => rfl
    | some b =>
      simp only [spi_transfer_loop, Option.map_some']
      congr 1
      funext j
      have : ¬ (i ≤ j ∧ j < i) := by omega
      simp [this]
  | succ k ih =>
    obtain ⟨h1, h2, h3, h4⟩ := ih (i + 1)
      (store_rx rx_buf i (spi_transfer (tx_data_at tx_buf i) bus).1)
      (spi_transfer (tx_data_at tx_buf i) bus).2
    simp only [spi_transfer_loop]
    refine ⟨by rw [h1]; rfl, by rw [h2]; simp only [spi_transfer]; omega, ?_, ?_⟩
    · rw [h3]
      simp only [spi_transfer, List.range_succ_eq_map, List.map_cons, List.map_map,
        List.append_assoc, List.singleton_append, Nat.add_zero]
      congr 2
      apply List.map_congr_left
      intro d _
      simp only [Function.comp, Nat.add_assoc, Nat.add_comm 1 d]
    · rw [h4]
      cases rx_buf with
      | none => rfl
      | some b =>
        simp only [store_rx, Option.map_some', spi_transfer]
        congr 1
        funext j
        simp only [setAt]
        by_cases hj : j = i
        · subst hj
          have a1 : ¬ (j + 1 ≤ j ∧ j < j + 1 + k) := by omega
          have a2 : j ≤ j ∧ j < j + (k + 1) := by omega
          simp [a1, a2]
        · by_cases hr : i + 1 ≤ j ∧ j < i + 1 + k
          · have a2 : i ≤ j ∧ j < i + (k + 1) := by omega
            have a3 : bus.pos + 1 + (j - (i + 1)) = bus.pos + (j - i) := by omega
            simp [hr, a2, a3]
          · have a2 : ¬ (i ≤ j ∧ j < i + (k + 1)) := by omega
            simp [hr, a2, hj]


/-! ## Lemmas: bit arithmetic of the unpack step -/

theorem shl_or_low (a b k : Nat) (hb : b < 2 ^ k) : (a <<< k) ||| b = a * 2 ^ k + b := by
  rw [Nat.shiftLeft_eq, Nat.mul_comm, Nat.mul_add_lt_is_or hb]

theorem and_15 (a : Nat) : a &&& 0x0F = a % 16 := Nat.and_pow_two_sub_one_eq_mod a 4

theorem and_255 (a : Nat) : a &&& 0xFF = a % 256 := Nat.and_pow_two_sub_one_eq_mod a 8

theorem toInt16_small (x : Int) (h1 : -32768 ≤ x) (h2 : x < 32768) : toInt16 x = x := by
  unfold toInt16; omega

theorem unpack_pair_bytes (b0 b1 b2 : Nat) (h0 : b0 < 256) (h1 : b1 < 256) (h2 : b2 < 256) :
    unpack_pair b0 b1 b2 =
      (((b0 * 16 + b1 / 16 : Nat) : Int) - 2048, ((b1 % 16 * 256 + b2 : Nat) : Int) - 2048) := by
  have e1 : (b0 <<< 4) ||| (b1 >>> 4) = b0 * 16 + b1 / 16 := by
    rw [Nat.shiftRight_eq_div_pow, shl_or_low _ _ 4 (by norm_num; omega)]; norm_num
  have e2 : ((b1 &&& 0x0F) <<< 8) ||| b2 = b1 % 16 * 256 + b2 := by
    rw [and_15, shl_or_low _ _ 8 (by norm_num; omega)]; norm_num
  simp only [unpack_pair, e1, e2, toUInt16]
  have a1 : (b0 * 16 + b1 / 16) % 65536 = b0 * 16 + b1 / 16 := by omega
  have a2 : (b1 % 16 * 256 + b2) % 65536 = b1 % 16 * 256 + b2 := by omega
  rw [a1, a2]
  have c1 : b0 * 16 + b1 / 16 < 4096 := by omega
  have c2 : b1 % 16 * 256 + b2 < 4096 := by omega
  rw [toInt16_small ((b0 * 16 + b1 / 16 : Nat) : Int) (by omega) (by omega),
    toInt16_small ((b1 % 16 * 256 + b2 : Nat) : Int) (by omega) (by omega),
    toInt16_small _ (by omega) (by omega), toInt16_small _ (by omega) (by omega)]


/-! ## Lemmas: the unpack loop -/

theorem unpack_loop_spec (n : Nat) (packed_buf : Nat → Nat) (hn : n ≤ 43690) :
    ∀ (fuel m : Nat) (samples : Nat → Int), n + 1 < 2 * m + 2 * fuel → 2 * m ≤ n + 1 →
      unpack_loop n packed_buf fuel (2 * m) samples =
        some (fun j => if 2 * m ≤ j ∧ j < n then unpacked packed_buf j else samples j) := by
  intro fuel
  induction fuel with
  | zero =>
    intro m samples h1 h2
    exfalso; omega
  | succ fuel ih =>
    intro m samples h1 h2
    by_cases hlt : 2 * m < n
    · have e1 : toUInt16 (2 * m + 2) = 2 * (m + 1) := by unfold toUInt16; omega
      have e2 : toUInt16 (2 * m * 3 / 2) = 3 * m := by unfold toUInt16; omega
      simp only [unpack_loop, hlt, if_true, e1, e2]
      rw [ih (m + 1) _ (by omega) (by omega)]
      congr 1
      funext j
      have d0 : (2 * m) / 2 = m := by omega
      have d1 : (2 * m + 1) / 2 = m := by omega
      by_cases hj0 : j = 2 * m
      · subst hj0
        have a1 : ¬ (2 * (m + 1) ≤ 2 * m ∧ 2 * m < n) := by omega
        have a2 : 2 * m ≤ 2 * m ∧ 2 * m < n := by omega
        have a3 : (2 * m) % 2 = 0 := by omega
        have a4 : 2 * m ≠ 2 * m + 1 := by omega
        simp only [a1, a2, if_true, if_false, unpacked, a3, d0]
        by_cases hlast : 2 * m + 1 < n
        · simp [hlast, setAt]
        · simp [hlast, setAt]
      · by_cases hj1 : j = 2 * m + 1
        · subst hj1
          have a1 : ¬ (2 * (m + 1) ≤ 2 * m + 1 ∧ 2 * m + 1 < n) := by omega
          have a3 : ¬ ((2 * m + 1) % 2 = 0) := by omega
          simp only [a1, if_false, unpacked, a3, d1]
          by_cases hlast : 2 * m + 1 < n
          · have a2 : 2 * m ≤ 2 * m + 1 ∧ 2 * m + 1 < n := by omega
            simp [hlast, a2, setAt]
          · have a2 : ¬ (2 * m ≤ 2 * m + 1 ∧ 2 * m + 1 < n) := by omega
            simp [hlast, a2, setAt]
        · by_cases hr : 2 * (m + 1) ≤ j ∧ j < n
          · have a2 : 2 * m ≤ j ∧ j < n := by omega
            simp [hr, a2]
          · have a2 : ¬ (2 * m ≤ j ∧ j < n) := by omega
            simp only [hr, a2, if_false]
            by_cases hlast : 2 * m + 1 < n
            · simp [hlast, setAt, hj0, hj1]
            · simp [hlast, setAt, hj0]
    · simp only [unpack_loop, hlt, if_false]
      congr 1
      funext j
      have a2 : ¬ (2 * m ≤ j ∧ j < n) := by omega
      simp [a2]


/-! ## Lemmas: register access and the burst read -/

theorem avian_read_reg_val (addr : Nat) (bus : Bus) :
    (avian_read_reg addr bus).1 =
      toUInt32 ((rx_byte bus 1 <<< 16) ||| (rx_byte bus 2 <<< 8) ||| rx_byte bus 3) := by
  simp [avian_read_reg, spi_transfer_buffer, spi_transfer_loop, spi_transfer, spi_select,
    store_rx, bufOf, setAt, rx_byte]

theorem avian_read_reg_bus (addr : Nat) (bus : Bus) :
    (avian_read_reg addr bus).2 =
      { miso := bus.miso, pos := bus.pos + 4,
        trace := bus.trace ++
          [BusEvent.select,
           BusEvent.xfer (toUInt8 ((addr <<< 1) ||| 0x00)) (rx_byte bus 0),
           BusEvent.xfer 0 (rx_byte bus 1),
           BusEvent.xfer 0 (rx_byte bus 2),
           BusEvent.xfer 0 (rx_byte bus 3),
           BusEvent.deselect] } := by
  simp [avian_read_reg, spi_transfer_buffer, spi_transfer_loop, spi_transfer, spi_select,
    spi_deselect, tx_data_at, rx_byte]

theorem avian_write_reg_bus (addr value : Nat) (bus : Bus) :
    avian_write_reg addr value bus =
      { miso := bus.miso, pos := bus.pos + 4,
        trace := bus.trace ++
          [BusEvent.select,
           BusEvent.xfer (toUInt8 ((addr <<< 1) ||| 0x01)) (rx_byte bus 0),
           BusEvent.xfer (toUInt8 ((value >>> 16) &&& 0xFF)) (rx_byte bus 1),
           BusEvent.xfer (toUInt8 ((value >>> 8) &&& 0xFF)) (rx_byte bus 2),
           BusEvent.xfer (toUInt8 (value &&& 0xFF)) (rx_byte bus 3),
           BusEvent.deselect] } := by
  simp [avian_write_reg, spi_transfer_buffer, spi_transfer_loop, spi_transfer, spi_select,
    spi_deselect, tx_data_at, rx_byte]


theorem header_exchange (bus : Bus) :
    spi_transfer_buffer (some [0xFF, toUInt8 (AVIAN_FIFO_READ_ADDR <<< 1), 0, 0])
      (some (fun _ => 0)) 4 (spi_select bus) =
      (some (fun j => if j = 3 then rx_byte bus 3 else if j = 2 then rx_byte bus 2
          else if j = 1 then rx_byte bus 1 else if j = 0 then rx_byte bus 0 else 0),
        after_header bus) := by
  simp only [spi_transfer_buffer, spi_transfer_loop, spi_transfer, spi_select, store_rx,
    tx_data_at, rx_byte, after_header, AVIAN_FIFO_READ_ADDR, toUInt8]
  apply Prod.ext
  · simp only [Option.some.injEq]
    funext j
    simp only [setAt, Nat.add_zero, Nat.add_assoc]
  · simp

theorem avian_read_fifo_overflow (samples : Nat → Int) (n : Nat) (packed_buf : Nat → Nat)
    (bus : Bus) (h : rx_byte bus 0 &&& 0x08 ≠ 0) :
    avian_read_fifo samples n packed_buf bus =
      some { ok := false, samples := samples, packed_buf := packed_buf,
             bus := spi_deselect (after_header bus) } := by
  simp [avian_read_fifo, header_exchange, bufOf, h]

theorem payload_exchange (packed_buf : Nat → Nat) (bus : Bus) (len : Nat) :
    spi_transfer_buffer none (some (memset0 packed_buf len)) len (after_header bus) =
      (some (packed_after packed_buf bus len),
        { miso := bus.miso, pos := bus.pos + 4 + len,
          trace := (after_header bus).trace ++
            (List.range len).map (fun d => BusEvent.xfer 0xFF (rx_byte bus (4 + d))) }) := by
  obtain ⟨h1, h2, h3, h4⟩ :=
    spi_transfer_loop_spec none len 0 (some (memset0 packed_buf len)) (after_header bus)
  unfold spi_transfer_buffer
  apply Prod.ext
  · rw [h4]
    simp only [Option.map_some']
    congr 1
    funext j
    simp only [packed_after, memset0, rx_byte, after_header, Nat.zero_le, true_and,
      Nat.zero_add, Nat.sub_zero, Nat.add_assoc]
    by_cases hj : j < len <;> simp [hj]
  · have e : ∀ b : Bus, b = { miso := b.miso, pos := b.pos, trace := b.trace } := fun b => rfl
    rw [e (spi_transfer_loop none len 0 (some (memset0 packed_buf len)) (after_header bus)).2,
      h1, h2, h3]
    simp only [after_header, tx_data_at, rx_byte, Nat.add_assoc]

theorem avian_read_fifo_ok (samples : Nat → Int) (n : Nat) (packed_buf : Nat → Nat)
    (bus : Bus) (hn : n ≤ 4096) (h : rx_byte bus 0 &&& 0x08 = 0) :
    avian_read_fifo samples n packed_buf bus =
      some { ok := true,
             samples := fun j =>
               if j < n then unpacked (packed_after packed_buf bus (n * 3 / 2)) j
               else samples j,
             packed_buf := packed_after packed_buf bus (n * 3 / 2),
             bus := spi_deselect
               { miso := bus.miso, pos := bus.pos + 4 + n * 3 / 2,
                 trace := (after_header bus).trace ++
                   (List.range (n * 3 / 2)).map
                     (fun d => BusEvent.xfer 0xFF (rx_byte bus (4 + d))) } } := by
  have e : toUInt16 (n * 3 / 2) = n * 3 / 2 := by unfold toUInt16; omega
  have hl := unpack_loop_spec n (packed_after packed_buf bus (n * 3 / 2)) (by omega)
    UNPACK_FUEL 0 samples (by unfold UNPACK_FUEL; omega) (by omega)
  simp only [Nat.mul_zero, Nat.zero_le, true_and] at hl
  simp only [avian_read_fifo, header_exchange, bufOf, e, payload_exchange, hl]
  simp [h]


theorem rx_byte_lt (bus : Bus) (k : Nat) : rx_byte bus k < 256 := by
  unfold rx_byte toUInt8; omega

theorem reg_value_lt (bus : Bus) : reg_value bus < 2 ^ 24 := by
  unfold reg_value
  have h1 := rx_byte_lt bus 1
  have h2 := rx_byte_lt bus 2
  have h3 := rx_byte_lt bus 3
  apply Nat.or_lt_two_pow
  · apply Nat.or_lt_two_pow
    · rw [Nat.shiftLeft_eq]; norm_num; omega
    · rw [Nat.shiftLeft_eq]; norm_num; omega
  · norm_num; omega

theorem avian_read_reg_eq (addr : Nat) (bus : Bus) :
    (avian_read_reg addr bus).1 = reg_value bus := by
  rw [avian_read_reg_val]
  have h := reg_value_lt bus
  unfold reg_value at h ⊢
  unfold toUInt32
  norm_num at h
  omega

/-! ## Frame acquisition: theorems -/

/-- C1. Packing two 12-bit values by the documented layout and applying the
unpack step of `avian_read_fifo` gives back the two values re-centred by 2048;
the three packed values are bytes. -/
theorem unpack_round_trip (s0 s1 : Nat) (h0 : s0 ≤ 4095) (h1 : s1 ≤ 4095) :
    (pack_pair s0 s1).1 < 256 ∧ (pack_pair s0 s1).2.1 < 256 ∧ (pack_pair s0 s1).2.2 < 256 ∧
    unpack_pair (pack_pair s0 s1).1 (pack_pair s0 s1).2.1 (pack_pair s0 s1).2.2 =
      ((s0 : Int) - 2048, (s1 : Int) - 2048) := by
  have p0 : s0 >>> 4 = s0 / 16 := by rw [Nat.shiftRight_eq_div_pow]
  have p1 : ((s0 &&& 0xF) <<< 4) ||| (s1 >>> 8) = s0 % 16 * 16 + s1 / 256 := by
    rw [Nat.shiftRight_eq_div_pow, and_15, shl_or_low _ _ 4 (by norm_num; omega)]; norm_num
  have p2 : s1 &&& 0xFF = s1 % 256 := and_255 s1
  simp only [pack_pair, p0, p1, p2]
  refine ⟨by omega, by omega, by omega, ?_⟩
  rw [unpack_pair_bytes _ _ _ (by omega) (by omega) (by omega)]
  have q0 : s0 / 16 * 16 + (s0 % 16 * 16 + s1 / 256) / 16 = s0 := by omega
  have q1 : (s0 % 16 * 16 + s1 / 256) % 16 * 256 + s1 % 256 = s1 := by omega
  rw [q0, q1]

/-- Witness of C1 at the pair (0xABC, 0xDEF). -/
theorem unpack_round_trip_witness :
    (pack_pair 0xABC 0xDEF).1 < 256 ∧ (pack_pair 0xABC 0xDEF).2.1 < 256 ∧
    (pack_pair 0xABC 0xDEF).2.2 < 256 ∧
    unpack_pair (pack_pair 0xABC 0xDEF).1 (pack_pair 0xABC 0xDEF).2.1
      (pack_pair 0xABC 0xDEF).2.2 = (((0xABC : Nat) : Int) - 2048, ((0xDEF : Nat) : Int) - 2048) :=
  unpack_round_trip 0xABC 0xDEF (by decide) (by decide)


/-- C2. For an even sample count `n ≤ 4096` and a burst whose status byte has
bit 3 clear, `avian_read_fifo` returns true and, for every `k < n / 2`, stores
`samples[2k] = ((P[3k] << 4) | (P[3k+1] >> 4)) - 2048` and
`samples[2k+1] = (((P[3k+1] & 0x0F) << 8) | P[3k+2]) - 2048`, `P` being the
payload received; both stored values lie in `[-2048, 2047]`. -/
theorem read_fifo_layout (samples : Nat → Int) (n : Nat) (packed_buf : Nat → Nat) (bus : Bus)
    (hn : n ≤ 4096) (heven : n % 2 = 0) (hst : rx_byte bus 0 &&& 0x08 = 0) :
    ∃ r : FifoRead, avian_read_fifo samples n packed_buf bus = some r ∧ r.ok = true ∧
      ∀ k, k < n / 2 →
        r.samples (2 * k) =
          (((payload bus (3 * k) <<< 4) ||| (payload bus (3 * k + 1) >>> 4) : Nat) : Int)
            - 2048 ∧
        r.samples (2 * k + 1) =
          ((((payload bus (3 * k + 1) &&& 0x0F) <<< 8) ||| payload bus (3 * k + 2) : Nat) : Int)
            - 2048 ∧
        -2048 ≤ r.samples (2 * k) ∧ r.samples (2 * k) ≤ 2047 ∧
        -2048 ≤ r.samples (2 * k + 1) ∧ r.samples (2 * k + 1) ≤ 2047 := by
  refine ⟨_, avian_read_fifo_ok samples n packed_buf bus hn hst, rfl, ?_⟩
  intro k hk
  have b0 := rx_byte_lt bus (4 + 3 * k)
  have b1 := rx_byte_lt bus (4 + (3 * k + 1))
  have b2 := rx_byte_lt bus (4 + (3 * k + 2))
  have i0 : 2 * k < n := by omega
  have i1 : 2 * k + 1 < n := by omega
  have m0 : (2 * k) % 2 = 0 := by omega
  have m1 : ¬ ((2 * k + 1) % 2 = 0) := by omega
  have d0 : (2 * k) / 2 = k := by omega
  have d1 : (2 * k + 1) / 2 = k := by omega
  have l0 : 3 * k < n * 3 / 2 := by omega
  have l1 : 3 * k + 1 < n * 3 / 2 := by omega
  have l2 : 3 * k + 2 < n * 3 / 2 := by omega
  have e1 : (payload bus (3 * k) <<< 4) ||| (payload bus (3 * k + 1) >>> 4) =
      payload bus (3 * k) * 16 + payload bus (3 * k + 1) / 16 := by
    unfold payload
    rw [Nat.shiftRight_eq_div_pow, shl_or_low _ _ 4 (by norm_num; omega)]; norm_num
  have e2 : ((payload bus (3 * k + 1) &&& 0x0F) <<< 8) ||| payload bus (3 * k + 2) =
      payload bus (3 * k + 1) % 16 * 256 + payload bus (3 * k + 2) := by
    unfold payload
    rw [and_15, shl_or_low _ _ 8 (by norm_num; omega)]; norm_num
  rw [e1, e2]
  simp only [i0, i1, if_true, unpacked, m0, m1, if_false, d0, d1, packed_after, l0, l1, l2]
  rw [unpack_pair_bytes _ _ _ b0 b1 b2]
  simp only [payload]
  refine ⟨trivial, trivial, ?_, ?_, ?_, ?_⟩ <;> omega

/-- Witness of C2: a burst of two samples with payload `AB CD EF`. -/
theorem read_fifo_layout_witness :
    ∃ r : FifoRead,
      avian_read_fifo (fun _ => 0) 2 (fun _ => 0)
        { miso := fun k => [0, 0, 0, 0, 0xAB, 0xCD, 0xEF].getD k 0, pos := 0, trace := [] }
        = some r ∧ r.ok = true ∧
      ∀ k, k < 2 / 2 →
        r.samples (2 * k) =
          (((payload { miso := fun k => [0, 0, 0, 0, 0xAB, 0xCD, 0xEF].getD k 0, pos := 0,
                       trace := [] } (3 * k) <<< 4) |||
            (payload { miso := fun k => [0, 0, 0, 0, 0xAB, 0xCD, 0xEF].getD k 0, pos := 0,
                       trace := [] } (3 * k + 1) >>> 4) : Nat) : Int) - 2048 ∧
        r.samples (2 * k + 1) =
          ((((payload { miso := fun k => [0, 0, 0, 0, 0xAB, 0xCD, 0xEF].getD k 0, pos := 0,
                        trace := [] } (3 * k + 1) &&& 0x0F) <<< 8) |||
            payload { miso := fun k => [0, 0, 0, 0, 0xAB, 0xCD, 0xEF].getD k 0, pos := 0,
                      trace := [] } (3 * k + 2) : Nat) : Int) - 2048 ∧
        -2048 ≤ r.samples (2 * k) ∧ r.samples (2 * k) ≤ 2047 ∧
        -2048 ≤ r.samples (2 * k + 1) ∧ r.samples (2 * k + 1) ≤ 2047 :=
  read_fifo_layout (fun _ => 0) 2 (fun _ => 0)
    { miso := fun k => [0, 0, 0, 0, 0xAB, 0xCD, 0xEF].getD k 0, pos := 0, trace := [] }
    (by decide) (by decide) (by decide)


/-- C3. When bit 3 of the first byte received in response to the burst header
is set, `avian_read_fifo` returns false after exchanging exactly the four
header bytes inside one select/deselect scope and leaves the sample buffer as it
was; inside `radar_get_frame` (acquisition running, no FSTAT error) the result
is `NULL`, the frame's samples and the frame counter are unchanged, and the
frame is marked invalid. -/
theorem overflow_abort (samples : Nat → Int) (n : Nat) (packed_buf : Nat → Nat) (bus : Bus)
    (d : Driver) (h : rx_byte bus 0 &&& 0x08 ≠ 0)
    (hrun : d.acquisition_running = true)
    (hfstat : (avian_check_fifo_error d.bus).1 = false)
    (hd : rx_byte d.bus 4 &&& 0x08 ≠ 0) :
    (∃ r : FifoRead, avian_read_fifo samples n packed_buf bus = some r ∧ r.ok = false ∧
      r.samples = samples ∧ r.bus.pos = bus.pos + 4 ∧
      r.bus.trace = bus.trace ++
        [BusEvent.select,
         BusEvent.xfer 0xFF (rx_byte bus 0),
         BusEvent.xfer 0xC0 (rx_byte bus 1),
         BusEvent.xfer 0 (rx_byte bus 2),
         BusEvent.xfer 0 (rx_byte bus 3),
         BusEvent.deselect]) ∧
    (∃ d1 : Driver, radar_get_frame d = some (none, d1) ∧
      d1.current_frame.samples = d.current_frame.samples ∧
      d1.frame_counter = d.frame_counter ∧
      d1.current_frame.valid = false) := by
  constructor
  · refine ⟨_, avian_read_fifo_overflow samples n packed_buf bus h, rfl, rfl, rfl, ?_⟩
    simp [spi_deselect, after_header]
  · have hb : rx_byte (avian_check_fifo_error d.bus).2 0 &&& 0x08 ≠ 0 := by
      simpa [avian_check_fifo_error, avian_read_reg_bus, rx_byte] using hd
    simp only [radar_get_frame, hrun, hfstat, Bool.not_true, Bool.false_eq_true, if_false,
      avian_read_fifo_overflow _ _ _ _ hb]
    exact ⟨_, rfl, rfl, rfl, rfl⟩

/-- Witness of C3 on `overflow_bus` and `overflow_driver`. -/
theorem overflow_abort_witness :
    (∃ r : FifoRead, avian_read_fifo (fun _ => 7) 4096 (fun _ => 0) overflow_bus = some r ∧
      r.ok = false ∧
      r.samples = (fun _ => 7) ∧ r.bus.pos = overflow_bus.pos + 4 ∧
      r.bus.trace = overflow_bus.trace ++
        [BusEvent.select,
         BusEvent.xfer 0xFF (rx_byte overflow_bus 0),
         BusEvent.xfer 0xC0 (rx_byte overflow_bus 1),
         BusEvent.xfer 0 (rx_byte overflow_bus 2),
         BusEvent.xfer 0 (rx_byte overflow_bus 3),
         BusEvent.deselect]) ∧
    (∃ d1 : Driver, radar_get_frame overflow_driver = some (none, d1) ∧
      d1.current_frame.samples = overflow_driver.current_frame.samples ∧
      d1.frame_counter = overflow_driver.frame_counter ∧
      d1.current_frame.valid = false) :=
  overflow_abort (fun _ => 7) 4096 (fun _ => 0) overflow_bus overflow_driver
    (by decide) rfl (by decide) (by decide)

/-- C10. The function `radar_frame_ready` returns true exactly when acquisition is
running and the FSTAT value masked with `0x1FFF` is at least
`SAMPLES_PER_FRAME = 4096`; the masked value is the FSTAT value modulo `2^13`,
so bits 13..15 play no part. The FSTAT value is the 24-bit value in bytes 1-3
of the answer to the one register read the call makes, whose command byte is
`0xB4`, the read command of register `0x5A`. When acquisition is not running
the result is false and nothing is exchanged on the bus. -/
theorem frame_ready_iff (d : Driver) :
    ((radar_frame_ready d).1 = true ↔
      d.acquisition_running = true ∧
        SAMPLES_PER_FRAME ≤ reg_value d.bus &&& AVIAN_FSTAT_FILL_MASK) ∧
    SAMPLES_PER_FRAME = 4096 ∧ AVIAN_FSTAT_FILL_MASK = 0x1FFF ∧
    reg_value d.bus &&& AVIAN_FSTAT_FILL_MASK = reg_value d.bus % 2 ^ 13 ∧
    (d.acquisition_running = false → radar_frame_ready d = (false, d)) ∧
    AVIAN_REG_FSTAT = 0x5A ∧ (AVIAN_REG_FSTAT <<< 1) ||| 0x00 = 0xB4 ∧
    reg_value d.bus = (rx_byte d.bus 1 <<< 16) ||| (rx_byte d.bus 2 <<< 8) ||| rx_byte d.bus 3 ∧
    (d.acquisition_running = true →
      (radar_frame_ready d).2 =
        { d with
          bus := { miso := d.bus.miso, pos := d.bus.pos + 4,
                   trace := d.bus.trace ++
                     [BusEvent.select,
                      BusEvent.xfer 0xB4 (rx_byte d.bus 0),
                      BusEvent.xfer 0x00 (rx_byte d.bus 1),
                      BusEvent.xfer 0x00 (rx_byte d.bus 2),
                      BusEvent.xfer 0x00 (rx_byte d.bus 3),
                      BusEvent.deselect] } }) := by
  have hm : reg_value d.bus &&& AVIAN_FSTAT_FILL_MASK = reg_value d.bus % 2 ^ 13 :=
    Nat.and_pow_two_sub_one_eq_mod _ 13
  refine ⟨?_, rfl, rfl, hm, ?_, rfl, rfl, rfl, ?_⟩
  · cases hr : d.acquisition_running with
    | false => simp [radar_frame_ready, hr]
    | true =>
      have hlt : reg_value d.bus % 2 ^ 13 < 65536 := by
        have := Nat.mod_lt (reg_value d.bus) (show 0 < 2 ^ 13 by norm_num)
        norm_num at this ⊢
        omega
      simp only [radar_frame_ready, hr, avian_frame_complete, avian_get_fifo_count,
        avian_read_reg_eq, hm, toUInt16, Nat.mod_eq_of_lt hlt]
      simp
  · intro hr
    simp [radar_frame_ready, hr]
  · intro hr
    simp only [radar_frame_ready, hr, avian_frame_complete, avian_get_fifo_count,
      avian_read_reg_bus, Bool.not_true, Bool.false_eq_true, if_false]
    rfl

/-! ## Lemmas: the driver's operations -/

theorem rx_byte_shift (miso : Nat → Nat) (pos n : Nat) (trace : List BusEvent) (k : Nat) :
    rx_byte { miso := miso, pos := pos + n, trace := trace } k
      = rx_byte { miso := miso, pos := pos, trace := [] } (n + k) := by
  simp [rx_byte, Nat.add_assoc]

theorem rx_byte_trace (bus : Bus) (k : Nat) :
    rx_byte { miso := bus.miso, pos := bus.pos, trace := [] } k = rx_byte bus k := rfl

theorem write_reg_events (addr value : Nat) (bus : Bus) :
    avian_write_reg addr value bus =
      { miso := bus.miso, pos := bus.pos + 4,
        trace := bus.trace ++ write_events bus 0 addr value } := by
  rw [avian_write_reg_bus]; rfl

theorem read_reg_events (addr : Nat) (bus : Bus) :
    (avian_read_reg addr bus).2 =
      { miso := bus.miso, pos := bus.pos + 4,
        trace := bus.trace ++ read_events bus 0 addr } := by
  rw [avian_read_reg_bus]; rfl

theorem check_fifo_error_val (bus : Bus) :
    (avian_check_fifo_error bus).1 = (reg_value bus &&& AVIAN_FSTAT_FOU_ERR != 0) := by
  simp only [avian_check_fifo_error, avian_read_reg_eq]

theorem check_fifo_error_bus (bus : Bus) :
    (avian_check_fifo_error bus).2 =
      { miso := bus.miso, pos := bus.pos + 4,
        trace := bus.trace ++ read_events bus 0 AVIAN_REG_FSTAT } := by
  simp only [avian_check_fifo_error, read_reg_events]

theorem radar_reset_fifo_eq (d : Driver) :
    radar_reset_fifo d =
      { d with
        bus := { miso := d.bus.miso, pos := d.bus.pos + 8,
                 trace := d.bus.trace ++
                   (write_events d.bus 0 AVIAN_REG_MAIN
                      (AVIAN_MAIN_FIFO_RESET ||| AVIAN_MAIN_FSM_RESET) ++
                    [BusEvent.delay_ms 1] ++
                    write_events d.bus 4 AVIAN_REG_MAIN 0) },
        current_frame := { d.current_frame with valid := false } } := by
  simp only [radar_reset_fifo, write_reg_events, delay_ms, write_events, rx_byte]
  simp [Nat.add_assoc]

theorem get_frame_idle (d : Driver) (h : d.acquisition_running = false) :
    radar_get_frame d = some (none, d) := by
  simp [radar_get_frame, h]

theorem get_frame_fou (d : Driver) (h : d.acquisition_running = true)
    (he : (avian_check_fifo_error d.bus).1 = true) :
    radar_get_frame d =
      some (none,
        { radar_reset_fifo { d with bus := (avian_check_fifo_error d.bus).2 } with
          acquisition_running := false }) := by
  simp [radar_get_frame, h, he]

theorem header_status_after_fstat (bus : Bus) :
    rx_byte (avian_check_fifo_error bus).2 0 = rx_byte bus 4 := by
  simp [check_fifo_error_bus, rx_byte]

theorem get_frame_overflow (d : Driver) (h : d.acquisition_running = true)
    (he : (avian_check_fifo_error d.bus).1 = false) (ho : rx_byte d.bus 4 &&& 0x08 ≠ 0) :
    radar_get_frame d =
      some (none,
        { radar_reset_fifo
            { d with bus := spi_deselect (after_header (avian_check_fifo_error d.bus).2) } with
          acquisition_running := false }) := by
  have hb : rx_byte (avian_check_fifo_error d.bus).2 0 &&& 0x08 ≠ 0 := by
    rw [header_status_after_fstat]; exact ho
  simp only [radar_get_frame, h, he, Bool.not_true, Bool.false_eq_true, if_false,
    avian_read_fifo_overflow _ _ _ _ hb]
  rfl

theorem get_frame_ok (d : Driver) (h : d.acquisition_running = true)
    (he : (avian_check_fifo_error d.bus).1 = false) (ho : rx_byte d.bus 4 &&& 0x08 = 0) :
    ∃ d1 : Driver, radar_get_frame d = some (some d1.current_frame, d1) ∧
      d1.current_frame.valid = true ∧
      d1.current_frame.timestamp = d.frame_counter ∧
      d1.frame_counter = toUInt32 (d.frame_counter + 1) ∧
      d1.acquisition_running = false ∧
      d1.bus.pos = d.bus.pos + 8 + SAMPLES_PER_FRAME * 3 / 2 := by
  have hb : rx_byte (avian_check_fifo_error d.bus).2 0 &&& 0x08 = 0 := by
    rw [header_status_after_fstat]; exact ho
  have hn : SAMPLES_PER_FRAME ≤ 4096 := by decide
  have key : ∃ (f : radar_frame_t) (d1 : Driver), radar_get_frame d = some (some f, d1) ∧
      f = d1.current_frame ∧
      d1.current_frame.valid = true ∧
      d1.current_frame.timestamp = d.frame_counter ∧
      d1.frame_counter = toUInt32 (d.frame_counter + 1) ∧
      d1.acquisition_running = false ∧
      d1.bus.pos = d.bus.pos + 8 + SAMPLES_PER_FRAME * 3 / 2 := by
    simp only [radar_get_frame, h, he, Bool.not_true, Bool.false_eq_true, if_false,
      avian_read_fifo_ok _ _ _ _ hn hb]
    refine ⟨_, _, rfl, rfl, rfl, rfl, rfl, rfl, ?_⟩
    simp [spi_deselect, check_fifo_error_bus, Nat.add_assoc]
  obtain ⟨f, d1, e0, e1, e2, e3, e4, e5, e6⟩ := key
  exact ⟨d1, by rw [e0, e1], e2, e3, e4, e5, e6⟩

/-- The three ways `radar_get_frame` ends. -/
theorem get_frame_cases (d : Driver) :
    (d.acquisition_running = false ∧ radar_get_frame d = some (none, d)) ∨
    (d.acquisition_running = true ∧ ∃ d1 : Driver, radar_get_frame d = some (none, d1) ∧
      d1.acquisition_running = false ∧ d1.frame_counter = d.frame_counter ∧
      d1.current_frame.valid = false ∧
      d1.current_frame.samples = d.current_frame.samples) ∨
    (d.acquisition_running = true ∧
      ∃ d1 : Driver, radar_get_frame d = some (some d1.current_frame, d1) ∧
      d1.acquisition_running = false ∧
      d1.current_frame.valid = true ∧
      d1.current_frame.timestamp = d.frame_counter ∧
      d1.frame_counter = toUInt32 (d.frame_counter + 1)) := by
  cases h : d.acquisition_running with
  | false => exact Or.inl ⟨rfl, get_frame_idle d h⟩
  | true =>
    right
    cases he : (avian_check_fifo_error d.bus).1 with
    | true =>
      left
      refine ⟨rfl, _, get_frame_fou d h he, ?_, ?_, ?_, ?_⟩ <;> rfl
    | false =>
      by_cases ho : rx_byte d.bus 4 &&& 0x08 = 0
      · right
        obtain ⟨d1, e1, e2, e3, e4, e5, _⟩ := get_frame_ok d h he ho
        exact ⟨rfl, d1, e1, e5, e2, e3, e4⟩
      · left
        refine ⟨rfl, _, get_frame_overflow d h he ho, ?_, ?_, ?_, ?_⟩ <;> rfl

/-! ## Acquisition state: theorems -/

theorem radar_init_flag (d : Driver) :
    ((radar_init d).1 = true → (radar_init d).2.acquisition_running = false) ∧
    (d.acquisition_running = false → (radar_init d).2.acquisition_running = false) := by
  cases hdet : (avian_detect (avian_hardware_reset d.bus)).1 <;> simp [radar_init, hdet]

theorem get_frame_flag (d : Driver) :
    ∃ (r : Option radar_frame_t) (d1 : Driver),
      radar_get_frame d = some (r, d1) ∧ d1.acquisition_running = false := by
  rcases get_frame_cases d with ⟨h, e⟩ | ⟨_, d1, e, hf, _⟩ | ⟨_, d1, e, hf, _⟩
  · exact ⟨none, d, e, h⟩
  · exact ⟨none, d1, e, hf⟩
  · exact ⟨some d1.current_frame, d1, e, hf⟩

/-- C11. Whatever the driver state and whatever the device answers (not
running, FSTAT error, burst-header overflow, or a successful read),
`radar_get_frame` returns and the acquisition-running flag is false afterwards. -/
theorem get_frame_leaves_acquiring (d : Driver) :
    ∃ (r : Option radar_frame_t) (d1 : Driver),
      radar_get_frame d = some (r, d1) ∧ d1.acquisition_running = false :=
  get_frame_flag d

/-- C12. When the acquisition-running flag is false, `radar_get_frame` returns
`NULL` and leaves the whole driver as it was: nothing is exchanged on the bus,
and the current frame, its valid flag and the frame counter are unchanged. The
flag is false after `radar_stop`, after any `radar_get_frame`, after a
`radar_init` that returns true, and after any `radar_init` entered with the
flag false. -/
theorem no_read_outside_acquiring (d : Driver) (h : d.acquisition_running = false) :
    radar_get_frame d = some (none, d) ∧
    (∀ d0 : Driver, (radar_stop d0).acquisition_running = false) ∧
    (∀ (d0 : Driver) (r : Option radar_frame_t) (d1 : Driver),
      radar_get_frame d0 = some (r, d1) → d1.acquisition_running = false) ∧
    (∀ d0 : Driver, (radar_init d0).1 = true → (radar_init d0).2.acquisition_running = false) ∧
    (∀ d0 : Driver, d0.acquisition_running = false →
      (radar_init d0).2.acquisition_running = false) := by
  refine ⟨get_frame_idle d h, fun d0 => rfl, ?_, fun d0 => (radar_init_flag d0).1,
    fun d0 => (radar_init_flag d0).2⟩
  intro d0 r d1 e
  obtain ⟨r2, d2, e2, hf⟩ := get_frame_flag d0
  rw [e2] at e
  cases e
  exact hf

/-- Witness of C12 on the driver at boot. -/
theorem no_read_outside_acquiring_witness :
    radar_get_frame (boot_driver quiet_bus) = some (none, boot_driver quiet_bus) ∧
    (∀ d0 : Driver, (radar_stop d0).acquisition_running = false) ∧
    (∀ (d0 : Driver) (r : Option radar_frame_t) (d1 : Driver),
      radar_get_frame d0 = some (r, d1) → d1.acquisition_running = false) ∧
    (∀ d0 : Driver, (radar_init d0).1 = true → (radar_init d0).2.acquisition_running = false) ∧
    (∀ d0 : Driver, d0.acquisition_running = false →
      (radar_init d0).2.acquisition_running = false) :=
  no_read_outside_acquiring (boot_driver quiet_bus) rfl

theorem radar_start_frame_armed (d : Driver) (h : d.acquisition_running = false) :
    radar_start_frame d =
      { d with
        bus := { miso := d.bus.miso, pos := d.bus.pos + 12,
                 trace := d.bus.trace ++
                   (write_events d.bus 0 AVIAN_REG_MAIN
                      (AVIAN_MAIN_FIFO_RESET ||| AVIAN_MAIN_FSM_RESET) ++
                    [BusEvent.delay_ms 1] ++
                    write_events d.bus 4 AVIAN_REG_MAIN 0 ++
                    write_events d.bus 8 AVIAN_REG_MAIN AVIAN_MAIN_FRAME_START) },
        current_frame := { d.current_frame with valid := false },
        acquisition_running := true } := by
  simp only [radar_start_frame, h, radar_reset_fifo_eq, write_reg_events, write_events, rx_byte]
  simp [Nat.add_assoc]

theorem radar_start_eq (d : Driver) :
    radar_start d =
      { d with
        bus := { miso := d.bus.miso, pos := d.bus.pos + 12,
                 trace := d.bus.trace ++
                   (write_events d.bus 0 AVIAN_REG_MAIN
                      (AVIAN_MAIN_FIFO_RESET ||| AVIAN_MAIN_FSM_RESET) ++
                    [BusEvent.delay_ms 1] ++
                    write_events d.bus 4 AVIAN_REG_MAIN 0 ++
                    write_events d.bus 8 AVIAN_REG_MAIN AVIAN_MAIN_FRAME_START) },
        current_frame := { d.current_frame with valid := false },
        acquisition_running := true } := by
  simp only [radar_start, radar_reset_fifo_eq, write_reg_events, write_events, rx_byte]
  simp [Nat.add_assoc]

/-- C13. While the acquisition-running flag is true `radar_start_frame` changes
nothing at all (no register write, same flag, frame validity and counter).
While it is false, `radar_start_frame` writes `FIFO_RESET|FSM_RESET` to MAIN,
waits 1 ms, writes 0 to MAIN, writes `FRAME_START` to MAIN, marks the current
frame invalid and sets the flag; samples and frame counter are unchanged. -/
theorem start_frame_noop_while_acquiring (d1 d2 : Driver)
    (h1 : d1.acquisition_running = true) (h2 : d2.acquisition_running = false) :
    radar_start_frame d1 = d1 ∧
    (radar_start_frame d2).acquisition_running = true ∧
    (radar_start_frame d2).bus.trace = d2.bus.trace ++
      ([BusEvent.select,
        BusEvent.xfer 0x01 (rx_byte d2.bus 0), BusEvent.xfer 0x00 (rx_byte d2.bus 1),
        BusEvent.xfer 0x00 (rx_byte d2.bus 2), BusEvent.xfer 0x0C (rx_byte d2.bus 3),
        BusEvent.deselect,
        BusEvent.delay_ms 1,
        BusEvent.select,
        BusEvent.xfer 0x01 (rx_byte d2.bus 4), BusEvent.xfer 0x00 (rx_byte d2.bus 5),
        BusEvent.xfer 0x00 (rx_byte d2.bus 6), BusEvent.xfer 0x00 (rx_byte d2.bus 7),
        BusEvent.deselect,
        BusEvent.select,
        BusEvent.xfer 0x01 (rx_byte d2.bus 8), BusEvent.xfer 0x00 (rx_byte d2.bus 9),
        BusEvent.xfer 0x00 (rx_byte d2.bus 10), BusEvent.xfer 0x01 (rx_byte d2.bus 11),
        BusEvent.deselect]) ∧
    (radar_start_frame d2).current_frame.valid = false ∧
    (radar_start_frame d2).current_frame.samples = d2.current_frame.samples ∧
    (radar_start_frame d2).frame_counter = d2.frame_counter := by
  refine ⟨by simp [radar_start_frame, h1], ?_⟩
  rw [radar_start_frame_armed d2 h2]
  exact ⟨rfl, rfl, rfl, rfl, rfl⟩

/-- Witness of C13 on an acquiring driver and on the driver at boot. -/
theorem start_frame_noop_while_acquiring_witness :
    radar_start_frame (acquiring_driver quiet_bus) = acquiring_driver quiet_bus ∧
    (radar_start_frame (boot_driver quiet_bus)).acquisition_running = true ∧
    (radar_start_frame (boot_driver quiet_bus)).bus.trace = (boot_driver quiet_bus).bus.trace ++
      ([BusEvent.select,
        BusEvent.xfer 0x01 (rx_byte (boot_driver quiet_bus).bus 0),
        BusEvent.xfer 0x00 (rx_byte (boot_driver quiet_bus).bus 1),
        BusEvent.xfer 0x00 (rx_byte (boot_driver quiet_bus).bus 2),
        BusEvent.xfer 0x0C (rx_byte (boot_driver quiet_bus).bus 3),
        BusEvent.deselect,
        BusEvent.delay_ms 1,
        BusEvent.select,
        BusEvent.xfer 0x01 (rx_byte (boot_driver quiet_bus).bus 4),
        BusEvent.xfer 0x00 (rx_byte (boot_driver quiet_bus).bus 5),
        BusEvent.xfer 0x00 (rx_byte (boot_driver quiet_bus).bus 6),
        BusEvent.xfer 0x00 (rx_byte (boot_driver quiet_bus).bus 7),
        BusEvent.deselect,
        BusEvent.select,
        BusEvent.xfer 0x01 (rx_byte (boot_driver quiet_bus).bus 8),
        BusEvent.xfer 0x00 (rx_byte (boot_driver quiet_bus).bus 9),
        BusEvent.xfer 0x00 (rx_byte (boot_driver quiet_bus).bus 10),
        BusEvent.xfer 0x01 (rx_byte (boot_driver quiet_bus).bus 11),
        BusEvent.deselect]) ∧
    (radar_start_frame (boot_driver quiet_bus)).current_frame.valid = false ∧
    (radar_start_frame (boot_driver quiet_bus)).current_frame.samples
      = (boot_driver quiet_bus).current_frame.samples ∧
    (radar_start_frame (boot_driver quiet_bus)).frame_counter
      = (boot_driver quiet_bus).frame_counter :=
  start_frame_noop_while_acquiring (acquiring_driver quiet_bus) (boot_driver quiet_bus) rfl rfl

/-! ## Acquisition state over call sequences -/

theorem frame_ready_idle (d : Driver) (h : d.acquisition_running = false) :
    radar_frame_ready d = (false, d) := by
  simp [radar_frame_ready, h]

theorem idle_run (calls : List DriverCall) :
    ∀ d : Driver, d.acquisition_running = false →
      (∀ c ∈ calls, c ≠ DriverCall.start ∧ c ≠ DriverCall.start_frame) →
      ∃ (outs : List CallResult) (d2 : Driver), driver_run calls d = some (outs, d2) ∧
        (∀ o ∈ outs, nothing_read o) ∧ d2.acquisition_running = false := by
  induction calls with
  | nil =>
    intro d h _
    exact ⟨[], d, rfl, by simp, h⟩
  | cons c rest ih =>
    intro d h hc
    have hrest : ∀ c ∈ rest, c ≠ DriverCall.start ∧ c ≠ DriverCall.start_frame :=
      fun c hm => hc c (List.mem_cons_of_mem _ hm)
    have hhead := hc c (List.mem_cons_self _ _)
    have step : ∃ (o : CallResult) (d1 : Driver), driver_call c d = some (o, d1) ∧
        nothing_read o ∧ d1.acquisition_running = false := by
      cases c with
      | start => exact absurd rfl hhead.1
      | start_frame => exact absurd rfl hhead.2
      | stop => exact ⟨_, _, rfl, trivial, rfl⟩
      | reset_fifo => exact ⟨_, _, rfl, trivial, h⟩
      | frame_ready =>
        refine ⟨CallResult.ready false, d, ?_, rfl, h⟩
        simp [driver_call, frame_ready_idle d h]
      | get_frame =>
        refine ⟨CallResult.frame none, d, ?_, rfl, h⟩
        simp [driver_call, get_frame_idle d h]
    obtain ⟨o, d1, e1, n1, f1⟩ := step
    obtain ⟨outs, d2, e2, n2, f2⟩ := ih d1 f1 hrest
    refine ⟨o :: outs, d2, ?_, ?_, f2⟩
    · simp [driver_run, e1, e2]
    · intro x hx
      rcases List.mem_cons.mp hx with hx | hx
      · rw [hx]; exact n1
      · exact n2 x hx

theorem run_counter (calls : List DriverCall) :
    ∀ d : Driver, d.frame_counter < 4294967296 →
      ∃ (outs : List CallResult) (d2 : Driver), driver_run calls d = some (outs, d2) ∧
        d2.frame_counter = (d.frame_counter + (delivered outs).length) % 4294967296 ∧
        ∀ (k : Nat) (f : radar_frame_t), (delivered outs)[k]? = some f →
          f.valid = true ∧ f.timestamp = (d.frame_counter + k) % 4294967296 := by
  induction calls with
  | nil =>
    intro d h
    refine ⟨[], d, rfl, ?_, ?_⟩
    · simp only [delivered, List.length_nil, Nat.add_zero]
      exact (Nat.mod_eq_of_lt h).symm
    · intro k f hk
      simp [delivered] at hk
  | cons c rest ih =>
    intro d h
    have quiet : ∀ (o : CallResult) (d1 : Driver), driver_call c d = some (o, d1) →
        d1.frame_counter = d.frame_counter →
        (∀ outs, delivered (o :: outs) = delivered outs) →
        ∃ (outs : List CallResult) (d2 : Driver),
          driver_run (c :: rest) d = some (outs, d2) ∧
          d2.frame_counter = (d.frame_counter + (delivered outs).length) % 4294967296 ∧
          ∀ (k : Nat) (f : radar_frame_t), (delivered outs)[k]? = some f →
            f.valid = true ∧ f.timestamp = (d.frame_counter + k) % 4294967296 := by
      intro o d1 e1 hc hdel
      obtain ⟨outs, d2, e2, c2, t2⟩ := ih d1 (by rw [hc]; exact h)
      refine ⟨o :: outs, d2, ?_, ?_, ?_⟩
      · simp [driver_run, e1, e2]
      · rw [hdel, c2, hc]
      · intro k f hk
        rw [hdel] at hk
        rw [← hc]
        exact t2 k f hk
    cases c with
    | start =>
      exact quiet CallResult.done (radar_start d) rfl rfl (fun _ => rfl)
    | start_frame =>
      refine quiet CallResult.done (radar_start_frame d) rfl ?_ (fun _ => rfl)
      cases hr : d.acquisition_running <;> simp [radar_start_frame, hr, radar_reset_fifo]
    | stop =>
      exact quiet CallResult.done (radar_stop d) rfl rfl (fun _ => rfl)
    | reset_fifo =>
      exact quiet CallResult.done (radar_reset_fifo d) rfl rfl (fun _ => rfl)
    | frame_ready =>
      refine quiet (CallResult.ready (radar_frame_ready d).1) (radar_frame_ready d).2 rfl ?_
        (fun _ => rfl)
      cases hr : d.acquisition_running <;> simp [radar_frame_ready, hr]
    | get_frame =>
      rcases get_frame_cases d with ⟨_, e⟩ | ⟨_, d1, e, _, hc, _⟩ | ⟨_, d1, e, _, hv, ht, hc⟩
      · refine quiet (CallResult.frame none) d ?_ rfl (fun _ => rfl)
        simp [driver_call, e]
      · refine quiet (CallResult.frame none) d1 ?_ hc (fun _ => rfl)
        simp [driver_call, e]
      · have e1 : driver_call DriverCall.get_frame d =
            some (CallResult.frame (some d1.current_frame), d1) := by
          simp [driver_call, e]
        have hlt : d1.frame_counter < 4294967296 := by
          rw [hc]; unfold toUInt32; omega
        obtain ⟨outs, d2, e2, c2, t2⟩ := ih d1 hlt
        refine ⟨CallResult.frame (some d1.current_frame) :: outs, d2, ?_, ?_, ?_⟩
        · simp [driver_run, e1, e2]
        · rw [c2, hc]
          simp only [delivered, List.length_cons, toUInt32]
          omega
        · intro k f hk
          simp only [delivered] at hk
          cases k with
          | zero =>
            simp only [List.getElem?_cons_zero, Option.some.injEq] at hk
            rw [← hk]
            exact ⟨hv, by rw [ht, Nat.add_zero, Nat.mod_eq_of_lt h]⟩
          | succ k =>
            simp only [List.getElem?_cons_succ] at hk
            obtain ⟨v1, v2⟩ := t2 k f hk
            refine ⟨v1, ?_⟩
            rw [v2, hc]
            unfold toUInt32
            omega

theorem fou_bit_set (bus : Bus) (h : reg_value bus &&& AVIAN_FSTAT_FOU_ERR ≠ 0) :
    (avian_check_fifo_error bus).1 = true := by
  rw [check_fifo_error_val]
  simpa using h

/-- C14, as stated, fails: after `radar_start` on a device that delivers a
frame without error, the successful `radar_get_frame` leaves the driver not
acquiring; `radar_frame_ready` then answers false and a further
`radar_get_frame` returns `NULL`. -/
theorem continuous_rearm_counterexample :
    ∃ (f : radar_frame_t) (d1 : Driver),
      radar_get_frame (radar_start (boot_driver quiet_bus)) = some (some f, d1) ∧
      d1.acquisition_running = false ∧
      (radar_frame_ready d1).1 = false ∧
      radar_get_frame d1 = some (none, d1) := by
  obtain ⟨d1, e, _, _, _, hf, _⟩ :=
    get_frame_ok (radar_start (boot_driver quiet_bus)) rfl (by decide) (by decide)
  refine ⟨d1.current_frame, d1, e, hf, ?_, get_frame_idle d1 hf⟩
  rw [frame_ready_idle d1 hf]

/-- C14, amended. After `radar_start`, a `radar_get_frame` that meets neither an
FSTAT error nor a burst-header overflow delivers a valid frame and leaves the
driver not acquiring: `radar_frame_ready` answers false and `radar_get_frame`
returns `NULL`, both without touching the driver or the bus, until the caller
arms again with `radar_start_frame` or `radar_start`. -/
theorem one_frame_per_start (d0 : Driver)
    (he : (avian_check_fifo_error (radar_start d0).bus).1 = false)
    (ho : rx_byte (radar_start d0).bus 4 &&& 0x08 = 0) :
    (radar_start d0).acquisition_running = true ∧
    ∃ d1 : Driver, radar_get_frame (radar_start d0) = some (some d1.current_frame, d1) ∧
      d1.current_frame.valid = true ∧
      d1.acquisition_running = false ∧
      radar_frame_ready d1 = (false, d1) ∧
      radar_get_frame d1 = some (none, d1) ∧
      (radar_start_frame d1).acquisition_running = true ∧
      (radar_start d1).acquisition_running = true := by
  refine ⟨rfl, ?_⟩
  obtain ⟨d1, e, hv, _, _, hf, _⟩ := get_frame_ok (radar_start d0) rfl he ho
  refine ⟨d1, e, hv, hf, frame_ready_idle d1 hf, get_frame_idle d1 hf, ?_, rfl⟩
  rw [radar_start_frame_armed d1 hf]

/-- Witness of the amended C14 on the driver at boot with a quiet device. -/
theorem one_frame_per_start_witness :
    (radar_start (boot_driver quiet_bus)).acquisition_running = true ∧
    ∃ d1 : Driver,
      radar_get_frame (radar_start (boot_driver quiet_bus)) = some (some d1.current_frame, d1) ∧
      d1.current_frame.valid = true ∧
      d1.acquisition_running = false ∧
      radar_frame_ready d1 = (false, d1) ∧
      radar_get_frame d1 = some (none, d1) ∧
      (radar_start_frame d1).acquisition_running = true ∧
      (radar_start d1).acquisition_running = true :=
  one_frame_per_start (boot_driver quiet_bus) (by decide) (by decide)

/-- C15. Called while acquiring with FSTAT bit 13 set, `radar_get_frame` reads
FSTAT, performs no burst read, writes `FIFO_RESET|FSM_RESET` and then 0 to
MAIN, marks the current frame invalid, clears the running flag and returns
`NULL`. From then on, through any sequence of calls other than `radar_start`
and `radar_start_frame`, every `radar_frame_ready` answers false, every
`radar_get_frame` returns `NULL` and the flag stays false; `radar_start` or
`radar_start_frame` sets it again. -/
theorem fstat_error_no_self_restart (d : Driver) (calls : List DriverCall)
    (hrun : d.acquisition_running = true)
    (hfou : reg_value d.bus &&& AVIAN_FSTAT_FOU_ERR ≠ 0)
    (hcalls : ∀ c ∈ calls, c ≠ DriverCall.start ∧ c ≠ DriverCall.start_frame) :
    AVIAN_FSTAT_FOU_ERR = 2 ^ 13 ∧
    ∃ d1 : Driver, radar_get_frame d = some (none, d1) ∧
      d1.bus.trace = d.bus.trace ++
        [BusEvent.select,
         BusEvent.xfer 0xB4 (rx_byte d.bus 0), BusEvent.xfer 0x00 (rx_byte d.bus 1),
         BusEvent.xfer 0x00 (rx_byte d.bus 2), BusEvent.xfer 0x00 (rx_byte d.bus 3),
         BusEvent.deselect,
         BusEvent.select,
         BusEvent.xfer 0x01 (rx_byte d.bus 4), BusEvent.xfer 0x00 (rx_byte d.bus 5),
         BusEvent.xfer 0x00 (rx_byte d.bus 6), BusEvent.xfer 0x0C (rx_byte d.bus 7),
         BusEvent.deselect,
         BusEvent.delay_ms 1,
         BusEvent.select,
         BusEvent.xfer 0x01 (rx_byte d.bus 8), BusEvent.xfer 0x00 (rx_byte d.bus 9),
         BusEvent.xfer 0x00 (rx_byte d.bus 10), BusEvent.xfer 0x00 (rx_byte d.bus 11),
         BusEvent.deselect] ∧
      d1.bus.pos = d.bus.pos + 12 ∧
      d1.current_frame.valid = false ∧
      d1.current_frame.samples = d.current_frame.samples ∧
      d1.frame_counter = d.frame_counter ∧
      d1.acquisition_running = false ∧
      radar_frame_ready d1 = (false, d1) ∧
      radar_get_frame d1 = some (none, d1) ∧
      ∃ (outs : List CallResult) (d2 : Driver), driver_run calls d1 = some (outs, d2) ∧
        (∀ o ∈ outs, nothing_read o) ∧ d2.acquisition_running = false ∧
        (radar_start d2).acquisition_running = true ∧
        (radar_start_frame d2).acquisition_running = true := by
  refine ⟨rfl, _, get_frame_fou d hrun (fou_bit_set d.bus hfou), ?_, ?_, rfl, rfl, rfl, rfl,
    frame_ready_idle _ rfl, get_frame_idle _ rfl, ?_⟩
  · simp only [radar_reset_fifo_eq, check_fifo_error_bus, read_events, write_events, rx_byte]
    simp [Nat.add_assoc, toUInt8, AVIAN_REG_FSTAT, AVIAN_REG_MAIN, AVIAN_MAIN_FIFO_RESET,
      AVIAN_MAIN_FSM_RESET]
    decide
  · simp [radar_reset_fifo_eq, check_fifo_error_bus, Nat.add_assoc]
  · obtain ⟨outs, d2, e2, n2, f2⟩ := idle_run calls
      { radar_reset_fifo { d with bus := (avian_check_fifo_error d.bus).2 } with
        acquisition_running := false } rfl hcalls
    refine ⟨outs, d2, e2, n2, f2, rfl, ?_⟩
    rw [radar_start_frame_armed d2 f2]

/-- Witness of C15: an acquiring driver on a device whose FSTAT has bit 13 set,
followed by a poll, a read, a stop and another read. -/
theorem fstat_error_no_self_restart_witness :
    AVIAN_FSTAT_FOU_ERR = 2 ^ 13 ∧
    ∃ d1 : Driver, radar_get_frame (acquiring_driver fou_bus) = some (none, d1) ∧
      d1.bus.trace = (acquiring_driver fou_bus).bus.trace ++
        [BusEvent.select,
         BusEvent.xfer 0xB4 (rx_byte (acquiring_driver fou_bus).bus 0),
         BusEvent.xfer 0x00 (rx_byte (acquiring_driver fou_bus).bus 1),
         BusEvent.xfer 0x00 (rx_byte (acquiring_driver fou_bus).bus 2),
         BusEvent.xfer 0x00 (rx_byte (acquiring_driver fou_bus).bus 3),
         BusEvent.deselect,
         BusEvent.select,
         BusEvent.xfer 0x01 (rx_byte (acquiring_driver fou_bus).bus 4),
         BusEvent.xfer 0x00 (rx_byte (acquiring_driver fou_bus).bus 5),
         BusEvent.xfer 0x00 (rx_byte (acquiring_driver fou_bus).bus 6),
         BusEvent.xfer 0x0C (rx_byte (acquiring_driver fou_bus).bus 7),
         BusEvent.deselect,
         BusEvent.delay_ms 1,
         BusEvent.select,
         BusEvent.xfer 0x01 (rx_byte (acquiring_driver fou_bus).bus 8),
         BusEvent.xfer 0x00 (rx_byte (acquiring_driver fou_bus).bus 9),
         BusEvent.xfer 0x00 (rx_byte (acquiring_driver fou_bus).bus 10),
         BusEvent.xfer 0x00 (rx_byte (acquiring_driver fou_bus).bus 11),
         BusEvent.deselect] ∧
      d1.bus.pos = (acquiring_driver fou_bus).bus.pos + 12 ∧
      d1.current_frame.valid = false ∧
      d1.current_frame.samples = (acquiring_driver fou_bus).current_frame.samples ∧
      d1.frame_counter = (acquiring_driver fou_bus).frame_counter ∧
      d1.acquisition_running = false ∧
      radar_frame_ready d1 = (false, d1) ∧
      radar_get_frame d1 = some (none, d1) ∧
      ∃ (outs : List CallResult) (d2 : Driver),
        driver_run [DriverCall.frame_ready, DriverCall.get_frame, DriverCall.stop,
          DriverCall.get_frame] d1 = some (outs, d2) ∧
        (∀ o ∈ outs, nothing_read o) ∧ d2.acquisition_running = false ∧
        (radar_start d2).acquisition_running = true ∧
        (radar_start_frame d2).acquisition_running = true :=
  fstat_error_no_self_restart (acquiring_driver fou_bus)
    [DriverCall.frame_ready, DriverCall.get_frame, DriverCall.stop, DriverCall.get_frame]
    rfl (by decide) (by decide)

/-- C16. After a `radar_init` that returns true, whatever sequence of
`radar_start`, `radar_start_frame`, `radar_stop`, `radar_reset_fifo`,
`radar_frame_ready` and `radar_get_frame` calls follows and whatever the device
answers, every call returns, and the `k`-th frame delivered by a successful
`radar_get_frame` (counting from 0) is valid and has timestamp `k` modulo
`2^32`; the frame counter ends at the number of delivered frames modulo `2^32`. -/
theorem sequence_numbers (d : Driver) (calls : List DriverCall)
    (hinit : (radar_init d).1 = true) :
    ∃ (outs : List CallResult) (d2 : Driver),
      driver_run calls (radar_init d).2 = some (outs, d2) ∧
      d2.frame_counter = (delivered outs).length % 2 ^ 32 ∧
      ∀ (k : Nat) (f : radar_frame_t), (delivered outs)[k]? = some f →
        f.valid = true ∧ f.timestamp = k % 2 ^ 32 := by
  have h0 : (radar_init d).2.frame_counter = 0 := by
    unfold radar_init at hinit ⊢
    cases hdet : (avian_detect (avian_hardware_reset d.bus)).1
    · simp [hdet] at hinit
    · simp [hdet]
  obtain ⟨outs, d2, e, c, t⟩ := run_counter calls (radar_init d).2 (by rw [h0]; norm_num)
  refine ⟨outs, d2, e, ?_, ?_⟩
  · rw [c, h0, Nat.zero_add]
    norm_num
  · intro k f hk
    obtain ⟨v1, v2⟩ := t k f hk
    refine ⟨v1, ?_⟩
    rw [v2, h0, Nat.zero_add]
    norm_num

/-- Witness of C16: a detected device, then start, read, poll, re-arm, read. -/
theorem sequence_numbers_witness :
    ∃ (outs : List CallResult) (d2 : Driver),
      driver_run [DriverCall.start, DriverCall.get_frame, DriverCall.frame_ready,
        DriverCall.start_frame, DriverCall.get_frame]
        (radar_init (boot_driver bgt60_bus)).2 = some (outs, d2) ∧
      d2.frame_counter = (delivered outs).length % 2 ^ 32 ∧
      ∀ (k : Nat) (f : radar_frame_t), (delivered outs)[k]? = some f →
        f.valid = true ∧ f.timestamp = k % 2 ^ 32 :=
  sequence_numbers (boot_driver bgt60_bus)
    [DriverCall.start, DriverCall.get_frame, DriverCall.frame_ready,
      DriverCall.start_frame, DriverCall.get_frame] (by decide)

/-! ## Device detection and framing: theorems -/

theorem hardware_reset_eq (bus : Bus) :
    avian_hardware_reset bus =
      { miso := bus.miso, pos := bus.pos,
        trace := bus.trace ++ [BusEvent.reset_low, BusEvent.delay_ms 10, BusEvent.reset_high,
          BusEvent.delay_ms 50] } := by
  simp [avian_hardware_reset, delay_ms, radar_reset_high, radar_reset_low]

theorem avian_detect_val (bus : Bus) :
    (avian_detect bus).1 =
      (adc0_response bus == AVIAN_ADC0_BGT60TR13C || adc0_response bus == AVIAN_ADC0_BGT60TR13E)
      := by
  simp only [avian_detect, avian_read_reg_eq, write_reg_events, delay_ms, reg_value,
    adc0_response, rx_byte]

theorem avian_detect_bus (bus : Bus) :
    (avian_detect bus).2 =
      { miso := bus.miso, pos := bus.pos + 8,
        trace := bus.trace ++
          (write_events bus 0 AVIAN_REG_SFCTL 0x100000 ++ [BusEvent.delay_ms 1] ++
            read_events bus 4 AVIAN_REG_ADC0) } := by
  simp only [avian_detect, read_reg_events, write_reg_events, delay_ms, read_events,
    write_events, rx_byte]
  simp [Nat.add_assoc]

/-- C17. The function `radar_init` returns true exactly when the 24-bit value read
from ADC0, after the hardware reset and the SFCTL write of `0x100000`, is
`0x0A0240` or `0x0A0200`. When it returns false the driver is unchanged apart
from the bus, on which only the reset pulse, the SFCTL write and the ADC0 read
have taken place: no reset write to MAIN and no table entry. -/
theorem device_detection (d : Driver) :
    ((radar_init d).1 = true ↔
      adc0_response d.bus = 0x0A0240 ∨ adc0_response d.bus = 0x0A0200) ∧
    ((radar_init d).1 = false →
      (radar_init d).2 =
        { d with
          bus := { miso := d.bus.miso, pos := d.bus.pos + 8,
                   trace := d.bus.trace ++
                     [BusEvent.reset_low, BusEvent.delay_ms 10, BusEvent.reset_high,
                      BusEvent.delay_ms 50,
                      BusEvent.select,
                      BusEvent.xfer 0x0F (rx_byte d.bus 0), BusEvent.xfer 0x10 (rx_byte d.bus 1),
                      BusEvent.xfer 0x00 (rx_byte d.bus 2), BusEvent.xfer 0x00 (rx_byte d.bus 3),
                      BusEvent.deselect,
                      BusEvent.delay_ms 1,
                      BusEvent.select,
                      BusEvent.xfer 0x02 (rx_byte d.bus 4), BusEvent.xfer 0x00 (rx_byte d.bus 5),
                      BusEvent.xfer 0x00 (rx_byte d.bus 6), BusEvent.xfer 0x00 (rx_byte d.bus 7),
                      BusEvent.deselect] } }) := by
  have hv : (avian_detect (avian_hardware_reset d.bus)).1 =
      (adc0_response d.bus == AVIAN_ADC0_BGT60TR13C ||
        adc0_response d.bus == AVIAN_ADC0_BGT60TR13E) := by
    rw [avian_detect_val, hardware_reset_eq]
    rfl
  constructor
  · cases hdet : (avian_detect (avian_hardware_reset d.bus)).1
    · have h1 : (radar_init d).1 = false := by simp [radar_init, hdet]
      rw [hv] at hdet
      simp only [Bool.or_eq_false_iff, beq_eq_false_iff_ne, ne_eq, AVIAN_ADC0_BGT60TR13C,
        AVIAN_ADC0_BGT60TR13E] at hdet
      rw [h1]
      simp [hdet.1, hdet.2]
    · have h1 : (radar_init d).1 = true := by simp [radar_init, hdet]
      rw [hv] at hdet
      simp only [Bool.or_eq_true, beq_iff_eq, AVIAN_ADC0_BGT60TR13C,
        AVIAN_ADC0_BGT60TR13E] at hdet
      rw [h1]
      simp [hdet]
  · intro hfalse
    cases hdet : (avian_detect (avian_hardware_reset d.bus)).1
    · simp only [radar_init, hdet, Bool.not_false, if_true]
      rw [avian_detect_bus, hardware_reset_eq]
      simp only [write_events, read_events, rx_byte]
      simp [toUInt8, AVIAN_REG_SFCTL, AVIAN_REG_ADC0]
      decide
    · simp [radar_init, hdet] at hfalse

/-- C18, as stated, fails for addresses of 8 bits: the addresses `0x8F` and
`0x0F`, both upper bytes of entries of the register table, are transmitted with
the same four bytes, the first being `0x1F` and not `(0x8F << 1) | 1 = 0x11F`,
so the address cannot be recovered. -/
theorem write_framing_counterexample :
    (0x8F : Nat) < 256 ∧ (0x100 : Nat) < 2 ^ 24 ∧
    (avian_write_reg 0x8F 0x100 quiet_bus).trace =
      [BusEvent.select, BusEvent.xfer 0x1F 0, BusEvent.xfer 0x00 0, BusEvent.xfer 0x01 0,
       BusEvent.xfer 0x00 0, BusEvent.deselect] ∧
    (avian_write_reg 0x8F 0x100 quiet_bus).trace = (avian_write_reg 0x0F 0x100 quiet_bus).trace ∧
    ((0x8F <<< 1) ||| 0x01 : Nat) = 0x11F := by
  decide

/-- C18, amended. For every register address `a` of 7 bits and every value
`v < 2^24`, `avian_write_reg` exchanges exactly the four bytes
`(a << 1) | 1`, `(v >> 16) & 0xFF`, `(v >> 8) & 0xFF`, `v & 0xFF` between one
select and one deselect; bit 0 of the first byte is 1, its bits 7..1 are `a`,
and the three value bytes give back `v`. -/
theorem write_framing (a v : Nat) (bus : Bus) (ha : a < 128) (hv : v < 2 ^ 24) :
    avian_write_reg a v bus =
      { miso := bus.miso, pos := bus.pos + 4,
        trace := bus.trace ++
          [BusEvent.select,
           BusEvent.xfer ((a <<< 1) ||| 1) (rx_byte bus 0),
           BusEvent.xfer ((v >>> 16) &&& 0xFF) (rx_byte bus 1),
           BusEvent.xfer ((v >>> 8) &&& 0xFF) (rx_byte bus 2),
           BusEvent.xfer (v &&& 0xFF) (rx_byte bus 3),
           BusEvent.deselect] } ∧
    ((a <<< 1) ||| 1) < 256 ∧
    ((a <<< 1) ||| 1) >>> 1 = a ∧
    ((a <<< 1) ||| 1) &&& 1 = 1 ∧
    ((((v >>> 16) &&& 0xFF) <<< 16) ||| (((v >>> 8) &&& 0xFF) <<< 8) ||| (v &&& 0xFF)) = v := by
  have e0 : (a <<< 1) ||| 1 = a * 2 + 1 := by
    rw [shl_or_low a 1 1 (by norm_num)]; norm_num
  have e1 : (v >>> 16) &&& 0xFF = v / 65536 % 256 := by
    rw [and_255, Nat.shiftRight_eq_div_pow]
  have e2 : (v >>> 8) &&& 0xFF = v / 256 % 256 := by
    rw [and_255, Nat.shiftRight_eq_div_pow]
  have e3 : v &&& 0xFF = v % 256 := and_255 v
  have hv2 : v < 16777216 := by norm_num at hv; exact hv
  refine ⟨?_, ?_, ?_, ?_, ?_⟩
  · rw [avian_write_reg_bus, e0, e1, e2, e3]
    have t0 : toUInt8 (a * 2 + 1) = a * 2 + 1 := by unfold toUInt8; omega
    have t1 : toUInt8 (v / 65536 % 256) = v / 65536 % 256 := by unfold toUInt8; omega
    have t2 : toUInt8 (v / 256 % 256) = v / 256 % 256 := by unfold toUInt8; omega
    have t3 : toUInt8 (v % 256) = v % 256 := by unfold toUInt8; omega
    rw [t0, t1, t2, t3]
  · rw [e0]; omega
  · rw [e0, Nat.shiftRight_eq_div_pow]; omega
  · rw [e0, Nat.and_one_is_mod]; omega
  · rw [e1, e2, e3]
    have s1 : ((v / 256 % 256) <<< 8) ||| (v % 256) = v / 256 % 256 * 256 + v % 256 := by
      rw [shl_or_low _ _ 8 (by norm_num; omega)]; norm_num
    have s2 : ((v / 65536 % 256) <<< 16) ||| (v / 256 % 256 * 256 + v % 256) =
        v / 65536 % 256 * 65536 + (v / 256 % 256 * 256 + v % 256) := by
      rw [shl_or_low _ _ 16 (by norm_num; omega)]; norm_num
    rw [Nat.lor_assoc, s1, s2]
    omega

/-- Witness of the amended C18 at the FSTAT address and a 24-bit value. -/
theorem write_framing_witness :
    avian_write_reg 0x5A 0xABCDEF quiet_bus =
      { miso := quiet_bus.miso, pos := quiet_bus.pos + 4,
        trace := quiet_bus.trace ++
          [BusEvent.select,
           BusEvent.xfer ((0x5A <<< 1) ||| 1) (rx_byte quiet_bus 0),
           BusEvent.xfer ((0xABCDEF >>> 16) &&& 0xFF) (rx_byte quiet_bus 1),
           BusEvent.xfer ((0xABCDEF >>> 8) &&& 0xFF) (rx_byte quiet_bus 2),
           BusEvent.xfer (0xABCDEF &&& 0xFF) (rx_byte quiet_bus 3),
           BusEvent.deselect] } ∧
    ((0x5A <<< 1) ||| 1) < 256 ∧
    ((0x5A <<< 1) ||| 1) >>> 1 = 0x5A ∧
    ((0x5A <<< 1) ||| 1) &&& 1 = 1 ∧
    ((((0xABCDEF >>> 16) &&& 0xFF) <<< 16) ||| (((0xABCDEF >>> 8) &&& 0xFF) <<< 8) |||
      (0xABCDEF &&& 0xFF)) = 0xABCDEF :=
  write_framing 0x5A 0xABCDEF quiet_bus (by decide) (by decide)

/-- C20 at index 0: the table holds `0.00006` at index 0 and `0.08109126` at
index 63, so it is not symmetric; it has 64 entries. -/
theorem window_not_symmetric :
    blackman_harris_64.length = 64 ∧
    blackman_harris_64.getD 0 0 = 0.00006 ∧
    blackman_harris_64.getD (63 - 0) 0 = 0.08109126 ∧
    blackman_harris_64.getD 0 0 ≠ blackman_harris_64.getD (63 - 0) 0 := by
  refine ⟨rfl, ?_, ?_, ?_⟩
  · simp only [blackman_harris_64, List.getD_cons_zero]
    norm_num
  · simp [blackman_harris_64]
  · simp only [blackman_harris_64, Nat.sub_zero, List.getD_cons_zero]
    norm_num [List.getD]

/-! ## Register table and burst buffer: evaluations -/

set_option maxRecDepth 100000 in
/-- C24 on the table as it is: the entries `0x0f010d00` and `0x8f000100` have
different table addresses and the same command byte `0x1F`; the entry
`0x7f000100` is transmitted with the command byte `0xFF`, the burst marker, as
the trace of its write and the trace of a whole `radar_init` show. -/
theorem register_table_collisions :
    0x0f010d00 ∈ avian_register_config ∧ 0x8f000100 ∈ avian_register_config ∧
    table_address 0x0f010d00 = 0x0F ∧ table_address 0x8f000100 = 0x8F ∧
    command_byte 0x0f010d00 = 0x1F ∧ command_byte 0x8f000100 = 0x1F ∧
    0x7f000100 ∈ avian_register_config ∧ command_byte 0x7f000100 = 0xFF ∧
    (program_registers [0x7f000100] quiet_bus).trace =
      [BusEvent.select, BusEvent.xfer 0xFF 0, BusEvent.xfer 0x00 0, BusEvent.xfer 0x01 0,
       BusEvent.xfer 0x00 0, BusEvent.deselect, BusEvent.delay_ms 1] ∧
    (radar_init (boot_driver bgt60_bus)).1 = true ∧
    BusEvent.xfer 0xFF 0 ∈ (radar_init (boot_driver bgt60_bus)).2.bus.trace := by
  refine ⟨by decide, by decide, by decide, by decide, by decide, by decide, by decide,
    by decide, by decide, by decide, by decide⟩

theorem unpack_loop_writes (n : Nat) (pb : Nat → Nat) :
    ∀ (fuel i : Nat) (samples out : Nat → Int) (rs ws : List Nat),
      unpack_accesses n fuel i = some (rs, ws) →
      unpack_loop n pb fuel i samples = some out →
      ∀ j, j ∉ ws → out j = samples j := by
  intro fuel
  induction fuel with
  | zero => intro i samples out rs ws ha _; simp [unpack_accesses] at ha
  | succ fuel ih =>
    intro i samples out rs ws ha hl j hj
    by_cases hlt : i < n
    · simp only [unpack_accesses, hlt, if_true] at ha
      cases hrec : unpack_accesses n fuel (toUInt16 (i + 2)) with
      | none => simp [hrec] at ha
      | some t =>
        simp only [hrec, Option.some.injEq, Prod.mk.injEq] at ha
        obtain ⟨_, hws⟩ := ha
        simp only [unpack_loop, hlt, if_true] at hl
        by_cases hlast : i + 1 < n
        · simp only [hlast, if_true] at hl hws
          have hj0 : j ≠ i := fun h => hj (by rw [← hws, h]; simp)
          have hj1 : j ≠ i + 1 := fun h => hj (by rw [← hws, h]; simp)
          have hjt : j ∉ t.2 := fun h => hj (by rw [← hws]; simp [h])
          rw [ih _ _ _ t.1 t.2 (by rw [hrec]) hl j hjt]
          simp [setAt, hj0, hj1]
        · simp only [hlast, if_false] at hl hws
          have hj0 : j ≠ i := fun h => hj (by rw [← hws, h]; simp)
          have hjt : j ∉ t.2 := fun h => hj (by rw [← hws]; simp [h])
          rw [ih _ _ _ t.1 t.2 (by rw [hrec]) hl j hjt]
          simp [setAt, hj0]
    · simp only [unpack_accesses, hlt, if_false, Option.some.injEq, Prod.mk.injEq] at ha
      simp only [unpack_loop, hlt, if_false, Option.some.injEq] at hl
      rw [← hl]

theorem ctx_loop_spec (f g : Nat → ℝ → ℝ) (k : Nat) :
    ∀ (i : Nat) (c : presence_ctx_t),
      for_loop_from
        (fun i (c : presence_ctx_t) =>
          { c with slow_avg := setAt c.slow_avg i (f i (c.slow_avg i)),
                   fast_avg := setAt c.fast_avg i (g i (c.fast_avg i)) }) k i c =
        { slow_avg := fun j => if i ≤ j ∧ j < i + k then f j (c.slow_avg j) else c.slow_avg j,
          fast_avg := fun j => if i ≤ j ∧ j < i + k then g j (c.fast_avg j) else c.fast_avg j,
          first_run := c.first_run,
          presence_detected := c.presence_detected } := by
  induction k with
  | zero =>
    intro i c
    have h : ∀ j, ¬ (i ≤ j ∧ j < i) := fun j => by omega
    cases c
    simp [for_loop_from, h]
  | succ k ih =>
    intro i c
    simp only [for_loop_from, ih]
    congr 1
    · funext j
      by_cases hj : j = i
      · subst hj
        have a1 : ¬ (j + 1 ≤ j ∧ j < j + 1 + k) := by omega
        have a2 : j ≤ j ∧ j < j + (k + 1) := by omega
        simp [a1, a2, setAt]
      · by_cases hr : i + 1 ≤ j ∧ j < i + 1 + k
        · have a2 : i ≤ j ∧ j < i + (k + 1) := by omega
          simp [hr, a2, setAt, hj]
        · have a2 : ¬ (i ≤ j ∧ j < i + (k + 1)) := by omega
          simp [hr, a2, setAt, hj]
    · funext j
      by_cases hj : j = i
      · subst hj
        have a1 : ¬ (j + 1 ≤ j ∧ j < j + 1 + k) := by omega
        have a2 : j ≤ j ∧ j < j + (k + 1) := by omega
        simp [a1, a2, setAt]
      · by_cases hr : i + 1 ≤ j ∧ j < i + 1 + k
        · have a2 : i ≤ j ∧ j < i + (k + 1) := by omega
          simp [hr, a2, setAt, hj]
        · have a2 : ¬ (i ≤ j ∧ j < i + (k + 1)) := by omega
          simp [hr, a2, setAt, hj]

theorem seed_averages_eq (mag : Nat → ℝ) (c : presence_ctx_t) :
    seed_averages mag c =
      { slow_avg := fun j => if j < 32 then mag j else c.slow_avg j,
        fast_avg := fun j => if j < 32 then mag j else c.fast_avg j,
        first_run := c.first_run,
        presence_detected := c.presence_detected } := by
  have h := ctx_loop_spec (fun j _ => mag j) (fun j _ => mag j) 32 0 c
  simp only [Nat.zero_le, true_and, Nat.zero_add] at h
  exact h

theorem update_averages_eq (mag : Nat → ℝ) (a : ℝ) (c : presence_ctx_t) :
    update_averages mag a c =
      { slow_avg := fun j => if j < 32 then c.slow_avg j * (1 - a) + mag j * a
          else c.slow_avg j,
        fast_avg := fun j => if j < 32 then c.fast_avg j * (1 - ALPHA_FAST) + mag j * ALPHA_FAST
          else c.fast_avg j,
        first_run := c.first_run,
        presence_detected := c.presence_detected } := by
  have h := ctx_loop_spec (fun j x => x * (1 - a) + mag j * a)
    (fun j x => x * (1 - ALPHA_FAST) + mag j * ALPHA_FAST) 32 0 c
  simp only [Nat.zero_le, true_and, Nat.zero_add] at h
  have e : (1.0 : ℝ) = 1 := by norm_num
  simp only [update_averages, e]
  exact h

theorem max_loop_gt (d : Nat → ℝ) (T : ℝ) (k : Nat) :
    ∀ (i : Nat) (m : ℝ × Nat),
      ((for_loop_from (fun i (m : ℝ × Nat) => if d i > m.1 then (d i, i) else m) k i m).1 > T ↔
        m.1 > T ∨ ∃ j, i ≤ j ∧ j < i + k ∧ d j > T) := by
  induction k with
  | zero =>
    intro i m
    simp only [for_loop_from]
    constructor
    · intro h; exact Or.inl h
    · rintro (h | ⟨j, h1, h2, _⟩)
      · exact h
      · omega
  | succ k ih =>
    intro i m
    simp only [for_loop_from]
    rw [ih]
    constructor
    · rintro (h | ⟨j, h1, h2, h3⟩)
      · by_cases hd : d i > m.1
        · rw [if_pos hd] at h
          exact Or.inr ⟨i, le_refl i, by omega, h⟩
        · rw [if_neg hd] at h
          exact Or.inl h
      · exact Or.inr ⟨j, by omega, by omega, h3⟩
    · rintro (h | ⟨j, h1, h2, h3⟩)
      · left
        by_cases hd : d i > m.1
        · rw [if_pos hd]; exact lt_trans h hd
        · rw [if_neg hd]; exact h
      · by_cases hj : j = i
        · subst hj
          left
          by_cases hd : d j > m.1
          · rw [if_pos hd]; exact h3
          · rw [if_neg hd]; exact lt_of_lt_of_le h3 (not_lt.mp hd)
        · exact Or.inr ⟨j, by omega, by omega, h3⟩

theorem find_max_diff_gt (c : presence_ctx_t) (T : ℝ) (hT : 0 ≤ T) :
    (find_max_diff c).1 > T ↔ ∃ i, 8 ≤ i ∧ i < 32 ∧ c.fast_avg i - c.slow_avg i > T := by
  have h := max_loop_gt (fun i => c.fast_avg i - c.slow_avg i) T 24 8 ((0 : ℝ), 0)
  have e : (0.0 : ℝ) = 0 := by norm_num
  have hl : find_max_diff c =
      for_loop_from (fun i (m : ℝ × Nat) =>
        if c.fast_avg i - c.slow_avg i > m.1 then (c.fast_avg i - c.slow_avg i, i) else m)
        24 8 ((0 : ℝ), 0) := by
    simp only [find_max_diff, e]
    rfl
  rw [hl, h]
  constructor
  · rintro (h0 | ⟨j, h1, h2, h3⟩)
    · exact absurd h0 (not_lt.mpr hT)
    · exact ⟨j, h1, by omega, h3⟩
  · rintro ⟨j, h1, h2, h3⟩
    exact Or.inr ⟨j, h1, by omega, h3⟩

theorem array_loop_spec (f : Nat → ℝ) (k : Nat) :
    ∀ (i : Nat) (a : Nat → ℝ),
      for_loop_from (fun i (a : Nat → ℝ) => setAt a i (f i)) k i a =
        fun j => if i ≤ j ∧ j < i + k then f j else a j := by
  induction k with
  | zero =>
    intro i a
    funext j
    have h : ¬ (i ≤ j ∧ j < i) := by omega
    simp [for_loop_from, h]
  | succ k ih =>
    intro i a
    simp only [for_loop_from, ih]
    funext j
    by_cases hj : j = i
    · subst hj
      have a1 : ¬ (j + 1 ≤ j ∧ j < j + 1 + k) := by omega
      have a2 : j ≤ j ∧ j < j + (k + 1) := by omega
      simp [a1, a2, setAt]
    · by_cases hr : i + 1 ≤ j ∧ j < i + 1 + k
      · have a2 : i ≤ j ∧ j < i + (k + 1) := by omega
        simp [hr, a2]
      · have a2 : ¬ (i ≤ j ∧ j < i + (k + 1)) := by omega
        simp [hr, a2, setAt, hj]

theorem sum_loop_const (x : Nat → ℝ) (v : ℝ) (hx : ∀ c, x c = v) (k : Nat) :
    ∀ (i : Nat) (s : ℝ), for_loop_from (fun c (sum : ℝ) => sum + x c) k i s = s + k * v := by
  induction k with
  | zero => intro i s; simp [for_loop_from]
  | succ k ih =>
    intro i s
    simp only [for_loop_from]
    rw [ih, hx]
    push_cast
    ring

theorem range_profile_impulse (a : Int) (s : Nat) :
    range_profile (impulse_frame a) s = if s = 27 then (a : ℝ) / 32768 else 0 := by
  have h := array_loop_spec
    (fun s => for_loop 0 RADAR_NUM_CHIRPS
        (fun c (sum : ℝ) => sum + ((impulse_frame a).samples (c * RADAR_NUM_SAMPLES + s) : ℝ)
          / 32768.0) (0.0 : ℝ) / (RADAR_NUM_CHIRPS : ℝ)) 64 0 (fun _ => 0)
  have hr : range_profile (impulse_frame a) = _ := h
  rw [hr]
  simp only [Nat.zero_le, true_and, Nat.zero_add]
  by_cases hs : s < 64
  · simp only [hs, if_true]
    by_cases h27 : s = 27
    · have hx : ∀ c, ((impulse_frame a).samples (c * RADAR_NUM_SAMPLES + s) : ℝ) / 32768.0
          = (a : ℝ) / 32768 := by
        intro c
        have : (c * RADAR_NUM_SAMPLES + s) % 64 = 27 := by
          unfold RADAR_NUM_SAMPLES; omega
        simp only [impulse_frame, this, if_true]
        norm_num
      have hl := sum_loop_const _ _ hx 64 0 (0.0 : ℝ)
      have hl2 : for_loop 0 RADAR_NUM_CHIRPS
        (fun c (sum : ℝ) => sum + ((impulse_frame a).samples (c * RADAR_NUM_SAMPLES + s) : ℝ)
          / 32768.0) (0.0 : ℝ) = _ := hl
      rw [hl2]
      simp only [h27, if_true, RADAR_NUM_CHIRPS]
      norm_num
    · have hx : ∀ c, ((impulse_frame a).samples (c * RADAR_NUM_SAMPLES + s) : ℝ) / 32768.0
          = 0 := by
        intro c
        have : ¬ ((c * RADAR_NUM_SAMPLES + s) % 64 = 27) := by
          unfold RADAR_NUM_SAMPLES; omega
        simp only [impulse_frame, this, if_false]
        norm_num
      have hl := sum_loop_const _ _ hx 64 0 (0.0 : ℝ)
      have hl2 : for_loop 0 RADAR_NUM_CHIRPS
        (fun c (sum : ℝ) => sum + ((impulse_frame a).samples (c * RADAR_NUM_SAMPLES + s) : ℝ)
          / 32768.0) (0.0 : ℝ) = _ := hl
      rw [hl2]
      simp only [h27, if_false, RADAR_NUM_CHIRPS]
      norm_num
  · have h27 : ¬ (s = 27) := by omega
    simp [hs, h27]

theorem apply_window_impulse (a : Int) (n : Nat) :
    apply_window (range_profile (impulse_frame a)) n =
      if n = 27 then (a : ℝ) / 32768 * 1.29952638 else 0 := by
  have h := array_loop_spec
    (fun i => range_profile (impulse_frame a) i * blackman_harris_64.getD i 0) 64 0 (fun _ => 0)
  have hr : apply_window (range_profile (impulse_frame a)) = _ := h
  rw [hr]
  simp only [Nat.zero_le, true_and, Nat.zero_add, range_profile_impulse]
  by_cases h27 : n = 27
  · subst h27
    simp [blackman_harris_64]
  · simp [h27]

theorem magnitude_spectrum_impulse (a : Int) (k : Nat) (h1 : 1 ≤ k) (h2 : k < 32) :
    magnitude_spectrum cmsis_exact (impulse_frame a) k = |(a : ℝ)| * 1.29952638 / 32768 := by
  have e0 : 2 * k ≠ 0 := by omega
  have e1 : 2 * k ≠ 1 := by omega
  have e2 : (2 * k) % 2 = 0 := by omega
  have e3 : 2 * k + 1 ≠ 0 := by omega
  have e4 : 2 * k + 1 ≠ 1 := by omega
  have e5 : ¬ ((2 * k + 1) % 2 = 0) := by omega
  have e6 : (2 * k) / 2 = k := by omega
  have e7 : (2 * k + 1) / 2 = k := by omega
  have hk : k < RADAR_NUM_SAMPLES / 2 := h2
  simp only [magnitude_spectrum, cmsis_exact, cmsis_cmplx_mag, hk, if_true, cmsis_rfft_fast_64,
    e0, e1, e2, e3, e4, e5, e6, e7, if_false, dft_re, dft_im, apply_window_impulse]
  rw [Finset.sum_eq_single 27 (fun n _ hn => by simp [hn]) (fun hn => by simp at hn),
    Finset.sum_eq_single 27 (fun n _ hn => by simp [hn]) (fun hn => by simp at hn)]
  simp only [if_true]
  have hsq : ((a : ℝ) / 32768 * 1.29952638 * Real.cos (2 * Real.pi * k * (27 : ℕ) / 64)) ^ 2 +
      (-((a : ℝ) / 32768 * 1.29952638 * Real.sin (2 * Real.pi * k * (27 : ℕ) / 64))) ^ 2 =
      ((a : ℝ) * 1.29952638 / 32768) ^ 2 := by
    have := Real.sin_sq_add_cos_sq (2 * Real.pi * k * (27 : ℕ) / 64)
    linear_combination ((a : ℝ) / 32768 * 1.29952638) ^ 2 * this
  rw [hsq, Real.sqrt_sq_eq_abs, abs_div, abs_mul]
  have p1 : |(1.29952638 : ℝ)| = 1.29952638 := abs_of_pos (by norm_num)
  have p2 : |(32768 : ℝ)| = 32768 := abs_of_pos (by norm_num)
  rw [p1, p2]

theorem detect_first (dsp : CmsisDsp) (T : ℝ) (ctx : presence_ctx_t) (fr : radar_frame_t)
    (hv : fr.valid = true) (hf : ctx.first_run = true) :
    presence_detect_thr dsp T ctx (some fr) =
      (false, { seed_averages (magnitude_spectrum dsp fr) ctx with first_run := false }) := by
  simp [presence_detect_thr, hv, hf]

theorem detect_next (dsp : CmsisDsp) (T : ℝ) (ctx : presence_ctx_t) (fr : radar_frame_t)
    (hv : fr.valid = true) (hf : ctx.first_run = false) :
    presence_detect_thr dsp T ctx (some fr) =
      (decide ((find_max_diff (update_averages (magnitude_spectrum dsp fr)
          (if ctx.presence_detected then ALPHA_SLOW else ALPHA_MED) ctx)).1 > T),
        { update_averages (magnitude_spectrum dsp fr)
            (if ctx.presence_detected then ALPHA_SLOW else ALPHA_MED) ctx with
          presence_detected := decide ((find_max_diff (update_averages (magnitude_spectrum dsp fr)
            (if ctx.presence_detected then ALPHA_SLOW else ALPHA_MED) ctx)).1 > T) }) := by
  simp [presence_detect_thr, hv, hf]

theorem threshold_nonneg : (0 : ℝ) ≤ THRESHOLD_PRESENCE := by
  unfold THRESHOLD_PRESENCE; norm_num

theorem find_max_diff_band_max (c : presence_ctx_t) (T : ℝ) (hT : 0 ≤ T) :
    (find_max_diff c).1 > T ↔ band_max c > T := by
  rw [find_max_diff_gt c T hT]
  unfold band_max
  rw [gt_iff_lt, Finset.lt_sup'_iff]
  constructor
  · rintro ⟨i, h1, h2, h3⟩
    exact ⟨i, Finset.mem_Ico.mpr ⟨h1, h2⟩, h3⟩
  · rintro ⟨i, hi, h3⟩
    exact ⟨i, (Finset.mem_Ico.mp hi).1, (Finset.mem_Ico.mp hi).2, h3⟩

/-! ## Presence detection: theorems -/

/-- C4. On a context fresh from `presence_init` and a valid frame,
`presence_detect` returns false, clears `first_run`, and leaves
`slow_avg[i] = fast_avg[i] = mag[i]` for every bin `i < 32`, `mag` being the
magnitude spectrum computed from the frame. -/
theorem first_frame_seeding (dsp : CmsisDsp) (c0 : presence_ctx_t) (fr : radar_frame_t)
    (hv : fr.valid = true) :
    (presence_detect dsp (presence_init c0) (some fr)).1 = false ∧
    (presence_detect dsp (presence_init c0) (some fr)).2.first_run = false ∧
    (presence_detect dsp (presence_init c0) (some fr)).2.presence_detected = false ∧
    ∀ i, i < 32 →
      (presence_detect dsp (presence_init c0) (some fr)).2.slow_avg i
        = magnitude_spectrum dsp fr i ∧
      (presence_detect dsp (presence_init c0) (some fr)).2.fast_avg i
        = magnitude_spectrum dsp fr i := by
  have h := detect_first dsp THRESHOLD_PRESENCE (presence_init c0) fr hv rfl
  unfold presence_detect
  rw [h, seed_averages_eq]
  refine ⟨rfl, rfl, rfl, ?_⟩
  intro i hi
  simp [hi]

/-- Witness of C4 on an impulse frame with the exact transform. -/
theorem first_frame_seeding_witness :
    (presence_detect cmsis_exact (presence_init ctx_zero) (some (impulse_frame 1000))).1
      = false ∧
    (presence_detect cmsis_exact (presence_init ctx_zero)
      (some (impulse_frame 1000))).2.first_run = false ∧
    (presence_detect cmsis_exact (presence_init ctx_zero)
      (some (impulse_frame 1000))).2.presence_detected = false ∧
    ∀ i, i < 32 →
      (presence_detect cmsis_exact (presence_init ctx_zero)
        (some (impulse_frame 1000))).2.slow_avg i
        = magnitude_spectrum cmsis_exact (impulse_frame 1000) i ∧
      (presence_detect cmsis_exact (presence_init ctx_zero)
        (some (impulse_frame 1000))).2.fast_avg i
        = magnitude_spectrum cmsis_exact (impulse_frame 1000) i :=
  first_frame_seeding cmsis_exact ctx_zero (impulse_frame 1000) rfl

/-- C5. On a valid frame after the first, `presence_detect` returns true, and
stores that in `presence_detected`, exactly when some bin `8 ≤ i < 32` has an
updated `fast_avg[i] - slow_avg[i]` above `THRESHOLD_PRESENCE = 0.0007`, that is
exactly when the maximum of the difference over these bins is above the
threshold; a second context and frame that agree with the first on the bins
`8 ≤ i < 32` and on the previous decision get the same decision, whatever
bins 0..7 hold. -/
theorem decision_rule (dsp : CmsisDsp) (ctx : presence_ctx_t) (fr : radar_frame_t)
    (hv : fr.valid = true) (hf : ctx.first_run = false) :
    ((presence_detect dsp ctx (some fr)).1 = true ↔
      ∃ i, 8 ≤ i ∧ i < 32 ∧
        (presence_detect dsp ctx (some fr)).2.fast_avg i -
          (presence_detect dsp ctx (some fr)).2.slow_avg i > THRESHOLD_PRESENCE) ∧
    ((presence_detect dsp ctx (some fr)).1 = true ↔
      band_max (presence_detect dsp ctx (some fr)).2 > THRESHOLD_PRESENCE) ∧
    (presence_detect dsp ctx (some fr)).2.presence_detected
      = (presence_detect dsp ctx (some fr)).1 ∧
    THRESHOLD_PRESENCE = 0.0007 ∧
    ∀ (ctx2 : presence_ctx_t) (fr2 : radar_frame_t),
      fr2.valid = true → ctx2.first_run = false →
      ctx2.presence_detected = ctx.presence_detected →
      (∀ i, 8 ≤ i → i < 32 →
        ctx2.slow_avg i = ctx.slow_avg i ∧ ctx2.fast_avg i = ctx.fast_avg i ∧
        magnitude_spectrum dsp fr2 i = magnitude_spectrum dsp fr i) →
      (presence_detect dsp ctx2 (some fr2)).1 = (presence_detect dsp ctx (some fr)).1 := by
  have key : ∀ (c : presence_ctx_t) (f : radar_frame_t), f.valid = true → c.first_run = false →
      ((presence_detect dsp c (some f)).1 = true ↔
        ∃ i, 8 ≤ i ∧ i < 32 ∧
          (c.fast_avg i * (1 - ALPHA_FAST) + magnitude_spectrum dsp f i * ALPHA_FAST) -
          (c.slow_avg i * (1 - (if c.presence_detected then ALPHA_SLOW else ALPHA_MED)) +
            magnitude_spectrum dsp f i *
              (if c.presence_detected then ALPHA_SLOW else ALPHA_MED)) > THRESHOLD_PRESENCE) := by
    intro c f hv1 hf1
    unfold presence_detect
    rw [detect_next dsp _ c f hv1 hf1]
    simp only [decide_eq_true_eq]
    rw [find_max_diff_gt _ _ threshold_nonneg, update_averages_eq]
    constructor
    · rintro ⟨i, h1, h2, h3⟩
      refine ⟨i, h1, h2, ?_⟩
      simpa [h2] using h3
    · rintro ⟨i, h1, h2, h3⟩
      refine ⟨i, h1, h2, ?_⟩
      simpa [h2] using h3
  have h := detect_next dsp THRESHOLD_PRESENCE ctx fr hv hf
  refine ⟨?_, ?_, ?_, ?_, ?_⟩
  · unfold presence_detect
    rw [h]
    simp only [decide_eq_true_eq]
    exact find_max_diff_gt _ _ threshold_nonneg
  · unfold presence_detect
    rw [h]
    simp only [decide_eq_true_eq]
    exact find_max_diff_band_max _ _ threshold_nonneg
  · unfold presence_detect
    rw [h]
  · unfold THRESHOLD_PRESENCE; rfl
  · intro ctx2 fr2 hv2 hf2 hp hb
    rw [Bool.eq_iff_iff, key ctx2 fr2 hv2 hf2, key ctx fr hv hf, hp]
    constructor
    · rintro ⟨i, h1, h2, h3⟩
      obtain ⟨a1, a2, a3⟩ := hb i h1 h2
      exact ⟨i, h1, h2, by rw [← a1, ← a2, ← a3]; exact h3⟩
    · rintro ⟨i, h1, h2, h3⟩
      obtain ⟨a1, a2, a3⟩ := hb i h1 h2
      exact ⟨i, h1, h2, by rw [a1, a2, a3]; exact h3⟩

/-- Witness of C5 on `ctx_zero` and an impulse frame with the exact transform. -/
theorem decision_rule_witness :
    ((presence_detect cmsis_exact ctx_zero (some (impulse_frame 1000))).1 = true ↔
      ∃ i, 8 ≤ i ∧ i < 32 ∧
        (presence_detect cmsis_exact ctx_zero (some (impulse_frame 1000))).2.fast_avg i -
          (presence_detect cmsis_exact ctx_zero (some (impulse_frame 1000))).2.slow_avg i
            > THRESHOLD_PRESENCE) ∧
    ((presence_detect cmsis_exact ctx_zero (some (impulse_frame 1000))).1 = true ↔
      band_max (presence_detect cmsis_exact ctx_zero (some (impulse_frame 1000))).2
        > THRESHOLD_PRESENCE) ∧
    (presence_detect cmsis_exact ctx_zero (some (impulse_frame 1000))).2.presence_detected
      = (presence_detect cmsis_exact ctx_zero (some (impulse_frame 1000))).1 ∧
    THRESHOLD_PRESENCE = 0.0007 ∧
    ∀ (ctx2 : presence_ctx_t) (fr2 : radar_frame_t),
      fr2.valid = true → ctx2.first_run = false →
      ctx2.presence_detected = ctx_zero.presence_detected →
      (∀ i, 8 ≤ i → i < 32 →
        ctx2.slow_avg i = ctx_zero.slow_avg i ∧ ctx2.fast_avg i = ctx_zero.fast_avg i ∧
        magnitude_spectrum cmsis_exact fr2 i
          = magnitude_spectrum cmsis_exact (impulse_frame 1000) i) →
      (presence_detect cmsis_exact ctx2 (some fr2)).1
        = (presence_detect cmsis_exact ctx_zero (some (impulse_frame 1000))).1 :=
  decision_rule cmsis_exact ctx_zero (impulse_frame 1000) rfl rfl

/-- C6. On a valid frame after the first and for every bin `i < 32`,
`presence_detect` stores `fast_avg[i] = fast_avg[i]*(1 - 0.6) + mag[i]*0.6` and
`slow_avg[i] = slow_avg[i]*(1 - a) + mag[i]*a`, where `a` is 0.001 when the
decision stored in the context is presence and 0.05 otherwise; the decision
returned is the one stored, so the background update of the following valid
frame uses 0.001 exactly when this call returned presence. -/
theorem adaptive_rate (dsp : CmsisDsp) (ctx : presence_ctx_t) (fr fr2 : radar_frame_t)
    (i : Nat) (hv : fr.valid = true) (hf : ctx.first_run = false) (hi : i < 32)
    (hv2 : fr2.valid = true) :
    (presence_detect dsp ctx (some fr)).2.fast_avg i =
      ctx.fast_avg i * (1 - 0.6) + magnitude_spectrum dsp fr i * 0.6 ∧
    (presence_detect dsp ctx (some fr)).2.slow_avg i =
      ctx.slow_avg i * (1 - (if ctx.presence_detected then 0.001 else 0.05)) +
        magnitude_spectrum dsp fr i * (if ctx.presence_detected then 0.001 else 0.05) ∧
    (presence_detect dsp ctx (some fr)).2.presence_detected
      = (presence_detect dsp ctx (some fr)).1 ∧
    (presence_detect dsp ctx (some fr)).2.first_run = false ∧
    (presence_detect dsp (presence_detect dsp ctx (some fr)).2 (some fr2)).2.slow_avg i =
      (presence_detect dsp ctx (some fr)).2.slow_avg i *
          (1 - (if (presence_detect dsp ctx (some fr)).1 then 0.001 else 0.05)) +
        magnitude_spectrum dsp fr2 i *
          (if (presence_detect dsp ctx (some fr)).1 then 0.001 else 0.05) := by
  have step : ∀ (c : presence_ctx_t) (f : radar_frame_t), f.valid = true →
      c.first_run = false →
      (presence_detect dsp c (some f)).2.fast_avg i =
        c.fast_avg i * (1 - 0.6) + magnitude_spectrum dsp f i * 0.6 ∧
      (presence_detect dsp c (some f)).2.slow_avg i =
        c.slow_avg i * (1 - (if c.presence_detected then 0.001 else 0.05)) +
          magnitude_spectrum dsp f i * (if c.presence_detected then 0.001 else 0.05) ∧
      (presence_detect dsp c (some f)).2.presence_detected
        = (presence_detect dsp c (some f)).1 ∧
      (presence_detect dsp c (some f)).2.first_run = false := by
    intro c f hv1 hf1
    unfold presence_detect
    rw [detect_next dsp _ c f hv1 hf1, update_averages_eq]
    refine ⟨?_, ?_, rfl, hf1⟩
    · simp [hi, ALPHA_FAST]
    · cases c.presence_detected <;> simp [hi, ALPHA_SLOW, ALPHA_MED]
  obtain ⟨s1, s2, s3, s4⟩ := step ctx fr hv hf
  refine ⟨s1, s2, s3, s4, ?_⟩
  obtain ⟨_, t2, _, _⟩ := step (presence_detect dsp ctx (some fr)).2 fr2 hv2 s4
  rw [t2, s3]

/-- Witness of C6 on `ctx_zero` and two impulse frames, at bin 8. -/
theorem adaptive_rate_witness :
    (presence_detect cmsis_exact ctx_zero (some (impulse_frame 1000))).2.fast_avg 8 =
      ctx_zero.fast_avg 8 * (1 - 0.6)
        + magnitude_spectrum cmsis_exact (impulse_frame 1000) 8 * 0.6 ∧
    (presence_detect cmsis_exact ctx_zero (some (impulse_frame 1000))).2.slow_avg 8 =
      ctx_zero.slow_avg 8 * (1 - (if ctx_zero.presence_detected then 0.001 else 0.05)) +
        magnitude_spectrum cmsis_exact (impulse_frame 1000) 8 *
          (if ctx_zero.presence_detected then 0.001 else 0.05) ∧
    (presence_detect cmsis_exact ctx_zero (some (impulse_frame 1000))).2.presence_detected
      = (presence_detect cmsis_exact ctx_zero (some (impulse_frame 1000))).1 ∧
    (presence_detect cmsis_exact ctx_zero (some (impulse_frame 1000))).2.first_run = false ∧
    (presence_detect cmsis_exact
        (presence_detect cmsis_exact ctx_zero (some (impulse_frame 1000))).2
        (some (impulse_frame 0))).2.slow_avg 8 =
      (presence_detect cmsis_exact ctx_zero (some (impulse_frame 1000))).2.slow_avg 8 *
          (1 - (if (presence_detect cmsis_exact ctx_zero (some (impulse_frame 1000))).1
            then 0.001 else 0.05)) +
        magnitude_spectrum cmsis_exact (impulse_frame 0) 8 *
          (if (presence_detect cmsis_exact ctx_zero (some (impulse_frame 1000))).1
            then 0.001 else 0.05) :=
  adaptive_rate cmsis_exact ctx_zero (impulse_frame 1000) (impulse_frame 0) 8 rfl rfl
    (by decide) rfl

/-! ## Lemmas: the detector on frames with a flat spectrum in the detection band -/

theorem flat_step (dsp : CmsisDsp) (T : ℝ) (ctx : presence_ctx_t) (fr : radar_frame_t)
    (p : Bool) (σ φ m : ℝ)
    (hv : fr.valid = true) (hf : ctx.first_run = false) (hp : ctx.presence_detected = p)
    (hT : 0 ≤ T)
    (hs : ∀ i, 8 ≤ i → i < 32 → ctx.slow_avg i = σ)
    (hfa : ∀ i, 8 ≤ i → i < 32 → ctx.fast_avg i = φ)
    (hm : ∀ i, 8 ≤ i → i < 32 → magnitude_spectrum dsp fr i = m) :
    (presence_detect_thr dsp T ctx (some fr)).1 =
      decide (φ * (1 - ALPHA_FAST) + m * ALPHA_FAST -
        (σ * (1 - (if p then ALPHA_SLOW else ALPHA_MED)) +
          m * (if p then ALPHA_SLOW else ALPHA_MED)) > T) ∧
    (presence_detect_thr dsp T ctx (some fr)).2.first_run = false ∧
    (presence_detect_thr dsp T ctx (some fr)).2.presence_detected =
      (presence_detect_thr dsp T ctx (some fr)).1 ∧
    (∀ i, 8 ≤ i → i < 32 → (presence_detect_thr dsp T ctx (some fr)).2.slow_avg i =
      σ * (1 - (if p then ALPHA_SLOW else ALPHA_MED)) +
        m * (if p then ALPHA_SLOW else ALPHA_MED)) ∧
    (∀ i, 8 ≤ i → i < 32 → (presence_detect_thr dsp T ctx (some fr)).2.fast_avg i =
      φ * (1 - ALPHA_FAST) + m * ALPHA_FAST) := by
  rw [detect_next dsp T ctx fr hv hf, update_averages_eq, hp]
  refine ⟨?_, hf, rfl, ?_, ?_⟩
  · rw [Bool.eq_iff_iff]
    simp only [decide_eq_true_eq]
    rw [find_max_diff_gt _ _ hT]
    constructor
    · rintro ⟨i, h1, h2, h3⟩
      simpa [h2, hs i h1 h2, hfa i h1 h2, hm i h1 h2] using h3
    · intro h
      refine ⟨8, le_refl 8, by norm_num, ?_⟩
      simpa [hs 8 (le_refl 8) (by norm_num), hfa 8 (le_refl 8) (by norm_num),
        hm 8 (le_refl 8) (by norm_num)] using h
  · intro i h1 h2
    simp [h2, hs i h1 h2, hm i h1 h2]
  · intro i h1 h2
    simp [h2, hfa i h1 h2, hm i h1 h2]

theorem flat_seed (dsp : CmsisDsp) (T : ℝ) (c0 : presence_ctx_t) (fr : radar_frame_t) (m : ℝ)
    (hv : fr.valid = true)
    (hm : ∀ i, 8 ≤ i → i < 32 → magnitude_spectrum dsp fr i = m) :
    (presence_detect_thr dsp T (presence_init c0) (some fr)).1 = false ∧
    (presence_detect_thr dsp T (presence_init c0) (some fr)).2.first_run = false ∧
    (presence_detect_thr dsp T (presence_init c0) (some fr)).2.presence_detected = false ∧
    (∀ i, 8 ≤ i → i < 32 →
      (presence_detect_thr dsp T (presence_init c0) (some fr)).2.slow_avg i = m) ∧
    (∀ i, 8 ≤ i → i < 32 →
      (presence_detect_thr dsp T (presence_init c0) (some fr)).2.fast_avg i = m) := by
  rw [detect_first dsp T (presence_init c0) fr hv rfl, seed_averages_eq]
  refine ⟨rfl, rfl, rfl, ?_, ?_⟩
  · intro i h1 h2
    simp [h2, hm i h1 h2]
  · intro i h1 h2
    simp [h2, hm i h1 h2]

theorem impulse_flat (a : Int) :
    ∀ i, 8 ≤ i → i < 32 →
      magnitude_spectrum cmsis_exact (impulse_frame a) i = |(a : ℝ)| * 1.29952638 / 32768 :=
  fun i h1 h2 => magnitude_spectrum_impulse a i (by omega) h2

/-- The decisions on `impulse_frames` from a fresh context, for a threshold
`T ≥ 0`, in terms of the three comparisons made. -/
theorem impulse_run (T : ℝ) (hT : 0 ≤ T) (p1 p2 p3 : Bool)
    (h1 : p1 = decide
      ((1000 * 1.29952638 / 32768 : ℝ) * (1 - ALPHA_FAST)
          + (1034 * 1.29952638 / 32768) * ALPHA_FAST -
        ((1000 * 1.29952638 / 32768) * (1 - ALPHA_MED)
          + (1034 * 1.29952638 / 32768) * ALPHA_MED) > T))
    (h2 : p2 = decide
      (((1000 * 1.29952638 / 32768 : ℝ) * (1 - ALPHA_FAST)
          + (1034 * 1.29952638 / 32768) * ALPHA_FAST) * (1 - ALPHA_FAST)
          + (0 * 1.29952638 / 32768) * ALPHA_FAST -
        (((1000 * 1.29952638 / 32768) * (1 - ALPHA_MED)
          + (1034 * 1.29952638 / 32768) * ALPHA_MED)
            * (1 - (if p1 then ALPHA_SLOW else ALPHA_MED))
          + (0 * 1.29952638 / 32768) * (if p1 then ALPHA_SLOW else ALPHA_MED)) > T))
    (h3 : p3 = decide
      ((((1000 * 1.29952638 / 32768 : ℝ) * (1 - ALPHA_FAST)
          + (1034 * 1.29952638 / 32768) * ALPHA_FAST) * (1 - ALPHA_FAST)
          + (0 * 1.29952638 / 32768) * ALPHA_FAST) * (1 - ALPHA_FAST)
          + (1400 * 1.29952638 / 32768) * ALPHA_FAST -
        ((((1000 * 1.29952638 / 32768) * (1 - ALPHA_MED)
          + (1034 * 1.29952638 / 32768) * ALPHA_MED)
            * (1 - (if p1 then ALPHA_SLOW else ALPHA_MED))
          + (0 * 1.29952638 / 32768) * (if p1 then ALPHA_SLOW else ALPHA_MED))
            * (1 - (if p2 then ALPHA_SLOW else ALPHA_MED))
          + (1400 * 1.29952638 / 32768) * (if p2 then ALPHA_SLOW else ALPHA_MED)) > T)) :
    (detect_run cmsis_exact T (presence_init ctx_zero) impulse_frames).1
      = [false, p1, p2, p3] := by
  have m0 : ∀ i, 8 ≤ i → i < 32 → magnitude_spectrum cmsis_exact (impulse_frame 1000) i =
      (1000 * 1.29952638 / 32768 : ℝ) := by
    intro i a b; rw [impulse_flat 1000 i a b]; norm_num
  have m1 : ∀ i, 8 ≤ i → i < 32 → magnitude_spectrum cmsis_exact (impulse_frame 1034) i =
      (1034 * 1.29952638 / 32768 : ℝ) := by
    intro i a b; rw [impulse_flat 1034 i a b]; norm_num
  have m2 : ∀ i, 8 ≤ i → i < 32 → magnitude_spectrum cmsis_exact (impulse_frame 0) i =
      (0 * 1.29952638 / 32768 : ℝ) := by
    intro i a b; rw [impulse_flat 0 i a b]; norm_num
  have m3 : ∀ i, 8 ≤ i → i < 32 → magnitude_spectrum cmsis_exact (impulse_frame 1400) i =
      (1400 * 1.29952638 / 32768 : ℝ) := by
    intro i a b; rw [impulse_flat 1400 i a b]; norm_num
  obtain ⟨a1, a2, a3, a4, a5⟩ :=
    flat_seed cmsis_exact T ctx_zero (impulse_frame 1000) _ rfl m0
  obtain ⟨b1, b2, b3, b4, b5⟩ :=
    flat_step cmsis_exact T _ (impulse_frame 1034) false _ _ _ rfl a2 a3 hT a4 a5 m1
  rw [if_neg Bool.false_ne_true] at b1 b4
  rw [← h1] at b1
  rw [b1] at b3
  obtain ⟨c1, c2, c3, c4, c5⟩ :=
    flat_step cmsis_exact T _ (impulse_frame 0) p1 _ _ _ rfl b2 b3 hT b4 b5 m2
  rw [← h2] at c1
  rw [c1] at c3
  obtain ⟨d1, _, _, _, _⟩ :=
    flat_step cmsis_exact T _ (impulse_frame 1400) p2 _ _ _ rfl c2 c3 hT c4 c5 m3
  rw [← h3] at d1
  simp only [impulse_frames, detect_run, a1, b1, c1, d1]

theorem step_monotone (dsp : CmsisDsp) (T1 T2 : ℝ) (hT : T1 ≤ T2) (ctx : presence_ctx_t)
    (frame : Option radar_frame_t)
    (h : (presence_detect_thr dsp T2 ctx frame).1 = true) :
    (presence_detect_thr dsp T1 ctx frame).1 = true := by
  cases frame with
  | none => simp [presence_detect_thr] at h
  | some fr =>
    cases hv : fr.valid with
    | false => simp [presence_detect_thr, hv] at h
    | true =>
      cases hf : ctx.first_run with
      | true => simp [presence_detect_thr, hv, hf] at h
      | false =>
        rw [detect_next dsp T2 ctx fr hv hf] at h
        rw [detect_next dsp T1 ctx fr hv hf]
        simp only [decide_eq_true_eq] at h ⊢
        exact lt_of_le_of_lt hT h

theorem step_ctx_eq (dsp : CmsisDsp) (T1 T2 : ℝ) (ctx : presence_ctx_t)
    (frame : Option radar_frame_t)
    (h : (presence_detect_thr dsp T1 ctx frame).1 = (presence_detect_thr dsp T2 ctx frame).1) :
    (presence_detect_thr dsp T1 ctx frame).2 = (presence_detect_thr dsp T2 ctx frame).2 := by
  cases frame with
  | none => simp [presence_detect_thr]
  | some fr =>
    cases hv : fr.valid with
    | false => simp [presence_detect_thr, hv]
    | true =>
      cases hf : ctx.first_run with
      | true => simp [presence_detect_thr, hv, hf]
      | false =>
        rw [detect_next dsp T2 ctx fr hv hf] at h ⊢
        rw [detect_next dsp T1 ctx fr hv hf] at h ⊢
        simp only at h ⊢
        rw [h]

/-! ## Presence detection: the threshold as a parameter -/

/-- C7, as stated, fails: on four valid frames from a fresh context, the
detector with threshold 0.0008 reports presence on the fourth frame while the
detector with the lower threshold 0.0007 does not. -/
theorem monotone_threshold_counterexample :
    (0.0007 : ℝ) ≤ 0.0008 ∧
    (∀ fr ∈ impulse_frames, fr.valid = true) ∧
    (detect_run cmsis_exact 0.0008 (presence_init ctx_zero) impulse_frames).1
      = [false, false, false, true] ∧
    (detect_run cmsis_exact 0.0007 (presence_init ctx_zero) impulse_frames).1
      = [false, true, false, false] := by
  refine ⟨by norm_num, ?_, ?_, ?_⟩
  · intro fr hfr
    simp only [impulse_frames, List.mem_cons, List.mem_singleton, List.not_mem_nil,
      or_false] at hfr
    rcases hfr with h | h | h | h <;> subst h <;> rfl
  · apply impulse_run 0.0008 (by norm_num) false false true
    · exact (decide_eq_false (by norm_num [ALPHA_FAST, ALPHA_MED])).symm
    · exact (decide_eq_false (by norm_num [ALPHA_FAST, ALPHA_MED])).symm
    · exact (decide_eq_true (by norm_num [ALPHA_FAST, ALPHA_MED])).symm
  · apply impulse_run 0.0007 (by norm_num) true false false
    · exact (decide_eq_true (by norm_num [ALPHA_FAST, ALPHA_MED])).symm
    · exact (decide_eq_false (by norm_num [ALPHA_FAST, ALPHA_MED, ALPHA_SLOW])).symm
    · exact (decide_eq_false (by norm_num [ALPHA_FAST, ALPHA_MED, ALPHA_SLOW])).symm

/-- C7, amended. For thresholds `T1 ≤ T2`, any context and any frame sequence:
a frame on which the run with `T2` reports presence is also reported by the run
with `T1`, provided the two runs returned the same decisions on all earlier
frames (in particular on the first frame of the sequence, and on the first frame
where the two runs differ). -/
theorem monotone_until_divergence (dsp : CmsisDsp) (T1 T2 : ℝ) (hT : T1 ≤ T2)
    (frames : List radar_frame_t) :
    ∀ (ctx : presence_ctx_t) (k : Nat),
      (∀ j, j < k → (detect_run dsp T1 ctx frames).1.getD j false
        = (detect_run dsp T2 ctx frames).1.getD j false) →
      (detect_run dsp T2 ctx frames).1.getD k false = true →
      (detect_run dsp T1 ctx frames).1.getD k false = true := by
  induction frames with
  | nil =>
    intro ctx k _ h2
    simp [detect_run] at h2
  | cons fr rest ih =>
    intro ctx k hagree h2
    cases k with
    | zero =>
      simp only [detect_run, List.getD_cons_zero] at h2 ⊢
      exact step_monotone dsp T1 T2 hT ctx (some fr) h2
    | succ k =>
      have h0 := hagree 0 (Nat.succ_pos k)
      simp only [detect_run, List.getD_cons_zero] at h0
      have hc := step_ctx_eq dsp T1 T2 ctx (some fr) h0
      simp only [detect_run, List.getD_cons_succ] at h2 ⊢
      rw [hc]
      apply ih _ k _ h2
      intro j hj
      have hj1 := hagree (j + 1) (Nat.succ_lt_succ hj)
      simp only [detect_run, List.getD_cons_succ] at hj1
      rw [hc] at hj1
      exact hj1

/-- Witness of the amended C7: thresholds 0.0005 and 0.0007 on `impulse_frames`,
at the second frame. -/
theorem monotone_until_divergence_witness :
    (0.0005 : ℝ) ≤ 0.0007 ∧
    (∀ j, j < 1 →
      (detect_run cmsis_exact 0.0005 (presence_init ctx_zero) impulse_frames).1.getD j false
        = (detect_run cmsis_exact 0.0007 (presence_init ctx_zero) impulse_frames).1.getD j
            false) ∧
    (detect_run cmsis_exact 0.0007 (presence_init ctx_zero) impulse_frames).1.getD 1 false
      = true ∧
    (detect_run cmsis_exact 0.0005 (presence_init ctx_zero) impulse_frames).1.getD 1 false
      = true := by
  have r5 := impulse_run 0.0005 (by norm_num) _ _ _ rfl rfl rfl
  have r7 := impulse_run 0.0007 (by norm_num) true _ _
    (decide_eq_true (by norm_num [ALPHA_FAST, ALPHA_MED])).symm rfl rfl
  have hagree : ∀ j, j < 1 →
      (detect_run cmsis_exact 0.0005 (presence_init ctx_zero) impulse_frames).1.getD j false
        = (detect_run cmsis_exact 0.0007 (presence_init ctx_zero) impulse_frames).1.getD j
            false := by
    intro j hj
    have : j = 0 := by omega
    subst this
    rw [r5, r7]
    rfl
  have h2 : (detect_run cmsis_exact 0.0007 (presence_init ctx_zero) impulse_frames).1.getD 1
      false = true := by
    rw [r7]; rfl
  exact ⟨by norm_num, hagree, h2,
    monotone_until_divergence cmsis_exact 0.0005 0.0007 (by norm_num) impulse_frames
      (presence_init ctx_zero) 1 hagree h2⟩

/-! ## Presence detection: invalid frames, reset, stationary scenes, frame extent -/

theorem detect_invalid (dsp : CmsisDsp) (T : ℝ) (ctx : presence_ctx_t)
    (frame : Option radar_frame_t)
    (h : frame = none ∨ ∃ f, frame = some f ∧ f.valid = false) :
    presence_detect_thr dsp T ctx frame = (false, ctx) := by
  rcases h with h | ⟨f, h, hv⟩
  · subst h; rfl
  · subst h; simp [presence_detect_thr, hv]

theorem detect_run_append (dsp : CmsisDsp) (T : ℝ) (a b : List radar_frame_t) :
    ∀ ctx : presence_ctx_t,
      detect_run dsp T ctx (a ++ b) =
        ((detect_run dsp T ctx a).1 ++ (detect_run dsp T (detect_run dsp T ctx a).2 b).1,
         (detect_run dsp T (detect_run dsp T ctx a).2 b).2) := by
  induction a with
  | nil => intro ctx; simp [detect_run]
  | cons fr rest ih => intro ctx; simp [detect_run, ih]

theorem detect_run_invalid (dsp : CmsisDsp) (T : ℝ) (pre : List radar_frame_t)
    (h : ∀ g ∈ pre, g.valid = false) :
    ∀ ctx : presence_ctx_t,
      detect_run dsp T ctx pre = (List.replicate pre.length false, ctx) := by
  induction pre with
  | nil => intro ctx; rfl
  | cons fr rest ih =>
    intro ctx
    have h1 := detect_invalid dsp T ctx (some fr)
      (Or.inr ⟨fr, rfl, h fr (List.mem_cons_self _ _)⟩)
    simp only [detect_run, h1, ih (fun g hg => h g (List.mem_cons_of_mem _ hg)),
      List.length_cons, List.replicate_succ]

/-- C26. When the frame pointer is `NULL` or the frame is not valid,
`presence_detect` returns false and leaves the whole context as it was, so the
next call behaves as if the invalid frame had never been offered. -/
theorem invalid_frame_ignored (dsp : CmsisDsp) (ctx : presence_ctx_t)
    (frame : Option radar_frame_t)
    (h : frame = none ∨ ∃ f, frame = some f ∧ f.valid = false) :
    presence_detect dsp ctx frame = (false, ctx) ∧
    ∀ next : Option radar_frame_t,
      presence_detect dsp (presence_detect dsp ctx frame).2 next = presence_detect dsp ctx next := by
  have e : presence_detect dsp ctx frame = (false, ctx) := detect_invalid dsp _ ctx frame h
  refine ⟨e, ?_⟩
  intro next
  rw [e]

/-- Witness of C26: a frame with `valid` false offered to a fresh context. -/
theorem invalid_frame_ignored_witness :
    presence_detect cmsis_exact (presence_init ctx_zero)
        (some { samples := fun _ => 100, timestamp := 0, valid := false })
      = (false, presence_init ctx_zero) ∧
    ∀ next : Option radar_frame_t,
      presence_detect cmsis_exact
        (presence_detect cmsis_exact (presence_init ctx_zero)
          (some { samples := fun _ => 100, timestamp := 0, valid := false })).2 next
        = presence_detect cmsis_exact (presence_init ctx_zero) next :=
  invalid_frame_ignored cmsis_exact (presence_init ctx_zero)
    (some { samples := fun _ => 100, timestamp := 0, valid := false })
    (Or.inr ⟨_, rfl, rfl⟩)

/-- C22. Whatever two contexts held before, after `presence_init` the same
frames give the same decisions and the same final context. After
`presence_init`, when the frames offered before the first valid one are all
invalid, every decision up to and including the first valid frame is "no
presence", and that frame seeds the averages: afterwards `first_run` is false
and `slow_avg[i] = fast_avg[i] = mag[i]` for `i < 32`. -/
theorem reset_discards_background (dsp : CmsisDsp) (c1 c2 : presence_ctx_t)
    (frames : List radar_frame_t) :
    detect_run dsp THRESHOLD_PRESENCE (presence_init c1) frames =
      detect_run dsp THRESHOLD_PRESENCE (presence_init c2) frames ∧
    ∀ (pre post : List radar_frame_t) (f : radar_frame_t),
      (∀ g ∈ pre, g.valid = false) → f.valid = true →
      (∀ j, j ≤ pre.length →
        (detect_run dsp THRESHOLD_PRESENCE (presence_init c1) (pre ++ f :: post)).1.getD j true
          = false) ∧
      (detect_run dsp THRESHOLD_PRESENCE (presence_init c1) (pre ++ [f])).2.first_run = false ∧
      ∀ i, i < 32 →
        (detect_run dsp THRESHOLD_PRESENCE (presence_init c1) (pre ++ [f])).2.slow_avg i
          = magnitude_spectrum dsp f i ∧
        (detect_run dsp THRESHOLD_PRESENCE (presence_init c1) (pre ++ [f])).2.fast_avg i
          = magnitude_spectrum dsp f i := by
  refine ⟨rfl, ?_⟩
  intro pre post f hpre hv
  have hf := detect_first dsp THRESHOLD_PRESENCE (presence_init c1) f hv rfl
  refine ⟨?_, ?_, ?_⟩
  · intro j hj
    rw [detect_run_append, detect_run_invalid dsp _ pre hpre]
    simp only [detect_run, hf]
    by_cases hlt : j < pre.length
    · rw [List.getD_append _ _ _ _ (by simpa using hlt)]
      rw [List.getD_eq_getElem _ _ (by simpa using hlt)]
      simp
    · have hje : j = pre.length := by omega
      subst hje
      rw [List.getD_append_right _ _ _ _ (by simp)]
      simp
  · rw [detect_run_append, detect_run_invalid dsp _ pre hpre]
    simp only [detect_run, hf]
  · intro i hi
    rw [detect_run_append, detect_run_invalid dsp _ pre hpre]
    simp only [detect_run, hf, seed_averages_eq]
    simp [hi]

theorem settled_step (dsp : CmsisDsp) (ctx : presence_ctx_t) (fr : radar_frame_t)
    (hv : fr.valid = true) (hf : ctx.first_run = false)
    (hs : ∀ i, i < 32 → ctx.slow_avg i = magnitude_spectrum dsp fr i)
    (hfa : ∀ i, i < 32 → ctx.fast_avg i = magnitude_spectrum dsp fr i) :
    (presence_detect_thr dsp THRESHOLD_PRESENCE ctx (some fr)).1 = false ∧
    (presence_detect_thr dsp THRESHOLD_PRESENCE ctx (some fr)).2.first_run = false ∧
    (∀ i, i < 32 → (presence_detect_thr dsp THRESHOLD_PRESENCE ctx (some fr)).2.slow_avg i
      = magnitude_spectrum dsp fr i) ∧
    (∀ i, i < 32 → (presence_detect_thr dsp THRESHOLD_PRESENCE ctx (some fr)).2.fast_avg i
      = magnitude_spectrum dsp fr i) := by
  rw [detect_next dsp _ ctx fr hv hf, update_averages_eq]
  refine ⟨?_, hf, ?_, ?_⟩
  · simp only [decide_eq_false_iff_not]
    rw [find_max_diff_gt _ _ threshold_nonneg]
    rintro ⟨i, _, h2, h3⟩
    simp only [h2, if_true, hs i h2, hfa i h2] at h3
    have hz : magnitude_spectrum dsp fr i * (1 - ALPHA_FAST)
        + magnitude_spectrum dsp fr i * ALPHA_FAST -
        (magnitude_spectrum dsp fr i *
            (1 - if ctx.presence_detected = true then ALPHA_SLOW else ALPHA_MED) +
          magnitude_spectrum dsp fr i *
            if ctx.presence_detected = true then ALPHA_SLOW else ALPHA_MED) = 0 := by ring
    rw [hz] at h3
    exact absurd h3 (not_lt.mpr threshold_nonneg)
  · intro i hi
    simp only [hi, if_true, hs i hi]
    ring
  · intro i hi
    simp only [hi, if_true, hfa i hi]
    ring

theorem settled_run (dsp : CmsisDsp) (fr : radar_frame_t) (hv : fr.valid = true) (k : Nat) :
    ∀ ctx : presence_ctx_t, ctx.first_run = false →
      (∀ i, i < 32 → ctx.slow_avg i = magnitude_spectrum dsp fr i) →
      (∀ i, i < 32 → ctx.fast_avg i = magnitude_spectrum dsp fr i) →
      (detect_run dsp THRESHOLD_PRESENCE ctx (List.replicate k fr)).1 = List.replicate k false ∧
      (∀ i, i < 32 →
        (detect_run dsp THRESHOLD_PRESENCE ctx (List.replicate k fr)).2.slow_avg i
          = magnitude_spectrum dsp fr i) ∧
      (∀ i, i < 32 →
        (detect_run dsp THRESHOLD_PRESENCE ctx (List.replicate k fr)).2.fast_avg i
          = magnitude_spectrum dsp fr i) := by
  induction k with
  | zero =>
    intro ctx _ hs hfa
    exact ⟨rfl, hs, hfa⟩
  | succ k ih =>
    intro ctx hf hs hfa
    obtain ⟨s1, s2, s3, s4⟩ := settled_step dsp ctx fr hv hf hs hfa
    obtain ⟨r1, r2, r3⟩ := ih _ s2 s3 s4
    simp only [List.replicate_succ, detect_run, s1, r1]
    exact ⟨trivial, r2, r3⟩

/-- C25. From `presence_init`, feeding the same valid frame `k ≥ 1` times gives
"no presence" every time and leaves `slow_avg[i] = fast_avg[i] = mag[i]` for
every bin `i < 32` (exact real arithmetic); as this holds for every `k`, it
holds after each of the calls. -/
theorem stationary_scene (dsp : CmsisDsp) (c0 : presence_ctx_t) (fr : radar_frame_t) (k : Nat)
    (hv : fr.valid = true) (hk : 1 ≤ k) :
    (detect_run dsp THRESHOLD_PRESENCE (presence_init c0) (List.replicate k fr)).1
      = List.replicate k false ∧
    ∀ i, i < 32 →
      (detect_run dsp THRESHOLD_PRESENCE (presence_init c0) (List.replicate k fr)).2.slow_avg i
        = magnitude_spectrum dsp fr i ∧
      (detect_run dsp THRESHOLD_PRESENCE (presence_init c0) (List.replicate k fr)).2.fast_avg i
        = magnitude_spectrum dsp fr i := by
  obtain ⟨j, rfl⟩ : ∃ j, k = j + 1 := ⟨k - 1, by omega⟩
  have hf := detect_first dsp THRESHOLD_PRESENCE (presence_init c0) fr hv rfl
  have hseed : ∀ i, i < 32 →
      ({ seed_averages (magnitude_spectrum dsp fr) (presence_init c0) with
          first_run := false } : presence_ctx_t).slow_avg i = magnitude_spectrum dsp fr i ∧
      ({ seed_averages (magnitude_spectrum dsp fr) (presence_init c0) with
          first_run := false } : presence_ctx_t).fast_avg i = magnitude_spectrum dsp fr i := by
    intro i hi
    rw [seed_averages_eq]
    simp [hi]
  obtain ⟨r1, r2, r3⟩ := settled_run dsp fr hv j
    { seed_averages (magnitude_spectrum dsp fr) (presence_init c0) with first_run := false }
    rfl (fun i hi => (hseed i hi).1) (fun i hi => (hseed i hi).2)
  simp only [List.replicate_succ, detect_run, hf, r1]
  exact ⟨trivial, fun i hi => ⟨r2 i hi, r3 i hi⟩⟩

/-- Witness of C25: an impulse frame offered three times, exact transform. -/
theorem stationary_scene_witness :
    (detect_run cmsis_exact THRESHOLD_PRESENCE (presence_init ctx_zero)
      (List.replicate 3 (impulse_frame 1000))).1 = List.replicate 3 false ∧
    ∀ i, i < 32 →
      (detect_run cmsis_exact THRESHOLD_PRESENCE (presence_init ctx_zero)
        (List.replicate 3 (impulse_frame 1000))).2.slow_avg i
        = magnitude_spectrum cmsis_exact (impulse_frame 1000) i ∧
      (detect_run cmsis_exact THRESHOLD_PRESENCE (presence_init ctx_zero)
        (List.replicate 3 (impulse_frame 1000))).2.fast_avg i
        = magnitude_spectrum cmsis_exact (impulse_frame 1000) i :=
  stationary_scene cmsis_exact ctx_zero (impulse_frame 1000) 3 rfl (by decide)

theorem for_loop_from_congr {σ : Type} (f g : Nat → σ → σ) (k : Nat) :
    ∀ (i : Nat) (s : σ), (∀ j, i ≤ j → j < i + k → ∀ t, f j t = g j t) →
      for_loop_from f k i s = for_loop_from g k i s := by
  induction k with
  | zero => intro i s _; rfl
  | succ k ih =>
    intro i s h
    simp only [for_loop_from]
    rw [h i (le_refl i) (by omega) s]
    exact ih (i + 1) _ (fun j h1 h2 t => h j (by omega) (by omega) t)

theorem range_profile_congr (f1 f2 : radar_frame_t)
    (hs : ∀ i, i < 4096 → f1.samples i = f2.samples i) :
    range_profile f1 = range_profile f2 := by
  unfold range_profile for_loop
  apply for_loop_from_congr
  intro s _ hs2 t
  have hin : for_loop_from (fun c (sum : ℝ) =>
        sum + ((f1.samples (c * RADAR_NUM_SAMPLES + s) : ℤ) : ℝ) / 32768.0)
        (RADAR_NUM_CHIRPS - 0) 0 (0.0 : ℝ) =
      for_loop_from (fun c (sum : ℝ) =>
        sum + ((f2.samples (c * RADAR_NUM_SAMPLES + s) : ℤ) : ℝ) / 32768.0)
        (RADAR_NUM_CHIRPS - 0) 0 (0.0 : ℝ) := by
    apply for_loop_from_congr
    intro c _ hc2 u
    have hidx : c * RADAR_NUM_SAMPLES + s < 4096 := by
      simp only [RADAR_NUM_SAMPLES, RADAR_NUM_CHIRPS] at hs2 hc2 ⊢
      omega
    simp only [hs _ hidx]
  simp only [hin]

/-- C28. Every sample index `c*64 + s` with `c, s < 64` that `presence_detect`
reads is below `SAMPLES_PER_FRAME = 4096`, while the frame buffer holds
`RADAR_FRAME_SIZE = 12288` samples; two frames with the same valid flag and the
same samples at indices below 4096 give the same decision and the same
resulting context, whatever their other samples and their timestamps. -/
theorem detector_reads_first_4096 (dsp : CmsisDsp) (ctx : presence_ctx_t)
    (f1 f2 : radar_frame_t) (hvalid : f1.valid = f2.valid)
    (hs : ∀ i, i < 4096 → f1.samples i = f2.samples i) :
    (∀ c s, c < RADAR_NUM_CHIRPS → s < RADAR_NUM_SAMPLES →
      c * RADAR_NUM_SAMPLES + s < SAMPLES_PER_FRAME) ∧
    SAMPLES_PER_FRAME = 4096 ∧ RADAR_FRAME_SIZE = 12288 ∧
    presence_detect dsp ctx (some f1) = presence_detect dsp ctx (some f2) := by
  refine ⟨?_, rfl, rfl, ?_⟩
  · intro c s hc hs2
    simp only [RADAR_NUM_SAMPLES, RADAR_NUM_CHIRPS, SAMPLES_PER_FRAME] at hc hs2 ⊢
    omega
  · have hm : magnitude_spectrum dsp f1 = magnitude_spectrum dsp f2 := by
      simp only [magnitude_spectrum, range_profile_congr f1 f2 hs]
    simp only [presence_detect, presence_detect_thr, hvalid, hm]

/-- Witness of C28: two frames that differ at index 4096 and in the timestamp. -/
theorem detector_reads_first_4096_witness :
    (∀ c s, c < RADAR_NUM_CHIRPS → s < RADAR_NUM_SAMPLES →
      c * RADAR_NUM_SAMPLES + s < SAMPLES_PER_FRAME) ∧
    SAMPLES_PER_FRAME = 4096 ∧ RADAR_FRAME_SIZE = 12288 ∧
    presence_detect cmsis_exact ctx_zero
        (some { samples := fun i => if i < 4096 then 5 else 900, timestamp := 1, valid := true })
      = presence_detect cmsis_exact ctx_zero
        (some { samples := fun _ => 5, timestamp := 2, valid := true }) :=
  detector_reads_first_4096 cmsis_exact ctx_zero
    { samples := fun i => if i < 4096 then 5 else 900, timestamp := 1, valid := true }
    { samples := fun _ => 5, timestamp := 2, valid := true } rfl
    (fun i hi => by simp [hi])

/-! ## The host test's detector on the noise-free scenario -/

theorem simple_threshold_nonneg : (0 : ℝ) ≤ HostTest.THRESHOLD_PRESENCE := by
  unfold HostTest.THRESHOLD_PRESENCE; norm_num

theorem seed_simple_eq (energy : Nat → ℝ) (c : presence_ctx_t) :
    HostTest.seed_simple energy c =
      { slow_avg := fun j => if j < 64 then energy j else c.slow_avg j,
        fast_avg := fun j => if j < 64 then energy j else c.fast_avg j,
        first_run := c.first_run,
        presence_detected := c.presence_detected } := by
  have h := ctx_loop_spec (fun j _ => energy j) (fun j _ => energy j) 64 0 c
  simp only [Nat.zero_le, true_and, Nat.zero_add] at h
  exact h

theorem update_simple_eq (energy : Nat → ℝ) (a : ℝ) (c : presence_ctx_t) :
    HostTest.update_simple energy a c =
      { slow_avg := fun j => if j < 64 then c.slow_avg j * (1 - a) + energy j * a
          else c.slow_avg j,
        fast_avg := fun j => if j < 64 then
            c.fast_avg j * (1 - HostTest.ALPHA_FAST) + energy j * HostTest.ALPHA_FAST
          else c.fast_avg j,
        first_run := c.first_run,
        presence_detected := c.presence_detected } := by
  have h := ctx_loop_spec (fun j x => x * (1 - a) + energy j * a)
    (fun j x => x * (1 - HostTest.ALPHA_FAST) + energy j * HostTest.ALPHA_FAST) 64 0 c
  simp only [Nat.zero_le, true_and, Nat.zero_add] at h
  have e : (1.0 : ℝ) = 1 := by norm_num
  simp only [HostTest.update_simple, e]
  exact h

theorem scalar_max_loop_gt (d : Nat → ℝ) (T : ℝ) (k : Nat) :
    ∀ (i : Nat) (m : ℝ),
      (for_loop_from (fun i (m : ℝ) => if d i > m then d i else m) k i m > T ↔
        m > T ∨ ∃ j, i ≤ j ∧ j < i + k ∧ d j > T) := by
  induction k with
  | zero =>
    intro i m
    simp only [for_loop_from]
    constructor
    · intro h; exact Or.inl h
    · rintro (h | ⟨j, h1, h2, _⟩)
      · exact h
      · omega
  | succ k ih =>
    intro i m
    simp only [for_loop_from]
    rw [ih]
    constructor
    · rintro (h | ⟨j, h1, h2, h3⟩)
      · by_cases hd : d i > m
        · rw [if_pos hd] at h
          exact Or.inr ⟨i, le_refl i, by omega, h⟩
        · rw [if_neg hd] at h
          exact Or.inl h
      · exact Or.inr ⟨j, by omega, by omega, h3⟩
    · rintro (h | ⟨j, h1, h2, h3⟩)
      · left
        by_cases hd : d i > m
        · rw [if_pos hd]; exact lt_trans h hd
        · rw [if_neg hd]; exact h
      · by_cases hj : j = i
        · subst hj
          left
          by_cases hd : d j > m
          · rw [if_pos hd]; exact h3
          · rw [if_neg hd]; exact lt_of_lt_of_le h3 (not_lt.mp hd)
        · exact Or.inr ⟨j, by omega, by omega, h3⟩

theorem max_diff_simple_gt (c : presence_ctx_t) (T : ℝ) (hT : 0 ≤ T) :
    HostTest.max_diff_simple c > T ↔
      ∃ i, 8 ≤ i ∧ i < 32 ∧ c.fast_avg i - c.slow_avg i > T := by
  have h := scalar_max_loop_gt (fun i => c.fast_avg i - c.slow_avg i) T 24 8 (0 : ℝ)
  have e : (0.0 : ℝ) = 0 := by norm_num
  have hl : HostTest.max_diff_simple c =
      for_loop_from (fun i (m : ℝ) =>
        if c.fast_avg i - c.slow_avg i > m then c.fast_avg i - c.slow_avg i else m)
        24 8 (0 : ℝ) := by
    simp only [HostTest.max_diff_simple, e]
    rfl
  rw [hl, h]
  constructor
  · rintro (h0 | ⟨j, h1, h2, h3⟩)
    · exact absurd h0 (not_lt.mpr hT)
    · exact ⟨j, h1, by omega, h3⟩
  · rintro ⟨j, h1, h2, h3⟩
    exact Or.inr ⟨j, h1, by omega, h3⟩

theorem sq_sum_loop_const (x : Nat → ℝ) (v : ℝ) (hx : ∀ c, x c = v) (k : Nat) :
    ∀ (i : Nat) (s : ℝ),
      for_loop_from (fun c (sum : ℝ) => sum + x c * x c) k i s = s + k * (v * v) := by
  induction k with
  | zero => intro i s; simp [for_loop_from]
  | succ k ih =>
    intro i s
    simp only [for_loop_from]
    rw [ih, hx]
    push_cast
    ring

theorem scenario_energy_at (b : Bool) (s : Nat) (hs : s < 64) :
    HostTest.sample_energy (HostTest.scenario_frame b) s =
      if s = 20 then ((HostTest.scenario_energy b : ℚ) : ℝ) else 0 := by
  have h := array_loop_spec
    (fun s => for_loop 0 HostTest.RADAR_NUM_CHIRPS
        (fun c (sum : ℝ) =>
          sum + (((HostTest.scenario_frame b).samples (c * HostTest.RADAR_NUM_SAMPLES + s) : ℤ) : ℝ)
              / 32768.0 *
            ((((HostTest.scenario_frame b).samples (c * HostTest.RADAR_NUM_SAMPLES + s) : ℤ) : ℝ)
              / 32768.0))
        (0.0 : ℝ) / (HostTest.RADAR_NUM_CHIRPS : ℝ)) 64 0 (fun _ => 0)
  have hr : HostTest.sample_energy (HostTest.scenario_frame b) = _ := h
  rw [hr]
  simp only [Nat.zero_le, true_and, Nat.zero_add, hs, if_true]
  have key : ∀ v : ℝ,
      (∀ c, (((HostTest.scenario_frame b).samples (c * HostTest.RADAR_NUM_SAMPLES + s) : ℤ) : ℝ)
        / 32768.0 = v) →
      for_loop 0 HostTest.RADAR_NUM_CHIRPS
        (fun c (sum : ℝ) =>
          sum + (((HostTest.scenario_frame b).samples (c * HostTest.RADAR_NUM_SAMPLES + s) : ℤ) : ℝ)
              / 32768.0 *
            ((((HostTest.scenario_frame b).samples (c * HostTest.RADAR_NUM_SAMPLES + s) : ℤ) : ℝ)
              / 32768.0))
        (0.0 : ℝ) / (HostTest.RADAR_NUM_CHIRPS : ℝ) = v * v := by
    intro v hv
    have hl := sq_sum_loop_const _ v hv 32 0 (0.0 : ℝ)
    have hl2 : for_loop 0 HostTest.RADAR_NUM_CHIRPS
        (fun c (sum : ℝ) =>
          sum + (((HostTest.scenario_frame b).samples (c * HostTest.RADAR_NUM_SAMPLES + s) : ℤ) : ℝ)
              / 32768.0 *
            ((((HostTest.scenario_frame b).samples (c * HostTest.RADAR_NUM_SAMPLES + s) : ℤ) : ℝ)
              / 32768.0))
        (0.0 : ℝ) = _ := hl
    rw [hl2]
    simp only [HostTest.RADAR_NUM_CHIRPS]
    norm_num
  have hmod : ∀ c, (c * HostTest.RADAR_NUM_SAMPLES + s) % HostTest.RADAR_NUM_SAMPLES = s := by
    intro c
    simp only [HostTest.RADAR_NUM_SAMPLES]
    omega
  by_cases h20 : s = 20
  · subst h20
    cases b with
    | true =>
      rw [key (1000 / 32768) (by
        intro c
        simp only [HostTest.scenario_frame, hmod]
        norm_num)]
      simp only [if_true, HostTest.scenario_energy]
      push_cast
      ring
    | false =>
      rw [key 0 (by
        intro c
        simp only [HostTest.scenario_frame]
        norm_num)]
      simp [HostTest.scenario_energy]
  · rw [key 0 (by
      intro c
      simp only [HostTest.scenario_frame, hmod, h20]
      norm_num)]
    simp [h20]

theorem track_step_sound (ctx : presence_ctx_t) (t : HostTest.Track) (b : Bool)
    (h : HostTest.Tracks ctx t) :
    (HostTest.presence_detect_simple ctx (some (HostTest.scenario_frame b))).1 =
      (HostTest.track_step (HostTest.scenario_energy b) t).1 ∧
    HostTest.Tracks (HostTest.presence_detect_simple ctx (some (HostTest.scenario_frame b))).2
      (HostTest.track_step (HostTest.scenario_energy b) t).2 := by
  obtain ⟨h1, h2, h3, h4, h5⟩ := h
  have hv : (HostTest.scenario_frame b).valid = true := rfl
  have e20 : HostTest.sample_energy (HostTest.scenario_frame b) 20
      = ((HostTest.scenario_energy b : ℚ) : ℝ) := by
    rw [scenario_energy_at b 20 (by norm_num)]; simp
  have eoth : ∀ i, i < 32 → i ≠ 20 →
      HostTest.sample_energy (HostTest.scenario_frame b) i = 0 := by
    intro i hi hne
    rw [scenario_energy_at b i (by omega)]; simp [hne]
  cases hf : t.first_run with
  | true =>
    have hcf : ctx.first_run = true := by rw [h1, hf]
    simp only [HostTest.presence_detect_simple, hv, hcf, HostTest.track_step, hf,
      seed_simple_eq, Bool.not_true, Bool.false_eq_true, if_false, if_true]
    refine ⟨trivial, rfl, h2, ?_, ?_, ?_⟩
    · simp [e20]
    · simp [e20]
    · intro i _ hi hne
      have hi64 : i < 64 := by omega
      simp [hi64, eoth i hi hne]
  | false =>
    have hcf : ctx.first_run = false := by rw [h1, hf]
    have hdec : HostTest.max_diff_simple
          (HostTest.update_simple (HostTest.sample_energy (HostTest.scenario_frame b))
            (if ctx.presence_detected = true then HostTest.ALPHA_SLOW else HostTest.ALPHA_MED)
            ctx) > HostTest.THRESHOLD_PRESENCE ↔
        t.fast * (1 - 3 / 5) + HostTest.scenario_energy b * (3 / 5) -
          (t.slow * (1 - (if t.presence_detected = true then (1 : ℚ) / 1000 else 1 / 20)) +
            HostTest.scenario_energy b *
              (if t.presence_detected = true then (1 : ℚ) / 1000 else 1 / 20)) > 7 / 10000 := by
      rw [max_diff_simple_gt _ _ simple_threshold_nonneg, update_simple_eq]
      have hcast : (t.fast * (1 - 3 / 5) + HostTest.scenario_energy b * (3 / 5) -
          (t.slow * (1 - (if t.presence_detected = true then (1 : ℚ) / 1000 else 1 / 20)) +
            HostTest.scenario_energy b *
              (if t.presence_detected = true then (1 : ℚ) / 1000 else 1 / 20)) > 7 / 10000) ↔
          ((t.fast : ℝ) * (1 - HostTest.ALPHA_FAST)
              + ((HostTest.scenario_energy b : ℚ) : ℝ) * HostTest.ALPHA_FAST -
            ((t.slow : ℝ) * (1 - (if ctx.presence_detected = true then HostTest.ALPHA_SLOW
                else HostTest.ALPHA_MED)) +
              ((HostTest.scenario_energy b : ℚ) : ℝ) *
                (if ctx.presence_detected = true then HostTest.ALPHA_SLOW
                  else HostTest.ALPHA_MED)) > HostTest.THRESHOLD_PRESENCE) := by
        rw [gt_iff_lt, gt_iff_lt, ← Rat.cast_lt (K := ℝ), h2]
        cases t.presence_detected <;>
          simp only [HostTest.ALPHA_FAST, HostTest.ALPHA_SLOW, HostTest.ALPHA_MED,
            HostTest.THRESHOLD_PRESENCE, Bool.false_eq_true, if_false, if_true] <;>
          push_cast <;> norm_num
      rw [hcast]
      constructor
      · rintro ⟨i, a1, a2, a3⟩
        have hi64 : i < 64 := by omega
        by_cases hne : i = 20
        · subst hne
          simpa [h3, h4, e20] using a3
        · obtain ⟨z1, z2⟩ := h5 i a1 a2 hne
          simp only [hi64, if_true, z1, z2, eoth i a2 hne] at a3
          norm_num at a3
          exact absurd a3 (not_lt.mpr simple_threshold_nonneg)
      · intro a3
        refine ⟨20, by norm_num, by norm_num, ?_⟩
        simpa [h3, h4, e20] using a3
    simp only [HostTest.presence_detect_simple, hv, hcf, HostTest.track_step, hf,
      Bool.not_true, Bool.false_eq_true, if_false]
    refine ⟨?_, by rw [update_simple_eq]; exact hcf, ?_, ?_, ?_, ?_⟩
    · rw [Bool.eq_iff_iff]
      simp only [decide_eq_true_eq]
      exact hdec
    · rw [Bool.eq_iff_iff]
      simp only [decide_eq_true_eq]
      exact hdec
    · rw [update_simple_eq]
      simp only [show (20 : ℕ) < 64 by norm_num, if_true, h3, e20, h2]
      cases t.presence_detected <;>
        simp only [HostTest.ALPHA_SLOW, HostTest.ALPHA_MED, Bool.false_eq_true, if_false,
          if_true] <;> push_cast <;> norm_num
    · rw [update_simple_eq]
      simp only [show (20 : ℕ) < 64 by norm_num, if_true, h4, e20, HostTest.ALPHA_FAST]
      push_cast
      norm_num
    · intro i a1 a2 hne
      obtain ⟨z1, z2⟩ := h5 i a1 a2 hne
      have hi64 : i < 64 := by omega
      rw [update_simple_eq]
      simp [hi64, z1, z2, eoth i a2 hne]

theorem track_run_sound (bs : List Bool) :
    ∀ (ctx : presence_ctx_t) (t : HostTest.Track), HostTest.Tracks ctx t →
      (HostTest.test_run ctx (bs.map HostTest.scenario_frame)).1 =
        HostTest.track_run t (bs.map HostTest.scenario_energy) := by
  induction bs with
  | nil => intro ctx t _; rfl
  | cons b rest ih =>
    intro ctx t h
    obtain ⟨s1, s2⟩ := track_step_sound ctx t b h
    simp only [List.map_cons, HostTest.test_run, HostTest.track_run, s1, ih _ _ s2]

theorem scenario_track :
    HostTest.track_run { slow := 0, fast := 0, first_run := true, presence_detected := false }
      (((List.range 100).map HostTest.target_present).map HostTest.scenario_energy) =
    List.replicate 32 false ++ List.replicate 38 true ++ List.replicate 30 false := by
  decide!

/-- C23. From `presence_init`, the 100 frames of the noise-free scenario are all
valid and `presence_detect_simple` answers false on frames 0..31, true on the 38
consecutive frames 32..69 and false on frames 70..99 (exact real arithmetic):
no presence on frames 0..29 and 70..99, a contiguous run of more than 20
detections inside frames 30..69, and 38 detections in all, between 30 and 50. -/
theorem host_scenario (c0 : presence_ctx_t) :
    HostTest.scenario_frames.length = 100 ∧
    (∀ fr ∈ HostTest.scenario_frames, fr.valid = true) ∧
    (HostTest.test_run (HostTest.presence_init c0) HostTest.scenario_frames).1 =
      List.replicate 32 false ++ List.replicate 38 true ++ List.replicate 30 false ∧
    (∀ k, k < 30 →
      (HostTest.test_run (HostTest.presence_init c0) HostTest.scenario_frames).1.getD k true
        = false) ∧
    (∀ k, 70 ≤ k → k < 100 →
      (HostTest.test_run (HostTest.presence_init c0) HostTest.scenario_frames).1.getD k true
        = false) ∧
    (∀ k, 32 ≤ k → k < 70 →
      (HostTest.test_run (HostTest.presence_init c0) HostTest.scenario_frames).1.getD k false
        = true) ∧
    20 < 70 - 32 ∧
    ((HostTest.test_run (HostTest.presence_init c0) HostTest.scenario_frames).1.count true
      = 38) ∧
    30 ≤ 38 ∧ 38 ≤ 50 := by
  have hinit : HostTest.Tracks (HostTest.presence_init c0)
      { slow := 0, fast := 0, first_run := true, presence_detected := false } := by
    refine ⟨rfl, rfl, ?_, ?_, ?_⟩
    · simp [HostTest.presence_init]
    · simp [HostTest.presence_init]
    · intro i _ _ _
      exact ⟨rfl, rfl⟩
  have hframes : HostTest.scenario_frames =
      ((List.range 100).map HostTest.target_present).map HostTest.scenario_frame := by
    simp only [HostTest.scenario_frames, List.map_map]
    rfl
  have hrun : (HostTest.test_run (HostTest.presence_init c0) HostTest.scenario_frames).1 =
      List.replicate 32 false ++ List.replicate 38 true ++ List.replicate 30 false := by
    rw [hframes, track_run_sound _ _ _ hinit, scenario_track]
  refine ⟨by simp [HostTest.scenario_frames], ?_, hrun, ?_, ?_, ?_, by norm_num, ?_,
    by norm_num, by norm_num⟩
  · intro fr hfr
    simp only [HostTest.scenario_frames, List.mem_map] at hfr
    obtain ⟨f, _, rfl⟩ := hfr
    rfl
  · rw [hrun]; decide
  · rw [hrun]; decide
  · rw [hrun]; decide
  · rw [hrun]; decide

/-! ## Wave detection: theorems -/

theorem wave_detect_spec (inp : Nat → ℝ) (res : wave_result_t) :
    ∃ r : wave_result_t, wave_detect (some inp) (some res) = (true, some r) ∧
      r.valid = true ∧
      r.scores 0 =
        Real.exp (wave_logits inp 0 - max (wave_logits inp 0) (wave_logits inp 1)) /
          (Real.exp (wave_logits inp 0 - max (wave_logits inp 0) (wave_logits inp 1)) +
           Real.exp (wave_logits inp 1 - max (wave_logits inp 0) (wave_logits inp 1))) ∧
      r.scores 1 =
        Real.exp (wave_logits inp 1 - max (wave_logits inp 0) (wave_logits inp 1)) /
          (Real.exp (wave_logits inp 0 - max (wave_logits inp 0) (wave_logits inp 1)) +
           Real.exp (wave_logits inp 1 - max (wave_logits inp 0) (wave_logits inp 1))) ∧
      (r.scores 1 > r.scores 0 →
        r.predicted_class = wave_class_t.WAVE_CLASS_WAVING ∧ r.confidence = r.scores 1) ∧
      (¬ r.scores 1 > r.scores 0 →
        r.predicted_class = wave_class_t.WAVE_CLASS_NO_PRESENCE ∧
          r.confidence = r.scores 0) := by
  have hmax : (if wave_logits inp 0 > wave_logits inp 1 then wave_logits inp 0
      else wave_logits inp 1) = max (wave_logits inp 0) (wave_logits inp 1) := by
    by_cases h : wave_logits inp 0 > wave_logits inp 1
    · rw [if_pos h, max_eq_left (le_of_lt h)]
    · rw [if_neg h, max_eq_right (not_lt.mp h)]
  simp only [wave_detect, hmax]
  refine ⟨_, rfl, rfl, ?_, ?_, ?_, ?_⟩
  · split <;> simp [setAt]
  · split <;> simp [setAt]
  · intro h
    split
    · exact ⟨rfl, rfl⟩
    · rename_i hc
      exfalso
      apply hc
      revert h
      split <;> simp [setAt]
  · intro h
    split
    · rename_i hc
      exfalso
      apply h
      revert hc
      split <;> simp [setAt]
    · exact ⟨rfl, rfl⟩

theorem softmax_den_pos (l0 l1 : ℝ) :
    0 < Real.exp (l0 - max l0 l1) + Real.exp (l1 - max l0 l1) :=
  add_pos (Real.exp_pos _) (Real.exp_pos _)

/-- C8. For every input vector `wave_detect` succeeds and the two scores it
writes are in `[0, 1]` and sum to 1 (exact real arithmetic). -/
theorem scores_sum_to_one (inp : Nat → ℝ) (res : wave_result_t) :
    (wave_detect (some inp) (some res)).1 = true ∧
    ∃ r : wave_result_t, (wave_detect (some inp) (some res)).2 = some r ∧
      r.scores 0 + r.scores 1 = 1 ∧
      0 ≤ r.scores 0 ∧ r.scores 0 ≤ 1 ∧ 0 ≤ r.scores 1 ∧ r.scores 1 ≤ 1 := by
  obtain ⟨r, hr, _, h0, h1, _, _⟩ := wave_detect_spec inp res
  rw [hr]
  refine ⟨rfl, r, rfl, ?_⟩
  have hd := softmax_den_pos (wave_logits inp 0) (wave_logits inp 1)
  have e0 := Real.exp_pos (wave_logits inp 0 - max (wave_logits inp 0) (wave_logits inp 1))
  have e1 := Real.exp_pos (wave_logits inp 1 - max (wave_logits inp 0) (wave_logits inp 1))
  rw [h0, h1]
  refine ⟨?_, ?_, ?_, ?_, ?_⟩
  · rw [← add_div, div_self (ne_of_gt hd)]
  · exact div_nonneg (le_of_lt e0) (le_of_lt hd)
  · rw [div_le_one hd]; linarith
  · exact div_nonneg (le_of_lt e1) (le_of_lt hd)
  · rw [div_le_one hd]; linarith

/-- C9. For every input `wave_detect` returns true, sets `valid`, sets
`predicted_class` to `WAVE_CLASS_WAVING` exactly when `scores[1] > scores[0]`
(a tie gives `WAVE_CLASS_NO_PRESENCE`), and sets `confidence` to the larger of
the two scores, which is the score of the predicted class. -/
theorem argmax_confidence (inp : Nat → ℝ) (res : wave_result_t) :
    (wave_detect (some inp) (some res)).1 = true ∧
    ∃ r : wave_result_t, (wave_detect (some inp) (some res)).2 = some r ∧
      r.valid = true ∧
      (r.predicted_class = wave_class_t.WAVE_CLASS_WAVING ↔ r.scores 1 > r.scores 0) ∧
      (r.scores 1 = r.scores 0 → r.predicted_class = wave_class_t.WAVE_CLASS_NO_PRESENCE) ∧
      r.confidence = max (r.scores 0) (r.scores 1) ∧
      r.confidence = r.scores r.predicted_class.toNat := by
  obtain ⟨r, hr, hv, _, _, hw, hn⟩ := wave_detect_spec inp res
  rw [hr]
  refine ⟨rfl, r, rfl, hv, ?_, ?_, ?_, ?_⟩
  · constructor
    · intro hc
      by_contra hgt
      have := (hn hgt).1
      rw [this] at hc
      exact absurd hc (by decide)
    · intro hgt
      exact (hw hgt).1
  · intro heq
    exact (hn (by rw [heq]; exact lt_irrefl _)).1
  · by_cases hgt : r.scores 1 > r.scores 0
    · rw [(hw hgt).2, max_eq_right (le_of_lt hgt)]
    · rw [(hn hgt).2, max_eq_left (not_lt.mp hgt)]
  · by_cases hgt : r.scores 1 > r.scores 0
    · rw [(hw hgt).2, (hw hgt).1]; rfl
    · rw [(hn hgt).2, (hn hgt).1]; rfl

/-! ## Wave detection: the softmax -/

/-- C29, amended. In exact real arithmetic, for every input the confidence
`wave_detect` reports is between 0.5 and 1, and it is 0.5 only when the two
scores are equal, in which case the predicted class is
`WAVE_CLASS_NO_PRESENCE`. -/
theorem confidence_at_least_half (inp : Nat → ℝ) (res : wave_result_t) :
    ∃ r : wave_result_t, (wave_detect (some inp) (some res)).2 = some r ∧
      0.5 ≤ r.confidence ∧ r.confidence ≤ 1 ∧
      (r.confidence = 0.5 →
        r.scores 0 = r.scores 1 ∧
        r.predicted_class = wave_class_t.WAVE_CLASS_NO_PRESENCE) := by
  obtain ⟨r, hr, _, h0, h1, hw, hn⟩ := wave_detect_spec inp res
  have hd := softmax_den_pos (wave_logits inp 0) (wave_logits inp 1)
  have p0 := Real.exp_pos (wave_logits inp 0 - max (wave_logits inp 0) (wave_logits inp 1))
  have p1 := Real.exp_pos (wave_logits inp 1 - max (wave_logits inp 0) (wave_logits inp 1))
  have hsum : r.scores 0 + r.scores 1 = 1 := by
    rw [h0, h1, ← add_div, div_self (ne_of_gt hd)]
  have n0 : 0 ≤ r.scores 0 := by rw [h0]; exact div_nonneg (le_of_lt p0) (le_of_lt hd)
  have n1 : 0 ≤ r.scores 1 := by rw [h1]; exact div_nonneg (le_of_lt p1) (le_of_lt hd)
  refine ⟨r, by rw [hr], ?_⟩
  by_cases hgt : r.scores 1 > r.scores 0
  · obtain ⟨_, hc⟩ := hw hgt
    rw [hc]
    refine ⟨by norm_num; linarith, by linarith, ?_⟩
    intro h5
    norm_num at h5
    linarith
  · obtain ⟨hcl, hc⟩ := hn hgt
    rw [hc]
    have hle : r.scores 1 ≤ r.scores 0 := not_lt.mp hgt
    refine ⟨by norm_num; linarith, by linarith, ?_⟩
    intro h5
    norm_num at h5
    exact ⟨by linarith, hcl⟩

/-! ## Wave detection in binary32 arithmetic: a confidence of one half -/

/-- On numbers below `2 ^ fuel`, `log2_floor` is the base-2 logarithm rounded down. -/
theorem log2_floor_eq : ∀ fuel n, n < 2 ^ fuel → Binary32.log2_floor fuel n = Nat.log2 n
  | 0, n, h => by
    have h0 : n = 0 := by simpa using h
    subst h0
    rw [Nat.log2]
    simp [Binary32.log2_floor]
  | fuel + 1, n, h => by
    rw [Binary32.log2_floor, Nat.log2]
    by_cases h2 : n < 2
    · have : ¬ (n ≥ 2) := by omega
      simp only [h2, this, if_true, if_false]
    · have : n ≥ 2 := by omega
      simp only [h2, this, if_true, if_false]
      rw [log2_floor_eq fuel (n / 2) (by rw [pow_succ] at h; omega)]

/-- The value `F32.round n d` is a multiple of the spacing `2 ^ s` and lies within
half a spacing of `n / d`. -/
theorem round_error (n : Int) (d : Nat) (hd : 0 < d) :
    2 * |(Binary32.F32.round n d).units * d - n| ≤
      ((d * 2 ^ (Binary32.log2_floor 512 (n.natAbs / d) - 23) : Nat) : Int) ∧
    ((2 ^ (Binary32.log2_floor 512 (n.natAbs / d) - 23) : Nat) : Int) ∣
      (Binary32.F32.round n d).units := by
  unfold Binary32.F32.round
  simp only []
  generalize Binary32.log2_floor 512 (n.natAbs / d) - 23 = s
  have hq : 0 < d * 2 ^ s := by positivity
  have hdm := Nat.div_add_mod n.natAbs (d * 2 ^ s)
  have hr := Nat.mod_lt n.natAbs hq
  generalize n.natAbs / (d * 2 ^ s) = k at *
  generalize n.natAbs % (d * 2 ^ s) = r at *
  have key : ∀ k1 : Nat, ((k1 * 2 ^ s : Nat) : Int) * (d : Int) =
      ((k1 * (d * 2 ^ s) : Nat) : Int) := by
    intro k1; push_cast; ring
  have hm : (d * 2 ^ s) * k = k * (d * 2 ^ s) := Nat.mul_comm _ _
  have hs : (k + 1) * (d * 2 ^ s) = k * (d * 2 ^ s) + d * 2 ^ s := by ring
  generalize d * 2 ^ s = q at *
  generalize k * q = m at *
  constructor
  · by_cases hneg : n < 0
    · have hn : n = -((n.natAbs : Nat) : Int) := by omega
      split_ifs with hc
      · simp only [neg_mul, key, hs]
        rcases abs_cases (-((m + q : Nat) : Int) - n) with ⟨h, _⟩ | ⟨h, _⟩ <;> rw [h] <;>
          push_cast <;> omega
      · simp only [neg_mul, key, ← hm, Nat.mul_comm k q]
        rcases abs_cases (-((q * k : Nat) : Int) - n) with ⟨h, _⟩ | ⟨h, _⟩ <;> rw [h] <;>
          push_cast <;> omega
    · have hn : n = ((n.natAbs : Nat) : Int) := by omega
      split_ifs with hc
      · simp only [key, hs]
        rcases abs_cases (((m + q : Nat) : Int) - n) with ⟨h, _⟩ | ⟨h, _⟩ <;> rw [h] <;>
          push_cast <;> omega
      · simp only [key, ← hm, Nat.mul_comm k q]
        rcases abs_cases (((q * k : Nat) : Int) - n) with ⟨h, _⟩ | ⟨h, _⟩ <;> rw [h] <;>
          push_cast <;> omega
  · split_ifs
    · exact Dvd.dvd.neg_right (by push_cast; exact Dvd.intro_left _ rfl)
    · exact Dvd.dvd.neg_right (by push_cast; exact Dvd.intro_left _ rfl)
    · push_cast; exact Dvd.intro_left _ rfl
    · push_cast; exact Dvd.intro_left _ rfl
theorem weights_agree :
    w1 = Binary32.w1.map (fun r => r.map (fun n => (n : ℝ) / 10 ^ 8)) ∧
    b1 = Binary32.b1.map (fun n => (n : ℝ) / 10 ^ 8) ∧
    w2 = Binary32.w2.map (fun r => r.map (fun n => (n : ℝ) / 10 ^ 8)) ∧
    b2 = Binary32.b2.map (fun n => (n : ℝ) / 10 ^ 8) ∧
    w3 = Binary32.w3.map (fun r => r.map (fun n => (n : ℝ) / 10 ^ 8)) ∧
    b3 = Binary32.b3.map (fun n => (n : ℝ) / 10 ^ 8) := by
  refine ⟨?_, ?_, ?_, ?_, ?_, ?_⟩
  · simp only [w1, Binary32.w1, List.map]; norm_num
  · simp only [b1, Binary32.b1, List.map]; norm_num
  · simp only [w2, Binary32.w2, List.map]; norm_num
  · simp only [b2, Binary32.b2, List.map]; norm_num
  · simp only [w3, Binary32.w3, List.map]; norm_num
  · simp only [b3, Binary32.b3, List.map]; norm_num

set_option maxRecDepth 1000000 in
theorem close_window_logits :
    Binary32.wave_logits false Binary32.close_window 0 = ⟨-((7196267 * 2 ^ 121 : Nat) : Int)⟩ ∧
    Binary32.wave_logits false Binary32.close_window 1 = ⟨-((7196251 * 2 ^ 121 : Nat) : Int)⟩ ∧
    Binary32.wave_logits true Binary32.close_window 0 = ⟨-((14392529 * 2 ^ 120 : Nat) : Int)⟩ ∧
    Binary32.wave_logits true Binary32.close_window 1 = ⟨-((7196251 * 2 ^ 121 : Nat) : Int)⟩ := by
  decide!

set_option maxRecDepth 100000 in
theorem close_window_softmax :
    Binary32.F32.gt ⟨-((7196267 * 2 ^ 121 : Nat) : Int)⟩ ⟨-((7196251 * 2 ^ 121 : Nat) : Int)⟩ = false ∧
    Binary32.F32.gt ⟨-((14392529 * 2 ^ 120 : Nat) : Int)⟩ ⟨-((7196251 * 2 ^ 121 : Nat) : Int)⟩ = false ∧
    Binary32.F32.sub ⟨-((7196267 * 2 ^ 121 : Nat) : Int)⟩ ⟨-((7196251 * 2 ^ 121 : Nat) : Int)⟩ =
      ⟨-((2 ^ 125 : Nat) : Int)⟩ ∧
    Binary32.F32.sub ⟨-((14392529 * 2 ^ 120 : Nat) : Int)⟩ ⟨-((7196251 * 2 ^ 121 : Nat) : Int)⟩ =
      ⟨-((27 * 2 ^ 120 : Nat) : Int)⟩ ∧
    Binary32.F32.sub ⟨-((7196251 * 2 ^ 121 : Nat) : Int)⟩ ⟨-((7196251 * 2 ^ 121 : Nat) : Int)⟩ =
      Binary32.F32.zero ∧
    Binary32.F32.add Binary32.F32.below_one Binary32.F32.one = Binary32.F32.two ∧
    Binary32.F32.div Binary32.F32.below_one Binary32.F32.two = Binary32.F32.below_half ∧
    Binary32.F32.div Binary32.F32.one Binary32.F32.two = Binary32.F32.half ∧
    Binary32.F32.gt Binary32.F32.half Binary32.F32.below_half = true := by
  decide!

theorem wave_detect_close_window (contract : Bool) (expf : Binary32.F32 → Binary32.F32)
    (res : Binary32.wave_result_t)
    (h0 : expf Binary32.F32.zero = Binary32.F32.one)
    (h1 : expf ⟨-((2 ^ 125 : Nat) : Int)⟩ = Binary32.F32.below_one)
    (h2 : expf ⟨-((27 * 2 ^ 120 : Nat) : Int)⟩ = Binary32.F32.below_one) :
    Binary32.wave_detect contract expf (some Binary32.close_window) (some res) =
      (true, some { predicted_class := wave_class_t.WAVE_CLASS_WAVING,
                    confidence := Binary32.F32.half,
                    scores := setAt (setAt res.scores 0 Binary32.F32.below_half) 1
                      Binary32.F32.half,
                    valid := true }) := by
  obtain ⟨l0, l1, l2, l3⟩ := close_window_logits
  obtain ⟨g0, g1, s0, s1, s2, a0, d0, d1, g2⟩ := close_window_softmax
  have e1 : setAt (setAt res.scores 0 Binary32.F32.below_half) 1 Binary32.F32.half 1 =
      Binary32.F32.half := by simp [setAt]
  have e0 : setAt (setAt res.scores 0 Binary32.F32.below_half) 1 Binary32.F32.half 0 =
      Binary32.F32.below_half := by simp [setAt]
  cases contract
  · simp only [Binary32.wave_detect, l0, l1, g0, s0, s2, h0, h1, a0, d0, d1, e0, e1, g2,
      Bool.false_eq_true, if_false, if_true]
  · simp only [Binary32.wave_detect, l2, l3, g1, s1, s2, h0, h2, a0, d0, d1, e0, e1, g2,
      Bool.false_eq_true, if_false, if_true]

theorem exp_near_one (x : ℝ) (hx : |x| ≤ 1) :
    |Real.exp x - (1 - 1 / 2 ^ 24)| ≤ x ^ 2 + |x + 1 / 2 ^ 24| := by
  have h := Real.abs_exp_sub_one_sub_id_le hx
  have e : Real.exp x - (1 - 1 / 2 ^ 24) = (Real.exp x - 1 - x) + (x + 1 / 2 ^ 24) := by ring
  rw [e]
  exact le_trans (abs_add _ _) (by linarith)

/-- C29, as stated, fails in the binary32 arithmetic of the code. At the energy
window `close_window`, whose entries lie in `[0, 1]`, the two outputs of the
last layer differ by `2^-24` (by `27 * 2^-29` when the compiler fuses each
multiply-add). For every `expf` that returns 1 at 0 and the binary32 value
nearest to the exponential, `1 - 2^-24`, at these two arguments, the sum
`0.99999994 + 1` rounds to 2, so `wave_detect` writes the scores `0.5 - 2^-25`
and `0.5`: the confidence is exactly one half although the scores differ, and
the class is `WAVE_CLASS_WAVING`. -/
theorem confidence_half_unequal_scores :
    (∀ i, Binary32.F32.zero.units ≤ (Binary32.close_window i).units ∧
      (Binary32.close_window i).units ≤ Binary32.F32.one.units) ∧
    Binary32.F32.toRat Binary32.F32.one = 1 ∧
    Binary32.F32.toRat Binary32.F32.half = 1 / 2 ∧
    Binary32.F32.toRat Binary32.F32.below_half = 1 / 2 - 1 / 2 ^ 25 ∧
    Binary32.F32.toRat Binary32.F32.below_one = 1 - 1 / 2 ^ 24 ∧
    Binary32.F32.toRat ⟨-((2 ^ 125 : Nat) : Int)⟩ = -(1 / 2 ^ 24) ∧
    Binary32.F32.toRat ⟨-((27 * 2 ^ 120 : Nat) : Int)⟩ = -(27 / 2 ^ 29) ∧
    Real.exp 0 = 1 ∧
    |Real.exp (-(1 / 2 ^ 24)) - (1 - 1 / 2 ^ 24)| < 1 / 2 ^ 25 ∧
    |Real.exp (-(27 / 2 ^ 29)) - (1 - 1 / 2 ^ 24)| < 1 / 2 ^ 25 ∧
    (∀ (contract : Bool) (expf : Binary32.F32 → Binary32.F32) (res : Binary32.wave_result_t),
      expf Binary32.F32.zero = Binary32.F32.one →
      expf ⟨-((2 ^ 125 : Nat) : Int)⟩ = Binary32.F32.below_one →
      expf ⟨-((27 * 2 ^ 120 : Nat) : Int)⟩ = Binary32.F32.below_one →
      Binary32.F32.sub (Binary32.wave_logits contract Binary32.close_window 0)
          (Binary32.wave_logits contract Binary32.close_window 1) =
        (if contract then ⟨-((27 * 2 ^ 120 : Nat) : Int)⟩ else ⟨-((2 ^ 125 : Nat) : Int)⟩) ∧
      ∃ r : Binary32.wave_result_t,
        Binary32.wave_detect contract expf (some Binary32.close_window) (some res) =
          (true, some r) ∧
        r.confidence = Binary32.F32.half ∧
        r.scores 0 = Binary32.F32.below_half ∧
        r.scores 1 = Binary32.F32.half ∧
        r.scores 0 ≠ r.scores 1 ∧
        r.predicted_class = wave_class_t.WAVE_CLASS_WAVING ∧
        r.valid = true) := by
  refine ⟨?_, ?_, ?_, ?_, ?_, ?_, ?_, Real.exp_zero, ?_, ?_, ?_⟩
  · intro i
    by_cases hi : i < 16
    · interval_cases i <;> decide
    · have e : Binary32.close_window i = ⟨0⟩ := by
        unfold Binary32.close_window
        rw [List.getD_eq_default _ _ (by simpa using hi)]
        simp
      rw [e]
      decide
  · norm_num [Binary32.F32.toRat, Binary32.F32.one]
  · norm_num [Binary32.F32.toRat, Binary32.F32.half]
  · norm_num [Binary32.F32.toRat, Binary32.F32.below_half]
  · norm_num [Binary32.F32.toRat, Binary32.F32.below_one]
  · norm_num [Binary32.F32.toRat]
  · norm_num [Binary32.F32.toRat]
  · refine lt_of_le_of_lt (exp_near_one _ (by rw [abs_le]; constructor <;> norm_num)) ?_
    norm_num
  · refine lt_of_le_of_lt (exp_near_one _ (by rw [abs_le]; constructor <;> norm_num)) ?_
    rw [abs_of_nonneg (by norm_num)]
    norm_num
  · intro contract expf res h0 h1 h2
    obtain ⟨l0, l1, l2, l3⟩ := close_window_logits
    obtain ⟨_, _, s0, s1, _⟩ := close_window_softmax
    refine ⟨?_, _, wave_detect_close_window contract expf res h0 h1 h2, rfl, ?_, ?_, ?_, rfl, rfl⟩
    · cases contract
      · rw [l0, l1, s0]; rfl
      · rw [l2, l3, s1]; rfl
    · simp [setAt]
    · simp [setAt]
    · have a : setAt (setAt res.scores 0 Binary32.F32.below_half) 1 Binary32.F32.half 0 =
          Binary32.F32.below_half := by simp [setAt]
      have b : setAt (setAt res.scores 0 Binary32.F32.below_half) 1 Binary32.F32.half 1 =
          Binary32.F32.half := by simp [setAt]
      show setAt (setAt res.scores 0 Binary32.F32.below_half) 1 Binary32.F32.half 0 ≠
        setAt (setAt res.scores 0 Binary32.F32.below_half) 1 Binary32.F32.half 1
      rw [a, b]
      decide

end Bjt60
